import Mathlib

/-!
# rocFFT runtime-compilation kernel cache

A shallow embedding of `library/src/rtc_cache.cpp`: the two-tier SQLite kernel
cache (`RTCCache`) and the compile orchestration of `RTCKernel::cached_compile`.

Modelling conventions
* A database is the content of its `cache_v1` table, a list of rows in storage
  order. The SQL statements of the source are embedded by their meaning on that
  list: the `SELECT code ... WHERE` of `get_stmt_text`, the `INSERT OR REPLACE`
  of `store_stmt_text`, and the `INSERT OR REPLACE ... SELECT` of `deserialize`.
* Every SQLite call whose result code the source inspects takes its result from
  an explicit fault record, so that failing binds and failing steps are inputs.
* The environment is a function from variable names to values; an unset
  variable reads as the empty string (`rocfft_getenv`).
* C++ exceptions are `Except String`; every exception thrown in this file of the
  source derives from `std::exception`.
* Mutexes that only serialise access to one statement handle have no sequential
  meaning and are dropped; the global `compile_lock` is kept and traced.
-/

namespace RocFFT

/-! ## Data model -/

/-- A byte sequence: the content of a `std::vector<char>`. -/
abbrev Bytes := List (Fin 256)

/-- The generator checksum: a `std::array<char, 32>`. -/
abbrev GeneratorSum := { l : List (Fin 256) // l.length = 32 }

/-- The four fields of the `PRIMARY KEY` of `cache_v1`. -/
structure CacheKey where
  kernel_name : String
  arch : String
  hip_version : Int
  generator_sum : GeneratorSum
deriving DecidableEq

/-- One row of `cache_v1`, with the columns of the `CREATE TABLE` statement. -/
structure Row where
  kernel_name : String
  arch : String
  hip_version : Int
  generator_sum : GeneratorSum
  code : Bytes
  timestamp : Int
deriving DecidableEq

/-- The primary-key columns of a row. -/
def Row.key (r : Row) : CacheKey :=
  ⟨r.kernel_name, r.arch, r.hip_version, r.generator_sum⟩

/-- The content of a `cache_v1` table, in storage order. -/
abbrev Table := List Row

/-- The `PRIMARY KEY` constraint of `cache_v1`: no two rows share all four key columns. -/
def Table.primary_key_ok (t : Table) : Prop := (t.map Row.key).Nodup

instance (t : Table) : Decidable t.primary_key_ok := by
  unfold Table.primary_key_ok; infer_instance

deriving instance DecidableEq for Except

/-! ## SQLite result codes and faults -/

def SQLITE_OK : Int := 0
def SQLITE_ERROR : Int := 1
def SQLITE_CONSTRAINT : Int := 19
def SQLITE_MISUSE : Int := 21
def SQLITE_ROW : Int := 100
def SQLITE_DONE : Int := 101

/-- Result codes that SQLite hands back during one use of a prepared statement.
`bind_rc i` is the result of the `sqlite3_bind_*` call for parameter `i`;
`step_fails` makes `sqlite3_step` return an error code instead of doing its work (busy
database, I/O error, full disk), leaving the table as it was. The source tells error codes
apart from `SQLITE_ROW` and `SQLITE_DONE` only, so `SQLITE_ERROR` stands for all of them. -/
structure StmtFaults where
  bind_rc : Nat → Int
  step_fails : Bool

/-- A statement use in which SQLite reports no error. -/
def StmtFaults.none : StmtFaults := ⟨fun _ => SQLITE_OK, false⟩

/-- The environment: variable name to value. -/
abbrev Env := String → String

/-- Read an environment variable; unset variables read as the empty string. -/
def rocfft_getenv (env : Env) (name : String) : String := env name

/-! ## The SQL statements -/

/-- The `WHERE` clause of `get_stmt_text`: all four key columns equal the bound parameters. -/
def Row.matches (r : Row) (kernel_name arch : String) (hip_version : Int)
    (generator_sum : GeneratorSum) : Bool :=
  decide (r.kernel_name = kernel_name) && decide (r.arch = arch)
    && decide (r.hip_version = hip_version) && decide (r.generator_sum = generator_sum)

/-- One `sqlite3_step` of `get_stmt_text` after a reset: `SQLITE_ROW` with column 0 of the
first matching row, `SQLITE_DONE` when no row matches, or an error code. -/
def step_get (f : StmtFaults) (db : Table) (kernel_name arch : String) (hip_version : Int)
    (generator_sum : GeneratorSum) : Int × Bytes :=
  if f.step_fails then (SQLITE_ERROR, [])
  else
    match db.find? (fun r => r.matches kernel_name arch hip_version generator_sum) with
    | some r => (SQLITE_ROW, r.code)
    | Option.none => (SQLITE_DONE, [])

/-- The effect of `INSERT OR REPLACE` of one row: rows that conflict on the primary key are
deleted, then the new row is inserted. -/
def Table.insert_or_replace (t : Table) (r : Row) : Table :=
  t.filter (fun x => decide (x.key ≠ r.key)) ++ [r]

/-- One `sqlite3_step` of `store_stmt_text`. `code` is the value bound to `:code`, with
`Option.none` standing for SQL `NULL`, which the `NOT NULL` constraint of the column rejects.
`now` is the value of `CAST(STRFTIME('%s','now') AS INTEGER)`. -/
def step_store (f : StmtFaults) (db : Table) (key : CacheKey) (code : Option Bytes)
    (now : Int) : Int × Table :=
  if f.step_fails then (SQLITE_ERROR, db)
  else
    match code with
    | Option.none => (SQLITE_CONSTRAINT, db)
    | some c =>
      (SQLITE_DONE,
        db.insert_or_replace
          ⟨key.kernel_name, key.arch, key.hip_version, key.generator_sum, c, now⟩)

/-! ## RTCCache -/

/-- The user connection: its own `cache_v1` table and, while one is attached, the database
attached under the name `deserialized`. An attached database is given by the rows of its
`cache_v1` table, or `Option.none` when it has no readable `cache_v1` table (as the empty
`:memory:` database right after `ATTACH`, or an image that is not a database). -/
structure Connection where
  cache_v1 : Table
  deserialized : Option (Option Table)

/-- The cache object. `db_sys` is the read-only system database, `db_user` the writable user
connection. The constructor prepares `get_stmt_user` and `store_stmt_user` exactly when
`db_user` is open (a failed prepare throws out of the constructor) and drops `db_sys` when
`get_stmt_sys` cannot be prepared, so a statement handle is non-null exactly when its
database handle is. -/
structure RTCCache where
  db_sys : Option Table
  db_user : Option Connection

/-- Whether `get_stmt_user` is non-null. -/
def RTCCache.get_stmt_user (c : RTCCache) : Bool := c.db_user.isSome

/-- Whether `get_stmt_sys` is non-null. -/
def RTCCache.get_stmt_sys (c : RTCCache) : Bool := c.db_sys.isSome

/-- The function `get_code_object_impl`: the query against one tier. -/
def get_code_object_impl (env : Env) (f : StmtFaults) (kernel_name gpu_arch : String)
    (hip_version : Int) (generator_sum : GeneratorSum) (db : Table) : Except String Bytes :=
  -- allow env variable to disable reads
  if rocfft_getenv env "ROCFFT_RTC_CACHE_READ_DISABLE" ≠ "" then
    .ok []
  -- bind arguments to the query and execute
  else if f.bind_rc 1 ≠ SQLITE_OK ∨ f.bind_rc 2 ≠ SQLITE_OK ∨ f.bind_rc 3 ≠ SQLITE_OK
      ∨ f.bind_rc 4 ≠ SQLITE_OK then
    .error "get_code_object bind: "
  else
    let r := step_get f db kernel_name gpu_arch hip_version generator_sum
    if r.1 = SQLITE_ROW then
      -- cache hit, get the value out
      .ok r.2
    else
      .ok []

/-- The method `RTCCache::get_code_object`: user cache first, system cache when the user
cache gave nothing. `fu` and `fs` are the SQLite faults of the user and system query. -/
def RTCCache.get_code_object (c : RTCCache) (env : Env) (fu fs : StmtFaults)
    (kernel_name gpu_arch : String) (hip_version : Int) (generator_sum : GeneratorSum) :
    Except String Bytes := do
  -- try user cache first
  let code ← match c.db_user with
    | some conn =>
      get_code_object_impl env fu kernel_name gpu_arch hip_version generator_sum conn.cache_v1
    | Option.none => pure []
  -- fall back to system cache
  match code.isEmpty, c.db_sys with
  | true, some sys =>
    get_code_object_impl env fs kernel_name gpu_arch hip_version generator_sum sys
  | _, _ => pure code

/-- How one call of `store_code_object` meets SQLite. `code_data_null` tells whether
`code.data()` is the null pointer, which the C++ library permits only for an empty vector;
`sqlite3_bind_blob` binds SQL `NULL` for a null pointer. `now` is the clock of the insert. -/
structure StoreCall where
  faults : StmtFaults
  code_data_null : Bool
  now : Int

/-- A store call without faults at time `now`. -/
def StoreCall.clean (now : Int) : StoreCall := ⟨StmtFaults.none, false, now⟩

/-- The method `RTCCache::store_code_object`. Returns the cache afterwards and whether the
call returned normally or threw. A step that does not return `SQLITE_DONE` is only logged. -/
def RTCCache.store_code_object (c : RTCCache) (env : Env) (s : StoreCall)
    (kernel_name gpu_arch : String) (hip_version : Int) (generator_sum : GeneratorSum)
    (code : Bytes) : RTCCache × Except String Unit :=
  -- allow env variable to disable writes
  if rocfft_getenv env "ROCFFT_RTC_CACHE_WRITE_DISABLE" ≠ "" then
    (c, .ok ())
  else
    match c.db_user with
    | Option.none =>
      -- store_stmt_user is null: the first bind returns SQLITE_MISUSE
      (c, .error "store_code_object bind: ")
    | some conn =>
      if s.faults.bind_rc 1 ≠ SQLITE_OK ∨ s.faults.bind_rc 2 ≠ SQLITE_OK
          ∨ s.faults.bind_rc 3 ≠ SQLITE_OK ∨ s.faults.bind_rc 4 ≠ SQLITE_OK
          ∨ s.faults.bind_rc 5 ≠ 0 then
        (c, .error "store_code_object bind: ")
      else
        let bound : Option Bytes :=
          if code.isEmpty && s.code_data_null then Option.none else some code
        let r := step_store s.faults conn.cache_v1
          ⟨kernel_name, gpu_arch, hip_version, generator_sum⟩ bound s.now
        -- r.1 ≠ SQLITE_DONE: "Error: failed to store code object" is logged, nothing else
        ({ c with db_user := some { conn with cache_v1 := r.2 } }, .ok ())

/-- The status type `rocfft_status`, restricted to the two values used here. -/
inductive rocfft_status
  | rocfft_status_success
  | rocfft_status_failure
deriving DecidableEq

/-- What the bytes of a snapshot buffer hold: the rows of the `cache_v1` table of a database
image, or `Option.none` for bytes in which SQLite finds no readable `cache_v1` table. The
image format itself belongs to SQLite; `sqlite3_serialize` and `sqlite3_deserialize` are taken
to be inverse on the content of the `main` schema. -/
abbrev Snapshot := Option Table

/-- The method `RTCCache::serialize`. `alloc_fails` makes `sqlite3_serialize` return a null
pointer; a missing user database does the same. -/
def RTCCache.serialize (c : RTCCache) (alloc_fails : Bool) : rocfft_status × Option Snapshot :=
  match c.db_user with
  | some conn =>
    if alloc_fails then (.rocfft_status_failure, Option.none)
    else (.rocfft_status_success, some (some conn.cache_v1))
  | Option.none => (.rocfft_status_failure, Option.none)

/-- Result codes of the SQLite calls of one `deserialize`. `attach_error`: the `ATTACH`
fails for a reason other than the name being taken; `deserialize_rc`: the result of
`sqlite3_deserialize` when the schema `deserialized` exists; `insert_fails`: the
`INSERT OR REPLACE ... SELECT` fails as a whole although the attached table is readable. -/
structure DeserializeFaults where
  attach_error : Bool
  deserialize_rc : Int
  insert_fails : Bool

/-- A deserialize in which SQLite reports no error of its own. -/
def DeserializeFaults.none : DeserializeFaults := ⟨false, SQLITE_OK, false⟩

/-- The `INSERT OR REPLACE INTO cache_v1 ... SELECT ... FROM deserialized.cache_v1` statement:
every selected row is inserted in turn, replacing a row with the same primary key. -/
def Table.insert_or_replace_all (t : Table) (rows : Table) : Table :=
  rows.foldl Table.insert_or_replace t

/-- The method `RTCCache::deserialize`. -/
def RTCCache.deserialize (c : RTCCache) (f : DeserializeFaults) (buffer : Snapshot) :
    RTCCache × rocfft_status :=
  match c.db_user with
  | Option.none =>
    -- every SQLite call on the null connection fails
    (c, .rocfft_status_failure)
  | some conn =>
    -- attach an empty database named "deserialized"; the result is not checked
    let conn1 : Connection :=
      if conn.deserialized.isNone && !f.attach_error then
        { conn with deserialized := some Option.none }
      else conn
    let sql_err : Int :=
      if conn1.deserialized.isNone then SQLITE_ERROR else f.deserialize_rc
    if sql_err ≠ SQLITE_OK then
      ({ c with db_user := some conn1 }, .rocfft_status_failure)
    else
      let conn2 : Connection := { conn1 with deserialized := some buffer }
      -- run an additive query to update the real db with the temp contents
      let r : Int × Table :=
        match f.insert_fails, buffer with
        | true, _ => (SQLITE_ERROR, conn2.cache_v1)
        | false, Option.none => (SQLITE_ERROR, conn2.cache_v1)
        | false, some rows => (SQLITE_OK, conn2.cache_v1.insert_or_replace_all rows)
      let ret : rocfft_status :=
        if r.1 = SQLITE_OK then .rocfft_status_success else .rocfft_status_failure
      -- detach the temp db
      let conn3 : Connection := { conn2 with cache_v1 := r.2, deserialized := Option.none }
      ({ c with db_user := some conn3 }, ret)

/-! ## Reading a table by key -/

/-- The bytes a table holds under a key: the `code` column of the row with that primary key. -/
def Table.lookup (t : Table) (k : CacheKey) : Option Bytes :=
  (t.find? (fun r => decide (r.key = k))).map Row.code

/-- `get_code_object` called with the fields of a key. -/
def RTCCache.get (c : RTCCache) (env : Env) (fu fs : StmtFaults) (k : CacheKey) :
    Except String Bytes :=
  c.get_code_object env fu fs k.kernel_name k.arch k.hip_version k.generator_sum

/-- `store_code_object` called with the fields of a key. -/
def RTCCache.store (c : RTCCache) (env : Env) (s : StoreCall) (k : CacheKey) (code : Bytes) :
    RTCCache × Except String Unit :=
  c.store_code_object env s k.kernel_name k.arch k.hip_version k.generator_sum code

/-- Reads are enabled: `ROCFFT_RTC_CACHE_READ_DISABLE` is unset or empty. -/
def reads_enabled (env : Env) : Prop := rocfft_getenv env "ROCFFT_RTC_CACHE_READ_DISABLE" = ""

/-- Writes are enabled: `ROCFFT_RTC_CACHE_WRITE_DISABLE` is unset or empty. -/
def writes_enabled (env : Env) : Prop := rocfft_getenv env "ROCFFT_RTC_CACHE_WRITE_DISABLE" = ""

instance (env : Env) : Decidable (reads_enabled env) := by
  unfold reads_enabled; infer_instance

instance (env : Env) : Decidable (writes_enabled env) := by
  unfold writes_enabled; infer_instance

/-- All four binds of a query return `SQLITE_OK`. -/
def StmtFaults.get_binds_ok (f : StmtFaults) : Prop :=
  f.bind_rc 1 = SQLITE_OK ∧ f.bind_rc 2 = SQLITE_OK ∧ f.bind_rc 3 = SQLITE_OK
    ∧ f.bind_rc 4 = SQLITE_OK

/-- All five binds of a store return `SQLITE_OK`. -/
def StmtFaults.store_binds_ok (f : StmtFaults) : Prop :=
  f.get_binds_ok ∧ f.bind_rc 5 = SQLITE_OK

/-- A store call succeeds in writing its row: writes are enabled, the five binds return
`SQLITE_OK`, the step meets no error, and `:code` is not bound to `NULL`. -/
def StoreCall.inserts (s : StoreCall) (env : Env) (code : Bytes) : Prop :=
  writes_enabled env ∧ s.faults.store_binds_ok ∧ s.faults.step_fails = false
    ∧ ¬ (code = [] ∧ s.code_data_null = true)

instance (s : StoreCall) (env : Env) (code : Bytes) : Decidable (s.inserts env code) := by
  unfold StoreCall.inserts writes_enabled StmtFaults.store_binds_ok StmtFaults.get_binds_ok
  infer_instance

/-- The environment in which no variable is set. -/
def Env.unset : Env := fun _ => ""

/-! ## Compile orchestration -/

/-- The enumeration `RTCProcessType`. -/
inductive RTCProcessType
  | DEFAULT
  | FORCE_IN_PROCESS
  | FORCE_OUT_PROCESS
deriving DecidableEq

/-- The function `get_rtc_process_type`. -/
def get_rtc_process_type (env : Env) : RTCProcessType :=
  let var := rocfft_getenv env "ROCFFT_RTC_PROCESS"
  -- defined and equal to 0 means force in-process
  if var = "0" then .FORCE_IN_PROCESS
  -- defined and equal to 1 means force out-process
  else if var = "1" then .FORCE_OUT_PROCESS
  else if var = "2" then .DEFAULT
  else .DEFAULT

/-- The functions `cached_compile` calls that are defined outside `rtc_cache.cpp`.
`hipRuntimeGetVersion` is `some v` when the call returns `hipSuccess` and writes `v`, and
`Option.none` when it fails, leaving its argument alone. The two compilers return the code
object or throw. -/
structure Collaborators where
  hipRuntimeGetVersion : Option Int
  generator_sum : GeneratorSum
  compile_inprocess : String → String → Except String Bytes
  compile_subprocess : String → String → Except String Bytes

/-- What one `cached_compile` does, in program order. `try_lock owns` is the construction of
the `std::unique_lock` with `std::try_to_lock`; `lock` is a blocking acquisition of
`compile_lock` by a `std::lock_guard`; `unlock` is the release, explicit or by a destructor. -/
inductive Event
  | get_code_object (key : CacheKey)
  | generate_src (kernel_name : String)
  | try_lock (owns : Bool)
  | lock
  | unlock
  | compile_inprocess (kernel_src gpu_arch : String)
  | compile_subprocess (kernel_src gpu_arch : String)
  | store_code_object (key : CacheKey) (code : Bytes)
deriving DecidableEq

/-- The process state `cached_compile` reads and writes: the singleton `RTCCache::single`
and its function-local `static int hip_version`. -/
structure ProcessState where
  single : Option RTCCache
  hip_version : Int

/-- What the surroundings do during one `cached_compile`: the SQLite faults of the two
queries and of the store, and whether the non-blocking acquisition of `compile_lock`
succeeds (it fails when another thread holds the mutex). -/
structure CallContext where
  get_user : StmtFaults
  get_sys : StmtFaults
  store : StoreCall
  try_lock_owns : Bool

/-- The result of one `cached_compile`: state afterwards, events, and the returned bytes or
the exception that left the function. -/
structure Outcome where
  state : ProcessState
  trace : List Event
  result : Except String Bytes

/-- The guard at the top of `cached_compile`:
`hip_version == 0 && hipRuntimeGetVersion(&hip_version) != hipSuccess`. Gives the value of
the static afterwards, or `Option.none` when the guard fires. -/
def resolve_hip_version (st : ProcessState) (col : Collaborators) : Option Int :=
  if st.hip_version = 0 then col.hipRuntimeGetVersion else some st.hip_version

/-- The body of `case RTCProcessType::FORCE_IN_PROCESS`: a lock guard around the in-process
compile. The guard releases the mutex on normal exit and when the compiler throws. -/
def compile_force_in_process (col : Collaborators) (kernel_src gpu_arch : String) :
    List Event × Except String Bytes :=
  ([.lock, .compile_inprocess kernel_src gpu_arch, .unlock],
    col.compile_inprocess kernel_src gpu_arch)

/-- The `switch(process_type)` of `cached_compile`. -/
def compile_switch (process_type : RTCProcessType) (col : Collaborators) (try_lock_owns : Bool)
    (kernel_src gpu_arch : String) : List Event × Except String Bytes :=
  match process_type with
  | .FORCE_OUT_PROCESS =>
    match col.compile_subprocess kernel_src gpu_arch with
    | .ok code => ([.compile_subprocess kernel_src gpu_arch], .ok code)
    | .error _ =>
      -- if subprocess had a problem, ignore it and fall through to forced-in-process compile
      let r := compile_force_in_process col kernel_src gpu_arch
      (.compile_subprocess kernel_src gpu_arch :: r.1, r.2)
  | .FORCE_IN_PROCESS => compile_force_in_process col kernel_src gpu_arch
  | .DEFAULT =>
    -- do it in-process if possible
    if try_lock_owns then
      ([.try_lock true, .compile_inprocess kernel_src gpu_arch, .unlock],
        col.compile_inprocess kernel_src gpu_arch)
    else
      -- could not acquire lock, so try instead in a subprocess
      match col.compile_subprocess kernel_src gpu_arch with
      | .ok code => ([.try_lock false, .compile_subprocess kernel_src gpu_arch], .ok code)
      | .error _ =>
        -- subprocess still did not work, re-acquire lock and fall back to in-process
        ([.try_lock false, .compile_subprocess kernel_src gpu_arch, .lock,
            .compile_inprocess kernel_src gpu_arch, .unlock],
          col.compile_inprocess kernel_src gpu_arch)

/-- The method `RTCKernel::cached_compile`. Log output is not modelled; writing to the log
stream does not throw, so the handler around the cache-hit return is never entered. -/
def cached_compile (st : ProcessState) (env : Env) (col : Collaborators) (cx : CallContext)
    (kernel_name gpu_arch : String) (generate_src : String → Except String String) : Outcome :=
  match resolve_hip_version st col with
  | Option.none => ⟨st, [], .ok []⟩
  | some hip_version =>
    let st1 : ProcessState := { st with hip_version := hip_version }
    let key : CacheKey := ⟨kernel_name, gpu_arch, hip_version, col.generator_sum⟩
    -- check cache first
    let looked : List Event × Except String Bytes :=
      match st1.single with
      | some c =>
        ([.get_code_object key],
          c.get_code_object env cx.get_user cx.get_sys kernel_name gpu_arch hip_version
            col.generator_sum)
      | Option.none => ([], .ok [])
    match looked.2 with
    | .error e => ⟨st1, looked.1, .error e⟩
    | .ok cached =>
      if !cached.isEmpty then
        -- cache hit
        ⟨st1, looked.1, .ok cached⟩
      else
        match generate_src kernel_name with
        | .error e => ⟨st1, looked.1 ++ [.generate_src kernel_name], .error e⟩
        | .ok kernel_src =>
          let compiled :=
            compile_switch (get_rtc_process_type env) col cx.try_lock_owns kernel_src gpu_arch
          let tr := looked.1 ++ [.generate_src kernel_name] ++ compiled.1
          match compiled.2 with
          | .error e => ⟨st1, tr, .error e⟩
          | .ok code =>
            match st1.single with
            | some c =>
              let stored := c.store_code_object env cx.store kernel_name gpu_arch hip_version
                col.generator_sum code
              ⟨{ st1 with single := some stored.1 }, tr ++ [.store_code_object key code],
                match stored.2 with
                | .ok _ => .ok code
                | .error e => .error e⟩
            | Option.none => ⟨st1, tr, .ok code⟩

/-- The key `cached_compile` forms for a request once the runtime version is known. -/
def request_key (col : Collaborators) (kernel_name gpu_arch : String) (hip_version : Int) :
    CacheKey :=
  ⟨kernel_name, gpu_arch, hip_version, col.generator_sum⟩

/-- The events of the cache check of `cached_compile`: one lookup when a cache is configured. -/
def lookup_events (st : ProcessState) (key : CacheKey) : List Event :=
  match st.single with
  | some _ => [.get_code_object key]
  | Option.none => []

/-- The cache check of a request misses: no cache is configured, or the configured cache
returns the empty vector for the key of the request. -/
def lookup_misses (st : ProcessState) (env : Env) (col : Collaborators) (cx : CallContext)
    (kernel_name gpu_arch : String) (hip_version : Int) : Prop :=
  ∀ c, st.single = some c →
    c.get_code_object env cx.get_user cx.get_sys kernel_name gpu_arch hip_version
      col.generator_sum = .ok []

/-- The store at the end of a request returns normally: no cache is configured, or
`store_code_object` of the configured cache does not throw for these bytes. -/
def store_returns (st : ProcessState) (env : Env) (col : Collaborators) (cx : CallContext)
    (kernel_name gpu_arch : String) (hip_version : Int) (code : Bytes) : Prop :=
  ∀ c, st.single = some c →
    (c.store_code_object env cx.store kernel_name gpu_arch hip_version col.generator_sum
      code).2 = .ok ()

/-! ## Subprocess compiler

The POSIX build of `RTCKernel::compile_subprocess` in `library/src/rtc_subprocess.cpp`.
The operating system is an input: the result codes of the set-up calls, a script of poll
rounds, and the exit status of the child. A `std::string` is modelled by the string whose
characters are its bytes, so `size()` is the number of characters. -/

/-- The `std::string` built from a byte buffer: each byte becomes the character with that
code. -/
def string_of_bytes (b : Bytes) : String := String.mk (b.map (fun x => Char.ofNat x.val))

/-- The constant `READ_CHUNK_SIZE`. -/
def READ_CHUNK_SIZE : Nat := 1024

/-- The four pipe ends held by `file_handle_wrapper` objects. -/
inductive Handle
  | child_stdin_read
  | child_stdin_write
  | child_stdout_read
  | child_stdout_write
deriving DecidableEq

/-- What `read` returns: `-1` (`failed`), or the bytes it stored in the buffer, none of them
at end of file. -/
inductive ReadResult
  | failed
  | bytes (chunk : Bytes)
deriving DecidableEq

/-- The system calls of one `compile_subprocess`, in program order. `write offset count rc`
is `write(child_stdin_write, kernel_src.data() + offset, count)` returning `rc`;
`read count rc` is a `read` of up to `count` bytes from the output of the child; `close` is
the closing of a pipe end, explicit or by the destructor of its wrapper. -/
inductive IoEvent
  | spawn (rtc_helper_exe gpu_arch : String)
  | close (h : Handle)
  | poll (rc : Int)
  | write (offset count : Nat) (rc : Int)
  | read (count : Nat) (rc : ReadResult)
  | waitpid
deriving DecidableEq

/-- One iteration of the poll loop as the operating system plays it: the return value of
`poll`, the bits of `fds[0].revents` and `fds[1].revents` the source tests, and what `write`
and `read` return if the iteration calls them. -/
structure PollRound where
  poll_rc : Int
  stdin_pollout : Bool
  stdin_pollerr : Bool
  stdout_pollin : Bool
  stdout_pollerr : Bool
  stdout_pollhup : Bool
  write_rc : Int
  read_rc : ReadResult

/-- The method `std::vector::resize`: truncate, or pad with zero bytes. -/
def vector_resize (v : Bytes) (n : Nat) : Bytes :=
  v.take n ++ List.replicate (n - v.length) 0

/-- The effect of `read` on the buffer: the bytes read overwrite the buffer from `pos` on. -/
def store_at (v : Bytes) (pos : Nat) (chunk : Bytes) : Bytes :=
  v.take pos ++ chunk ++ v.drop (pos + chunk.length)

/-- The variables of the poll loop: `total_bytes_written`, the vector `code`, and whether
`child_stdin_write` is still open (it is closed in the same step that clears
`fds[0].events`, so one flag stands for both). -/
structure LoopState where
  total_bytes_written : Nat
  code : Bytes
  stdin_write_open : Bool

/-- How the poll loop ends: it is left (by `break` or by a negative `poll`), an exception
leaves it, or the script of rounds ends with the loop still running. -/
inductive LoopExit
  | left
  | threw (msg : String)
  | script_ended
deriving DecidableEq

/-- The block `if(fds[0].revents & POLLOUT)` of the loop. `poll` reports `POLLOUT` only while
`fds[0].events` asks for it. The third component tells whether the block ends in `break`. -/
def write_step (size : Nat) (r : PollRound) (s : LoopState) :
    LoopState × List IoEvent × Bool :=
  if r.stdin_pollout && s.stdin_write_open then
    -- write a page at a time to prevent the write from blocking
    let bytes_to_write := min size 4096
    let ev := IoEvent.write s.total_bytes_written bytes_to_write r.write_rc
    if r.write_rc ≤ 0 then (s, [ev], true)
    else
      let total := s.total_bytes_written + r.write_rc.toNat
      if total ≥ size then
        -- close the stdin of the child so it knows we are done writing
        ({ s with total_bytes_written := total, stdin_write_open := false },
          [ev, .close .child_stdin_write], false)
      else ({ s with total_bytes_written := total }, [ev], false)
  else (s, [], false)

/-- The block `if(fds[1].revents & POLLIN) ... else if(fds[1].revents & POLLHUP)` of the loop.
The third component is the way the loop ends in this block, if it does. -/
def read_step (r : PollRound) (s : LoopState) : LoopState × List IoEvent × Option LoopExit :=
  if r.stdout_pollin then
    let code_written_bytes := s.code.length
    let grown := vector_resize s.code (code_written_bytes + READ_CHUNK_SIZE)
    match r.read_rc with
    | .failed =>
      -- read error, data is probably not correct
      ({ s with code := vector_resize grown code_written_bytes },
        [.read READ_CHUNK_SIZE .failed], some (.threw "failed read data from child process"))
    | .bytes chunk =>
      let filled := store_at grown code_written_bytes chunk
      -- resize code to number of bytes actually written
      let s2 : LoopState :=
        { s with code := vector_resize filled (code_written_bytes + chunk.length) }
      if chunk.length = 0 then
        -- end of file
        (s2, [.read READ_CHUNK_SIZE (.bytes chunk)], some .left)
      else (s2, [.read READ_CHUNK_SIZE (.bytes chunk)], Option.none)
  else if r.stdout_pollhup then
    -- no data to read, other side hung up
    (s, [], some .left)
  else (s, [], Option.none)

/-- The loop `while(poll(fds, 2, 1000) >= 0)` over a script of rounds; `size` is
`kernel_src.size()`. Returns the variables at the end, the system calls made, and the way
the loop ended. -/
def posix_io_loop (size : Nat) : List PollRound → LoopState → LoopState × List IoEvent × LoopExit
  | [], s => (s, [], .script_ended)
  | r :: rs, s =>
    if r.poll_rc < 0 then (s, [.poll r.poll_rc], .left)
    -- error conditions on fds, break
    else if r.stdin_pollerr || r.stdout_pollerr then (s, [.poll r.poll_rc], .left)
    else
      let w := write_step size r s
      if w.2.2 then (w.1, .poll r.poll_rc :: w.2.1, .left)
      else
        let rd := read_step r w.1
        match rd.2.2 with
        | some ex => (rd.1, .poll r.poll_rc :: (w.2.1 ++ rd.2.1), ex)
        | Option.none =>
          let rest := posix_io_loop size rs rd.1
          (rest.1, .poll r.poll_rc :: (w.2.1 ++ rd.2.1 ++ rest.2.1), rest.2.2)

/-- The operating system during one `compile_subprocess`: the outcome of `find_rtc_helper`
(the path, or its exception), the return values of the two `pipe2` calls and of
`posix_spawn`, the script of poll rounds, whether `waitpid` returns the pid of the child,
and `WIFSIGNALED` and `WEXITSTATUS` of the wait status. -/
structure SubprocessOS where
  find_rtc_helper : Except String String
  pipe2_stdin : Int
  pipe2_stdout : Int
  posix_spawn : Int
  rounds : List PollRound
  waitpid_ok : Bool
  wifsignaled : Bool
  wexitstatus : Nat

/-- The end of `compile_subprocess`, from `waitpid` on, for the bytes captured in `code`. -/
def subprocess_finish (os : SubprocessOS) (code : Bytes) : Except String Bytes :=
  if !os.waitpid_ok then .error "failed to wait for child process"
  else
    let subprocess_failed := os.wifsignaled || decide (os.wexitstatus ≠ 0)
    if code.isEmpty then .error "child process failed to produce code"
    -- stdout of process is actually an error message, so throw that
    else if subprocess_failed then .error (string_of_bytes code)
    else .ok code

/-- What one `compile_subprocess` does: its system calls, the bytes captured from the output
of the child when the poll loop has been left, and the returned bytes or the exception.
`result` is `Option.none` when the script of rounds ends with the loop still running. -/
structure SubprocessRun where
  trace : List IoEvent
  captured : Option Bytes
  result : Option (Except String Bytes)

/-- The method `RTCKernel::compile_subprocess` (POSIX build). Wrappers still open are closed
by their destructors when the function is left. -/
def compile_subprocess (os : SubprocessOS) (kernel_src gpu_arch : String) : SubprocessRun :=
  match os.find_rtc_helper with
  | .error e => ⟨[], Option.none, some (.error e)⟩
  | .ok rtc_helper_exe =>
    if os.pipe2_stdin ≠ 0 then
      ⟨[], Option.none, some (.error "failed to create stdin pipe")⟩
    else if os.pipe2_stdout ≠ 0 then
      ⟨[.close .child_stdin_write, .close .child_stdin_read], Option.none,
        some (.error "failed to create stdout pipe")⟩
    else if os.posix_spawn ≠ 0 then
      ⟨[.close .child_stdout_write, .close .child_stdout_read, .close .child_stdin_write,
          .close .child_stdin_read], Option.none,
        some (.error "failed to spawn child process")⟩
    else
      let setup : List IoEvent :=
        [.spawn rtc_helper_exe gpu_arch, .close .child_stdin_read, .close .child_stdout_write]
      let io := posix_io_loop kernel_src.length os.rounds ⟨0, [], true⟩
      let at_exit : List IoEvent :=
        if io.1.stdin_write_open then [.close .child_stdin_write] else []
      match io.2.2 with
      | .script_ended => ⟨setup ++ io.2.1, Option.none, Option.none⟩
      | .threw msg =>
        ⟨setup ++ io.2.1 ++ [.close .child_stdout_read] ++ at_exit, Option.none,
          some (.error msg)⟩
      | .left =>
        ⟨setup ++ io.2.1 ++ [.close .child_stdout_read, .waitpid] ++ at_exit,
          some io.1.code, some (subprocess_finish os io.1.code)⟩

/-- The results of the `read` calls in a trace, in order. -/
def read_results (tr : List IoEvent) : List ReadResult :=
  tr.filterMap fun ev =>
    match ev with
    | .read _ rc => some rc
    | _ => Option.none

/-- The bytes a `read` delivered: none when it failed. -/
def ReadResult.chunk : ReadResult → Bytes
  | .failed => []
  | .bytes c => c

/-! ## Construction of the cache and location of the helper

The POSIX build of `rtccache_db_sys_path`, `rtccache_db_user_paths`, `connect_db`, the
constructor `RTCCache::RTCCache` and `find_rtc_helper`. A path is a string and the empty
string is the empty path; the operations of `std::filesystem` and the behaviour of SQLite on
each database file are inputs. -/

/-- The operations of `std::filesystem::path` the source uses: `operator/` and
`parent_path`. -/
structure PathOps where
  join : String → String → String
  parent_path : String → String

/-- What SQLite does with one database file: the result codes of `sqlite3_open_v2`, of the
prepare and the step of the `CREATE TABLE IF NOT EXISTS` statement, and of the prepares of
`get_stmt_text` and `store_stmt_text`; and the rows of `cache_v1` once the file is open. -/
structure DbOpen where
  open_rc : Int
  prepare_create_rc : Int
  step_create_rc : Int
  prepare_get_rc : Int
  prepare_store_rc : Int
  content : Table

/-- The machine outside the process. `get_library_path` is the path of the loaded library
(empty when unknown); `create_directories dir` is `false` when
`std::filesystem::create_directories` throws; `temp_directory_path` is `Option.none` when
`std::filesystem::temp_directory_path` throws; `file_exists` is `std::filesystem::exists`;
`sqlite path readonly` is what SQLite does when that path is opened with that mode. -/
structure Platform where
  path : PathOps
  get_library_path : String
  create_directories : String → Bool
  temp_directory_path : Option String
  file_exists : String → Bool
  sqlite : String → Bool → DbOpen

/-- The constant `default_cache_filename`. -/
def default_cache_filename : String := "rocfft_kernel_cache.db"

/-- The function `rtccache_db_sys_path`: empty when no suitable path is found. -/
def rtccache_db_sys_path (env : Env) (pf : Platform) : String :=
  -- if env var is set, use that directly
  let env_path := rocfft_getenv env "ROCFFT_RTC_SYS_CACHE_PATH"
  if env_path ≠ "" then env_path
  else
    let lib_path := pf.get_library_path
    if lib_path ≠ "" then pf.path.join (pf.path.parent_path lib_path) default_cache_filename
    else ""

/-- The function `rtccache_db_user_paths`: the candidate paths in decreasing order of
preference, or the exception of a file-system call. -/
def rtccache_db_user_paths (env : Env) (pf : Platform) : Except String (List String) :=
  -- use user-defined cache path if present
  let env_path := rocfft_getenv env "ROCFFT_RTC_CACHE_PATH"
  if env_path ≠ "" then
    -- finally, fall back to in-memory db if all else fails
    .ok [env_path, ""]
  else do
    -- try standard cache dirs
    let xdg_cache_home := rocfft_getenv env "XDG_CACHE_HOME"
    let paths1 : List String ←
      if xdg_cache_home ≠ "" then
        let dir := pf.path.join xdg_cache_home "rocFFT"
        if pf.create_directories dir then
          pure [pf.path.join dir default_cache_filename]
        else throw "filesystem error: cannot create directories"
      else pure []
    let home_path := rocfft_getenv env "HOME"
    -- try persistent home directory location if no cache dir
    let paths2 : List String ←
      if paths1.isEmpty ∧ home_path ≠ "" then
        let dir := pf.path.join (pf.path.join home_path ".cache") "rocFFT"
        if pf.create_directories dir then
          pure (paths1 ++ [pf.path.join dir default_cache_filename])
        else throw "filesystem error: cannot create directories"
      else pure paths1
    -- otherwise, temp directory
    match pf.temp_directory_path with
    | Option.none => throw "filesystem error: temp_directory_path"
    | some tmp =>
      -- finally, fall back to in-memory db if all else fails
      pure (paths2 ++ [pf.path.join tmp default_cache_filename, ""])

/-- The method `RTCCache::connect_db`: the open database (given by the rows of `cache_v1`),
a null handle, or the exception of `prepare_stmt` for the `CREATE TABLE` statement. -/
def connect_db (pf : Platform) (path : String) (readonly : Bool) :
    Except String (Option Table) :=
  let o := pf.sqlite path readonly
  if o.open_rc ≠ SQLITE_OK then .ok Option.none
  else if !readonly then
    -- create the default table
    if o.prepare_create_rc ≠ SQLITE_OK then .error "sqlite_prepare_v2 failed: "
    else if o.step_create_rc ≠ SQLITE_DONE then .ok Option.none
    else .ok (some o.content)
  else .ok (some o.content)

/-- The loop of the constructor over the candidate paths: the first candidate for which
`connect_db` gives a handle, with that handle. -/
def connect_first (pf : Platform) : List String → Except String (Option (String × Table))
  | [] => .ok Option.none
  | p :: ps =>
    match connect_db pf p false with
    | .error e => .error e
    | .ok (some t) => .ok (some (p, t))
    | .ok Option.none => connect_first pf ps

/-- What the constructor leaves: the cache object and the candidate path whose connection
became `db_user`. -/
structure Constructed where
  cache : RTCCache
  user_path : Option String

/-- The first statements of the constructor: the system database is opened read-only when
`rtccache_db_sys_path` gives a path. -/
def connect_sys (env : Env) (pf : Platform) : Except String (Option Table) :=
  if rtccache_db_sys_path env pf ≠ "" then connect_db pf (rtccache_db_sys_path env pf) true
  else .ok Option.none

/-- The end of the constructor: the statements are prepared. A failing prepare on the system
database drops that database; a failing prepare on the user database throws. -/
def prepare_statements (pf : Platform) (sys_path : String) (db_sys0 : Option Table)
    (user : Option (String × Table)) : Except String Constructed :=
  -- the sys cache may exist but not be usable: if we cannot talk to it, stop using it
  let db_sys : Option Table :=
    match db_sys0 with
    | some t =>
      if (pf.sqlite sys_path true).prepare_get_rc ≠ SQLITE_OK then Option.none else some t
    | Option.none => Option.none
  match user with
  | some (p, t) =>
    if (pf.sqlite p false).prepare_get_rc ≠ SQLITE_OK then .error "sqlite_prepare_v2 failed: "
    else if (pf.sqlite p false).prepare_store_rc ≠ SQLITE_OK then
      .error "sqlite_prepare_v2 failed: "
    else .ok ⟨⟨db_sys, some ⟨t, Option.none⟩⟩, some p⟩
  | Option.none => .ok ⟨⟨db_sys, Option.none⟩, Option.none⟩

/-- The constructor `RTCCache::RTCCache`, or the exception that leaves it. -/
def RTCCache.construct (env : Env) (pf : Platform) : Except String Constructed :=
  match connect_sys env pf with
  | .error e => .error e
  | .ok db_sys0 =>
    match rtccache_db_user_paths env pf with
    | .error e => .error e
    | .ok paths =>
      match connect_first pf paths with
      | .error e => .error e
      | .ok user => prepare_statements pf (rtccache_db_sys_path env pf) db_sys0 user

/-- The constant `HELPER_EXE`. -/
def HELPER_EXE : String := "rocfft_rtc_helper"

/-- The function `find_rtc_helper`. -/
def find_rtc_helper (env : Env) (pf : Platform) : Except String String :=
  let var := rocfft_getenv env "ROCFFT_RTC_PROCESS_HELPER"
  if var ≠ "" then .ok var
  else
    let library_path := pf.get_library_path
    if library_path ≠ "" then
      -- try same dir as library
      let library_parent_path := pf.path.parent_path library_path
      -- try bin dir, one dir up from library
      let bin_path := pf.path.join (pf.path.parent_path library_parent_path) "bin"
      -- look for helper in the candidate directories
      match [library_parent_path, bin_path].find?
          (fun dir => pf.file_exists (pf.path.join dir HELPER_EXE)) with
      | some dir => .ok (pf.path.join dir HELPER_EXE)
      | Option.none => .error "unable to find rtc helper"
    else .error "unable to find rtc helper"

/-- Whether a candidate path can be opened read-write: `connect_db` gives a handle. -/
def opens_read_write (pf : Platform) (path : String) : Bool :=
  match connect_db pf path false with
  | .ok (some _) => true
  | _ => false

/-- The file-backed candidates of `rtccache_db_user_paths` when no override is set: the
cache directory under `XDG_CACHE_HOME` when that is set, else the one under `HOME` when that
is set. -/
def standard_cache_candidates (env : Env) (pf : Platform) : List String :=
  if rocfft_getenv env "XDG_CACHE_HOME" ≠ "" then
    [pf.path.join (pf.path.join (rocfft_getenv env "XDG_CACHE_HOME") "rocFFT")
      default_cache_filename]
  else if rocfft_getenv env "HOME" ≠ "" then
    [pf.path.join
      (pf.path.join (pf.path.join (rocfft_getenv env "HOME") ".cache") "rocFFT")
      default_cache_filename]
  else []

/-! ## Sequences of calls and the compile mutex -/

/-- One call of the public interface of the cache, with everything the call meets. -/
inductive CacheCall
  | get_code_object (env : Env) (fu fs : StmtFaults) (key : CacheKey)
  | store_code_object (env : Env) (s : StoreCall) (key : CacheKey) (code : Bytes)
  | serialize (alloc_fails : Bool)
  | deserialize (f : DeserializeFaults) (buffer : Snapshot)
  | cached_compile (env : Env) (col : Collaborators) (cx : CallContext)
      (kernel_name gpu_arch : String) (generate_src : String → Except String String)

/-- The process state after one call. The calls that are methods of the cache act on
`RTCCache::single`. -/
def CacheCall.run (st : ProcessState) : CacheCall → ProcessState
  | .get_code_object _ _ _ _ => st
  | .store_code_object env s key code =>
    { st with single := st.single.map fun c => (c.store env s key code).1 }
  | .serialize _ => st
  | .deserialize f buffer =>
    { st with single := st.single.map fun c => (c.deserialize f buffer).1 }
  | .cached_compile env col cx kernel_name gpu_arch generate_src =>
    (RocFFT.cached_compile st env col cx kernel_name gpu_arch generate_src).state

/-- Whether the request holds `compile_lock` after an event, given whether it held it
before. -/
def Event.held_after (held : Bool) : Event → Bool
  | .try_lock owns => held || owns
  | .lock => true
  | .unlock => false
  | _ => held

/-- Whether the request holds `compile_lock` at the end of a trace. -/
def held_at_end (held : Bool) (tr : List Event) : Bool :=
  tr.foldl Event.held_after held

/-- The discipline of the compile mutex along a trace: every call of the in-process compiler
happens while the request holds the mutex, every call of the subprocess compiler while it
does not. -/
def mutex_discipline : Bool → List Event → Bool
  | _, [] => true
  | held, ev :: rest =>
    (match ev with
      | .compile_inprocess _ _ => held
      | .compile_subprocess _ _ => !held
      | _ => true)
    && mutex_discipline (ev.held_after held) rest

/-! ## Sample data -/

/-- A generator checksum of 32 zero bytes. -/
def sum_zero : GeneratorSum := ⟨List.replicate 32 0, rfl⟩

/-- A generator checksum of 32 one bytes. -/
def sum_one : GeneratorSum := ⟨List.replicate 32 1, rfl⟩

/-- The key of the end-to-end scenario. -/
def key_a : CacheKey := ⟨"kernel_a", "gfx900", 50000000, sum_zero⟩

/-- A key that differs from `key_a` in the architecture only. -/
def key_b : CacheKey := ⟨"kernel_a", "gfx906", 50000000, sum_zero⟩

/-- The row that holds `code` under `k`, stamped `ts`. -/
def Row.of (k : CacheKey) (code : Bytes) (ts : Int) : Row :=
  ⟨k.kernel_name, k.arch, k.hip_version, k.generator_sum, code, ts⟩

/-- A cache whose user store holds an empty code object under `key_a` while the system store
holds the byte 7 under the same key. -/
def cache_empty_over_sys : RTCCache :=
  ⟨some [Row.of key_a [7] 0], some ⟨[Row.of key_a [] 0], Option.none⟩⟩

/-- A cache with an empty user store whose system store holds the byte 7 under `key_a`. -/
def cache_sys_only : RTCCache :=
  ⟨some [Row.of key_a [7] 0], some ⟨[], Option.none⟩⟩

/-- A cache with a system store and a user store that both hold `key_a`, with different
non-empty bytes. -/
def cache_both : RTCCache :=
  ⟨some [Row.of key_a [7] 0], some ⟨[Row.of key_a [1, 2] 0], Option.none⟩⟩

/-- A cache with an empty user store and no system store. -/
def cache_fresh : RTCCache := ⟨Option.none, some ⟨[], Option.none⟩⟩

/-- A cache without system store whose user store holds an empty code object under `key_a`. -/
def cache_empty_entry : RTCCache :=
  ⟨Option.none, some ⟨[Row.of key_a [] 0], Option.none⟩⟩

/-- An environment in which only `ROCFFT_RTC_CACHE_READ_DISABLE` is set. -/
def env_read_disabled : Env :=
  fun n => if n = "ROCFFT_RTC_CACHE_READ_DISABLE" then "1" else ""

/-- An environment in which only `ROCFFT_RTC_CACHE_WRITE_DISABLE` is set. -/
def env_write_disabled : Env :=
  fun n => if n = "ROCFFT_RTC_CACHE_WRITE_DISABLE" then "1" else ""

/-- An environment in which only `ROCFFT_RTC_PROCESS` is set, to `1`. -/
def env_force_out : Env :=
  fun n => if n = "ROCFFT_RTC_PROCESS" then "1" else ""

/-- Collaborators for the scenarios: runtime version 50000000, an in-process compiler that
returns the bytes 1, 2 and a subprocess compiler that returns the bytes 3, 4. -/
def sample_collaborators : Collaborators :=
  ⟨some 50000000, sum_zero, fun _ _ => .ok [1, 2], fun _ _ => .ok [3, 4]⟩

/-- A generator that returns a fixed source text. -/
def sample_generate_src : String → Except String String := fun _ => .ok "src"

/-- A call during which SQLite reports no fault and the compile mutex is free. -/
def CallContext.clean : CallContext :=
  ⟨StmtFaults.none, StmtFaults.none, StoreCall.clean 0, true⟩

/-- The process state of the end-to-end scenario: fresh cache, version not yet queried. -/
def state_fresh : ProcessState := ⟨some cache_fresh, 0⟩

/-- The result code `SQLITE_NOMEM`. -/
def SQLITE_NOMEM : Int := 7

/-- A statement use whose first bind returns `SQLITE_NOMEM`. -/
def faults_bind_fails : StmtFaults := ⟨fun i => if i = 1 then SQLITE_NOMEM else SQLITE_OK, false⟩

/-- A statement use whose binds succeed and whose step fails. -/
def faults_step_fails : StmtFaults := ⟨fun _ => SQLITE_OK, true⟩

/-- Collaborators whose subprocess compiler throws and whose in-process compiler returns the
bytes 1, 2. -/
def collaborators_sub_throws : Collaborators :=
  ⟨some 50000000, sum_zero, fun _ _ => .ok [1, 2], fun _ _ => .error "spawn failed"⟩

/-- Collaborators whose in-process compiler throws and whose subprocess compiler returns the
bytes 3, 4. -/
def collaborators_in_throws : Collaborators :=
  ⟨some 50000000, sum_zero, fun _ _ => .error "compile error", fun _ _ => .ok [3, 4]⟩

/-- A call without SQLite faults during which another thread holds the compile mutex. -/
def CallContext.lock_held : CallContext :=
  ⟨StmtFaults.none, StmtFaults.none, StoreCall.clean 0, false⟩

/-- A call whose store meets a failing bind; the compile mutex is free. -/
def CallContext.store_bind_fails : CallContext :=
  ⟨StmtFaults.none, StmtFaults.none, ⟨faults_bind_fails, false, 0⟩, true⟩

/-- A call whose store meets a failing step; the compile mutex is free. -/
def CallContext.store_step_fails : CallContext :=
  ⟨StmtFaults.none, StmtFaults.none, ⟨faults_step_fails, false, 0⟩, true⟩

/-- A poll round in which nothing is ready. -/
def PollRound.idle : PollRound := ⟨0, false, false, false, false, false, 0, .bytes []⟩

/-- A poll round in which the output of the child is readable and `read` returns `rc`. -/
def PollRound.reading (rc : ReadResult) : PollRound :=
  ⟨1, false, false, true, false, false, 0, rc⟩

/-- A poll round in which the input of the child is writable and `write` returns `rc`. -/
def PollRound.writing (rc : Int) : PollRound :=
  ⟨1, true, false, false, false, false, rc, .bytes []⟩

/-- An operating system on which the set-up succeeds, the poll loop follows `rounds`, and
the child ends with exit status `status`. -/
def SubprocessOS.running (rounds : List PollRound) (status : Nat) : SubprocessOS :=
  ⟨.ok "rocfft_rtc_helper", 0, 0, 0, rounds, true, false, status⟩

/-- The bytes of the text `syntax error`. -/
def syntax_error_bytes : Bytes := [115, 121, 110, 116, 97, 120, 32, 101, 114, 114, 111, 114]

/-- A source text of 5000 bytes. -/
def long_source : String := String.mk (List.replicate 5000 (Char.ofNat 97))

/-- Path operations for the scenarios: components are joined with a slash, and every parent
is the directory `/opt/rocm/lib`. -/
def sample_path_ops : PathOps := ⟨fun a b => a ++ "/" ++ b, fun _ => "/opt/rocm/lib"⟩

/-- A database file that SQLite opens and serves without error, empty at first. -/
def DbOpen.healthy : DbOpen := ⟨SQLITE_OK, SQLITE_OK, SQLITE_DONE, SQLITE_OK, SQLITE_OK, []⟩

/-- A database file that `sqlite3_open_v2` cannot open. -/
def DbOpen.unopenable : DbOpen := ⟨14, SQLITE_OK, SQLITE_DONE, SQLITE_OK, SQLITE_OK, []⟩

/-- A file that `sqlite3_open_v2` opens but that is not a database: the prepare of the
`CREATE TABLE` statement returns `SQLITE_NOTADB`. -/
def DbOpen.not_a_database : DbOpen := ⟨SQLITE_OK, 26, SQLITE_DONE, SQLITE_OK, SQLITE_OK, []⟩

/-- A machine on which every directory can be created and every database opens, except that
the file `/ro/cache.db` cannot be opened. -/
def platform_override_unopenable : Platform :=
  ⟨sample_path_ops, "", fun _ => true, some "/tmp", fun _ => false,
    fun p _ => if p = "/ro/cache.db" then DbOpen.unopenable else DbOpen.healthy⟩

/-- An environment with the user cache override `/ro/cache.db` and `XDG_CACHE_HOME=/xdg`. -/
def env_override_and_xdg : Env :=
  fun n =>
    if n = "ROCFFT_RTC_CACHE_PATH" then "/ro/cache.db"
    else if n = "XDG_CACHE_HOME" then "/xdg"
    else ""

/-- An environment in which only `HOME` is set, to `/nonexistent`. -/
def env_home_only : Env := fun n => if n = "HOME" then "/nonexistent" else ""

/-- A machine on which no directory can be created; every database opens. -/
def platform_no_directories : Platform :=
  ⟨sample_path_ops, "", fun _ => false, some "/tmp", fun _ => false, fun _ _ => DbOpen.healthy⟩

/-- A machine on which the cache file under `/nonexistent` is not a database; every other
database opens and every directory can be created. -/
def platform_corrupt_home_cache : Platform :=
  ⟨sample_path_ops, "", fun _ => true, some "/tmp", fun _ => false,
    fun p _ =>
      if p = "/nonexistent/.cache/rocFFT/rocfft_kernel_cache.db" then DbOpen.not_a_database
      else DbOpen.healthy⟩

/-- A machine with the library at `/opt/rocm/lib/librocfft.so` on which exactly the files
listed in `present` exist. -/
def platform_with_files (present : List String) : Platform :=
  ⟨sample_path_ops, "/opt/rocm/lib/librocfft.so", fun _ => true, some "/tmp",
    fun p => decide (p ∈ present), fun _ _ => DbOpen.healthy⟩

/-- A deserialize in which `ATTACH` succeeds and `sqlite3_deserialize` returns
`SQLITE_NOMEM`. -/
def DeserializeFaults.deserialize_nomem : DeserializeFaults := ⟨false, SQLITE_NOMEM, false⟩

/-- An environment in which only `XDG_CACHE_HOME` is set, to `/xdg`. -/
def env_xdg_only : Env := fun n => if n = "XDG_CACHE_HOME" then "/xdg" else ""

/-- An environment in which only `ROCFFT_RTC_PROCESS_HELPER` is set. -/
def env_helper_override : Env :=
  fun n => if n = "ROCFFT_RTC_PROCESS_HELPER" then "/usr/local/bin/my_helper" else ""

/-- Collaborators whose two compilers both throw. -/
def collaborators_both_throw : Collaborators :=
  ⟨some 50000000, sum_zero, fun _ _ => .error "compile error", fun _ _ => .error "spawn failed"⟩

/-- Collaborators whose subprocess compiler is `compile_subprocess` with a child that writes
`syntax error` and exits with status 1, and whose in-process compiler returns the
bytes 1, 2. -/
def collaborators_helper_syntax_error : Collaborators :=
  ⟨some 50000000, sum_zero, fun _ _ => .ok [1, 2],
    fun kernel_src gpu_arch =>
      match (compile_subprocess
          (SubprocessOS.running
            [PollRound.reading (.bytes syntax_error_bytes), PollRound.reading (.bytes [])] 1)
          kernel_src gpu_arch).result with
      | some r => r
      | Option.none => .error "poll loop still running"⟩

/-! ## Basic lemmas -/

theorem Row.matches_iff (r : Row) (k : CacheKey) :
    r.matches k.kernel_name k.arch k.hip_version k.generator_sum = decide (r.key = k) := by
  cases r; cases k
  simp [Row.matches, Row.key, Bool.and_assoc]

theorem step_get_eq (f : StmtFaults) (db : Table) (k : CacheKey) :
    step_get f db k.kernel_name k.arch k.hip_version k.generator_sum =
      if f.step_fails then (SQLITE_ERROR, [])
      else
        match db.lookup k with
        | some b => (SQLITE_ROW, b)
        | Option.none => (SQLITE_DONE, []) := by
  unfold step_get Table.lookup
  simp only [Row.matches_iff]
  cases f.step_fails with
  | true => rfl
  | false => cases db.find? (fun r => decide (r.key = k)) <;> rfl

/-- A fault-free query of one tier returns the bytes held under the key, or nothing. -/
theorem get_code_object_impl_ok (env : Env) (f : StmtFaults) (k : CacheKey) (db : Table)
    (hr : reads_enabled env) (hb : f.get_binds_ok) (hs : f.step_fails = false) :
    get_code_object_impl env f k.kernel_name k.arch k.hip_version k.generator_sum db
      = .ok ((db.lookup k).getD []) := by
  obtain ⟨h1, h2, h3, h4⟩ := hb
  unfold reads_enabled at hr
  simp only [get_code_object_impl, hr, h1, h2, h3, h4, step_get_eq, hs]
  cases db.lookup k <;> simp [SQLITE_ROW, SQLITE_DONE]

/-- The query of one tier sees a table only through the bytes it holds under each key. -/
theorem get_code_object_impl_congr (env : Env) (f : StmtFaults) (k : CacheKey) (t1 t2 : Table)
    (h : t1.lookup k = t2.lookup k) :
    get_code_object_impl env f k.kernel_name k.arch k.hip_version k.generator_sum t1
      = get_code_object_impl env f k.kernel_name k.arch k.hip_version k.generator_sum t2 := by
  simp only [get_code_object_impl, step_get_eq, h]

theorem Table.lookup_append_singleton (t : Table) (r : Row) (k : CacheKey) :
    Table.lookup (t ++ [r]) k =
      match Table.lookup t k with
      | some b => some b
      | Option.none => if r.key = k then some r.code else Option.none := by
  unfold Table.lookup
  induction t with
  | nil => by_cases h : r.key = k <;> simp [List.find?, h]
  | cons x xs ih =>
    by_cases hx : x.key = k
    · simp [List.find?, hx]
    · simpa [List.find?, hx] using ih

theorem Table.lookup_filter_ne (t : Table) (k0 k : CacheKey) :
    Table.lookup (t.filter (fun x => decide (x.key ≠ k0))) k =
      if k = k0 then Option.none else Table.lookup t k := by
  unfold Table.lookup
  induction t with
  | nil => simp
  | cons x xs ih =>
    by_cases hx0 : x.key = k0
    · have e1 : (x :: xs).filter (fun x => decide (x.key ≠ k0))
          = xs.filter (fun x => decide (x.key ≠ k0)) := by
        rw [List.filter_cons]; simp [hx0]
      rw [e1, ih]
      by_cases hk : k = k0
      · simp [hk]
      · have hxk : ¬ x.key = k := fun h => hk (h.symm.trans hx0)
        simp only [if_neg hk, List.find?_cons, hxk, decide_False]
    · have e1 : (x :: xs).filter (fun x => decide (x.key ≠ k0))
          = x :: xs.filter (fun x => decide (x.key ≠ k0)) := by
        rw [List.filter_cons]; simp [hx0]
      rw [e1]
      by_cases hxk : x.key = k
      · have hk : ¬ k = k0 := fun h => hx0 (hxk.trans h)
        simp only [if_neg hk, List.find?_cons, hxk, decide_True]
      · simp only [List.find?_cons, hxk, decide_False]
        exact ih

/-- After `INSERT OR REPLACE` of a row, its key maps to its code. -/
theorem Table.lookup_insert_or_replace_self (t : Table) (r : Row) :
    Table.lookup (t.insert_or_replace r) r.key = some r.code := by
  simp only [Table.insert_or_replace, Table.lookup_append_singleton, Table.lookup_filter_ne,
    if_true]

/-- After `INSERT OR REPLACE` of a row, every other key maps to what it mapped to before. -/
theorem Table.lookup_insert_or_replace_other (t : Table) (r : Row) (k : CacheKey)
    (h : k ≠ r.key) :
    Table.lookup (t.insert_or_replace r) k = Table.lookup t k := by
  have h2 : ¬ r.key = k := fun e => h e.symm
  simp only [Table.insert_or_replace, Table.lookup_append_singleton, Table.lookup_filter_ne,
    if_neg h, if_neg h2]
  cases Table.lookup t k <;> rfl

theorem Table.lookup_eq_none_of_not_mem (t : Table) (k : CacheKey)
    (h : k ∉ t.map Row.key) : Table.lookup t k = Option.none := by
  unfold Table.lookup
  induction t with
  | nil => rfl
  | cons x xs ih =>
    simp only [List.map_cons, List.mem_cons, not_or] at h
    have hx : ¬ x.key = k := fun e => h.1 e.symm
    simpa [List.find?, hx] using ih h.2

/-- The `INSERT OR REPLACE ... SELECT` over rows with distinct keys: a key of the selected
rows maps to the selected code, every other key keeps what it had. -/
theorem Table.lookup_insert_or_replace_all (rows : Table) (hpk : rows.primary_key_ok)
    (t : Table) (k : CacheKey) :
    Table.lookup (t.insert_or_replace_all rows) k =
      match Table.lookup rows k with
      | some b => some b
      | Option.none => Table.lookup t k := by
  induction rows generalizing t with
  | nil => simp [Table.insert_or_replace_all, Table.lookup]
  | cons r rs ih =>
    unfold Table.primary_key_ok at hpk
    simp only [List.map_cons, List.nodup_cons] at hpk
    have ih2 := ih hpk.2 (t.insert_or_replace r)
    simp only [Table.insert_or_replace_all, List.foldl_cons] at ih2 ⊢
    rw [ih2]
    by_cases hk : k = r.key
    · subst hk
      rw [Table.lookup_eq_none_of_not_mem rs _ hpk.1, Table.lookup_insert_or_replace_self]
      simp [Table.lookup, List.find?]
    · rw [Table.lookup_insert_or_replace_other t r k hk]
      have h2 : ¬ r.key = k := fun e => hk e.symm
      simp [Table.lookup, List.find?, h2]

/-- `INSERT OR REPLACE` keeps the primary key constraint. -/
theorem Table.primary_key_ok_insert_or_replace (t : Table) (r : Row)
    (h : t.primary_key_ok) : (t.insert_or_replace r).primary_key_ok := by
  unfold Table.primary_key_ok Table.insert_or_replace at *
  rw [List.map_append, List.nodup_append]
  refine ⟨(h.sublist ((List.filter_sublist t).map _)), by simp, ?_⟩
  intro a ha hb
  simp only [List.map_cons, List.map_nil, List.mem_singleton] at hb
  simp only [List.mem_map, List.mem_filter] at ha
  obtain ⟨x, ⟨_, hx⟩, rfl⟩ := ha
  simp at hx
  exact hx hb

/-- A fault-free `get_code_object`: the user bytes when the user store holds a non-empty
code object under the key, else what the system store holds, else nothing. -/
theorem RTCCache.get_ok (c : RTCCache) (env : Env) (fu fs : StmtFaults) (k : CacheKey)
    (hr : reads_enabled env) (hu : fu.get_binds_ok ∧ fu.step_fails = false)
    (hs : fs.get_binds_ok ∧ fs.step_fails = false) :
    c.get env fu fs k =
      .ok (match (c.db_user.bind fun conn => conn.cache_v1.lookup k).getD [], c.db_sys with
        | [], some sys => (sys.lookup k).getD []
        | code, _ => code) := by
  unfold RTCCache.get RTCCache.get_code_object
  cases hdu : c.db_user with
  | none =>
    cases hds : c.db_sys with
    | none => rfl
    | some sys =>
      simp [bind, Except.bind, pure, Except.pure, get_code_object_impl_ok env fs k sys hr hs.1 hs.2]
  | some conn =>
    simp only [get_code_object_impl_ok env fu k conn.cache_v1 hr hu.1 hu.2, bind, Except.bind,
      Option.bind]
    cases hl : (conn.cache_v1.lookup k).getD [] with
    | nil =>
      cases hds : c.db_sys with
      | none => rfl
      | some sys =>
        simp [pure, Except.pure, get_code_object_impl_ok env fs k sys hr hs.1 hs.2]
    | cons b bs =>
      cases hds : c.db_sys <;> rfl

/-- A hit in the user tier needs no system tier: when the user query is fault-free and the
user store holds non-empty bytes under the key, `get_code_object` returns them. -/
theorem RTCCache.get_user_hit (c : RTCCache) (env : Env) (fu fs : StmtFaults) (k : CacheKey)
    (conn : Connection) (b : Bytes) (hc : c.db_user = some conn)
    (hr : reads_enabled env) (hu : fu.get_binds_ok ∧ fu.step_fails = false)
    (hl : conn.cache_v1.lookup k = some b) (hb : b ≠ []) :
    c.get env fu fs k = .ok b := by
  unfold RTCCache.get RTCCache.get_code_object
  simp only [hc, get_code_object_impl_ok env fu k conn.cache_v1 hr hu.1 hu.2, hl, bind,
    Except.bind, Option.getD]
  cases b with
  | nil => exact absurd rfl hb
  | cons x xs => cases c.db_sys <;> rfl

/-- `get_code_object` sees the two stores only through the bytes they hold under the key. -/
theorem RTCCache.get_congr (c1 c2 : RTCCache) (env : Env) (fu fs : StmtFaults) (k : CacheKey)
    (hsys : c1.db_sys = c2.db_sys)
    (huser : c1.db_user.map (fun conn => conn.cache_v1.lookup k)
      = c2.db_user.map (fun conn => conn.cache_v1.lookup k)) :
    c1.get env fu fs k = c2.get env fu fs k := by
  unfold RTCCache.get RTCCache.get_code_object
  rw [hsys]
  cases h1 : c1.db_user with
  | none =>
    cases h2 : c2.db_user with
    | none => rfl
    | some conn2 => simp [h1, h2] at huser
  | some conn1 =>
    cases h2 : c2.db_user with
    | none => simp [h1, h2] at huser
    | some conn2 =>
      simp only [h1, h2, Option.map_some', Option.some.injEq] at huser
      simp only [get_code_object_impl_congr env fu k conn1.cache_v1 conn2.cache_v1 huser]

/-- A store into a closed user database changes nothing. -/
theorem RTCCache.store_closed (c : RTCCache) (env : Env) (s : StoreCall) (k : CacheKey)
    (code : Bytes) (hc : c.db_user = Option.none) : (c.store env s k code).1 = c := by
  unfold RTCCache.store RTCCache.store_code_object
  split
  · rfl
  · simp [hc]

/-- The effect of `store_code_object` on an open user database: the system store and the
attached database stay, and the user table maps the stored key to the stored bytes when the
call writes its row, and is otherwise read as before. -/
theorem RTCCache.store_spec (c : RTCCache) (env : Env) (s : StoreCall) (k : CacheKey)
    (code : Bytes) (conn : Connection) (hc : c.db_user = some conn) :
    ∃ conn2 : Connection,
      (c.store env s k code).1 = ⟨c.db_sys, some conn2⟩
      ∧ conn2.deserialized = conn.deserialized
      ∧ ∀ k2, conn2.cache_v1.lookup k2 =
          if s.inserts env code ∧ k2 = k then some code else conn.cache_v1.lookup k2 := by
  have same : ∀ (_ : ¬ s.inserts env code),
      (⟨c.db_sys, some conn⟩ : RTCCache) = ⟨c.db_sys, some conn⟩
      ∧ conn.deserialized = conn.deserialized
      ∧ ∀ k2, conn.cache_v1.lookup k2 =
          if s.inserts env code ∧ k2 = k then some code else conn.cache_v1.lookup k2 :=
    fun h => ⟨rfl, rfl, fun k2 => by simp [h]⟩
  have hcc : c = ⟨c.db_sys, some conn⟩ := by cases c; simp at hc; simp [hc]
  unfold RTCCache.store RTCCache.store_code_object
  by_cases hw : rocfft_getenv env "ROCFFT_RTC_CACHE_WRITE_DISABLE" = ""
  · simp only [hw, ne_eq, not_true_eq_false, if_false, hc]
    by_cases hb : s.faults.store_binds_ok
    · obtain ⟨⟨h1, h2, h3, h4⟩, h5⟩ := hb
      have h5z : s.faults.bind_rc 5 = 0 := h5
      simp only [h1, h2, h3, h4, h5z, not_true_eq_false, or_self, if_false]
      cases hse : s.faults.step_fails with
      | true =>
        have hni : ¬ s.inserts env code := fun h => by
          have := h.2.2.1; rw [hse] at this; cases this
        refine ⟨conn, ?_, (same hni).2⟩
        simp [step_store, hse]
      | false =>
        by_cases hnull : code = [] ∧ s.code_data_null = true
        · have hni : ¬ s.inserts env code := fun h => h.2.2.2 hnull
          refine ⟨conn, ?_, (same hni).2⟩
          simp [step_store, hse, hnull.1, hnull.2]
        · have hins : s.inserts env code :=
            ⟨hw, ⟨⟨h1, h2, h3, h4⟩, h5⟩, hse, hnull⟩
          have hbound : (if (code.isEmpty && s.code_data_null) = true then Option.none
              else some code) = some code := by
            have : ¬ ((code.isEmpty && s.code_data_null) = true) := by
              intro h
              simp only [Bool.and_eq_true, List.isEmpty_iff] at h
              exact hnull h
            simp [this]
          refine ⟨{ conn with cache_v1 := conn.cache_v1.insert_or_replace (Row.of k code s.now) },
            ?_, rfl, ?_⟩
          · simp only [hbound, step_store, hse]; rfl
          · intro k2
            by_cases hk : k2 = k
            · subst hk
              simp only [hins, true_and, if_true]
              exact Table.lookup_insert_or_replace_self conn.cache_v1 (Row.of k2 code s.now)
            · simp only [hk, and_false, if_false]
              exact Table.lookup_insert_or_replace_other conn.cache_v1 (Row.of k code s.now) k2 hk
    · have hni : ¬ s.inserts env code := fun h => hb h.2.1
      have hor : s.faults.bind_rc 1 ≠ SQLITE_OK ∨ s.faults.bind_rc 2 ≠ SQLITE_OK
          ∨ s.faults.bind_rc 3 ≠ SQLITE_OK ∨ s.faults.bind_rc 4 ≠ SQLITE_OK
          ∨ s.faults.bind_rc 5 ≠ 0 := by
        by_contra hcon
        simp only [not_or, not_not] at hcon
        exact hb ⟨⟨hcon.1, hcon.2.1, hcon.2.2.1, hcon.2.2.2.1⟩, hcon.2.2.2.2⟩
      refine ⟨conn, ?_, (same hni).2⟩
      simp only [if_pos hor]
      exact hcc
  · have hni : ¬ s.inserts env code := fun h => hw h.1
    refine ⟨conn, ?_, (same hni).2⟩
    simp only [ne_eq, hw, not_false_eq_true, if_true]
    exact hcc

/-- A `deserialize` of a readable snapshot that reports success has replaced the user table
by the result of the `INSERT OR REPLACE ... SELECT` and has detached the snapshot again. -/
theorem RTCCache.deserialize_success (c : RTCCache) (f : DeserializeFaults) (conn : Connection)
    (rows : Table) (hc : c.db_user = some conn)
    (hok : (c.deserialize f (some rows)).2 = .rocfft_status_success) :
    (c.deserialize f (some rows)).1
      = ⟨c.db_sys, some ⟨conn.cache_v1.insert_or_replace_all rows, Option.none⟩⟩ := by
  obtain ⟨t, d⟩ := conn
  obtain ⟨ae, rc, ifl⟩ := f
  unfold RTCCache.deserialize at hok ⊢
  simp only [hc] at hok ⊢
  by_cases hrc : rc = 0 <;> cases d <;> cases ae <;> cases ifl <;>
    simp_all [SQLITE_OK, SQLITE_ERROR]

/-- A `deserialize` without SQLite faults of a readable snapshot into an open user database
reports success. -/
theorem RTCCache.deserialize_clean (c : RTCCache) (conn : Connection) (rows : Table)
    (hc : c.db_user = some conn) :
    (c.deserialize DeserializeFaults.none (some rows)).2 = .rocfft_status_success := by
  obtain ⟨t, d⟩ := conn
  unfold RTCCache.deserialize
  simp only [hc, DeserializeFaults.none]
  cases d <;> simp [SQLITE_OK]

/-- On a cache hit `cached_compile` returns the cached bytes right after the lookup. -/
theorem cached_compile_hit (st : ProcessState) (env : Env) (col : Collaborators)
    (cx : CallContext) (kernel_name gpu_arch : String)
    (generate_src : String → Except String String) (c : RTCCache) (hip_version : Int)
    (B : Bytes) (hs : st.single = some c) (hv : resolve_hip_version st col = some hip_version)
    (hhit : c.get_code_object env cx.get_user cx.get_sys kernel_name gpu_arch hip_version
      col.generator_sum = .ok B)
    (hB : B ≠ []) :
    cached_compile st env col cx kernel_name gpu_arch generate_src
      = ⟨{ st with hip_version := hip_version },
          [.get_code_object ⟨kernel_name, gpu_arch, hip_version, col.generator_sum⟩], .ok B⟩ := by
  unfold cached_compile
  simp only [hv, hs, hhit]
  cases B with
  | nil => exact absurd rfl hB
  | cons b bs => rfl

/-- On a cache miss with a configured cache, `cached_compile` generates the source, runs the
compile switch and stores what the switch returned. -/
theorem cached_compile_miss_ok (st : ProcessState) (env : Env) (col : Collaborators)
    (cx : CallContext) (kernel_name gpu_arch : String)
    (generate_src : String → Except String String) (c : RTCCache) (hip_version : Int)
    (kernel_src : String) (code : Bytes)
    (hs : st.single = some c) (hv : resolve_hip_version st col = some hip_version)
    (hmiss : c.get_code_object env cx.get_user cx.get_sys kernel_name gpu_arch hip_version
      col.generator_sum = .ok [])
    (hgen : generate_src kernel_name = .ok kernel_src)
    (hcomp : (compile_switch (get_rtc_process_type env) col cx.try_lock_owns kernel_src
      gpu_arch).2 = .ok code) :
    cached_compile st env col cx kernel_name gpu_arch generate_src
      = ⟨{ hip_version := hip_version,
           single := some (c.store_code_object env cx.store kernel_name gpu_arch hip_version
             col.generator_sum code).1 },
         [.get_code_object ⟨kernel_name, gpu_arch, hip_version, col.generator_sum⟩,
           .generate_src kernel_name]
           ++ (compile_switch (get_rtc_process_type env) col cx.try_lock_owns kernel_src
             gpu_arch).1
           ++ [.store_code_object ⟨kernel_name, gpu_arch, hip_version, col.generator_sum⟩ code],
         match (c.store_code_object env cx.store kernel_name gpu_arch hip_version
             col.generator_sum code).2 with
         | .ok _ => .ok code
         | .error e => .error e⟩ := by
  unfold cached_compile
  simp only [hv, hs, hmiss, hgen, hcomp]
  rfl

/-- The shape of `cached_compile` after a cache miss and a successful source generation:
the compile switch runs, and on its success the result is stored when a cache is configured. -/
theorem cached_compile_miss (st : ProcessState) (env : Env) (col : Collaborators)
    (cx : CallContext) (kernel_name gpu_arch : String)
    (generate_src : String → Except String String) (hip_version : Int) (kernel_src : String)
    (hv : resolve_hip_version st col = some hip_version)
    (hmiss : lookup_misses st env col cx kernel_name gpu_arch hip_version)
    (hgen : generate_src kernel_name = .ok kernel_src) :
    cached_compile st env col cx kernel_name gpu_arch generate_src =
      match (compile_switch (get_rtc_process_type env) col cx.try_lock_owns kernel_src
          gpu_arch).2, st.single with
      | .error e, _ =>
        ⟨{ st with hip_version := hip_version },
          lookup_events st (request_key col kernel_name gpu_arch hip_version)
            ++ [.generate_src kernel_name]
            ++ (compile_switch (get_rtc_process_type env) col cx.try_lock_owns kernel_src
              gpu_arch).1,
          .error e⟩
      | .ok code, some c =>
        ⟨{ hip_version := hip_version,
           single := some (c.store_code_object env cx.store kernel_name gpu_arch hip_version
             col.generator_sum code).1 },
          lookup_events st (request_key col kernel_name gpu_arch hip_version)
            ++ [.generate_src kernel_name]
            ++ (compile_switch (get_rtc_process_type env) col cx.try_lock_owns kernel_src
              gpu_arch).1
            ++ [.store_code_object (request_key col kernel_name gpu_arch hip_version) code],
          match (c.store_code_object env cx.store kernel_name gpu_arch hip_version
              col.generator_sum code).2 with
          | .ok _ => .ok code
          | .error e => .error e⟩
      | .ok code, Option.none =>
        ⟨{ st with hip_version := hip_version },
          lookup_events st (request_key col kernel_name gpu_arch hip_version)
            ++ [.generate_src kernel_name]
            ++ (compile_switch (get_rtc_process_type env) col cx.try_lock_owns kernel_src
              gpu_arch).1,
          .ok code⟩ := by
  unfold cached_compile
  simp only [hv]
  cases hs : st.single with
  | none =>
    simp only [hgen, lookup_events, hs, request_key]
    cases (compile_switch (get_rtc_process_type env) col cx.try_lock_owns kernel_src
      gpu_arch).2 <;> rfl
  | some c =>
    simp only [hmiss c hs, hgen, lookup_events, hs, request_key]
    cases (compile_switch (get_rtc_process_type env) col cx.try_lock_owns kernel_src
      gpu_arch).2 <;> rfl

/-- The events of the cache check are lookups. -/
theorem lookup_events_mem (st : ProcessState) (key : CacheKey) (ev : Event)
    (h : ev ∈ lookup_events st key) : ev = Event.get_code_object key := by
  unfold lookup_events at h
  cases hs : st.single with
  | none => rw [hs] at h; cases h
  | some c => rw [hs] at h; simpa using h

/-- The compile switch in `DEFAULT` mode with the mutex acquired. -/
theorem compile_switch_default_owns (col : Collaborators) (kernel_src gpu_arch : String) :
    compile_switch .DEFAULT col true kernel_src gpu_arch
      = ([.try_lock true, .compile_inprocess kernel_src gpu_arch, .unlock],
          col.compile_inprocess kernel_src gpu_arch) := rfl

/-- The compile switch in `DEFAULT` mode with the mutex held elsewhere and a subprocess
compile that succeeds. -/
theorem compile_switch_default_sub_ok (col : Collaborators) (kernel_src gpu_arch : String)
    (b : Bytes) (h : col.compile_subprocess kernel_src gpu_arch = .ok b) :
    compile_switch .DEFAULT col false kernel_src gpu_arch
      = ([.try_lock false, .compile_subprocess kernel_src gpu_arch], .ok b) := by
  simp [compile_switch, h]

/-- The compile switch in `DEFAULT` mode with the mutex held elsewhere and a subprocess
compile that throws. -/
theorem compile_switch_default_sub_error (col : Collaborators) (kernel_src gpu_arch : String)
    (e : String) (h : col.compile_subprocess kernel_src gpu_arch = .error e) :
    compile_switch .DEFAULT col false kernel_src gpu_arch
      = ([.try_lock false, .compile_subprocess kernel_src gpu_arch, .lock,
            .compile_inprocess kernel_src gpu_arch, .unlock],
          col.compile_inprocess kernel_src gpu_arch) := by
  simp [compile_switch, h]

/-- The compile switch in `FORCE_OUT_PROCESS` mode with a subprocess compile that throws. -/
theorem compile_switch_force_out_error (col : Collaborators) (owns : Bool)
    (kernel_src gpu_arch : String) (e : String)
    (h : col.compile_subprocess kernel_src gpu_arch = .error e) :
    compile_switch .FORCE_OUT_PROCESS col owns kernel_src gpu_arch
      = ([.compile_subprocess kernel_src gpu_arch, .lock,
            .compile_inprocess kernel_src gpu_arch, .unlock],
          col.compile_inprocess kernel_src gpu_arch) := by
  simp [compile_switch, compile_force_in_process, h]

/-- The trace of `cached_compile` after a miss and a generated source: lookup, generator,
the events of the compile switch, and the store when the switch succeeded and a cache is
configured. -/
theorem cached_compile_miss_trace (st : ProcessState) (env : Env) (col : Collaborators)
    (cx : CallContext) (kernel_name gpu_arch : String)
    (generate_src : String → Except String String) (hip_version : Int) (kernel_src : String)
    (hv : resolve_hip_version st col = some hip_version)
    (hmiss : lookup_misses st env col cx kernel_name gpu_arch hip_version)
    (hgen : generate_src kernel_name = .ok kernel_src) :
    ∃ post : List Event,
      (cached_compile st env col cx kernel_name gpu_arch generate_src).trace
        = lookup_events st (request_key col kernel_name gpu_arch hip_version)
          ++ [.generate_src kernel_name]
          ++ (compile_switch (get_rtc_process_type env) col cx.try_lock_owns kernel_src
            gpu_arch).1 ++ post
      ∧ (∀ ev ∈ post, ∃ k code, ev = Event.store_code_object k code)
      ∧ ((∃ e, (compile_switch (get_rtc_process_type env) col cx.try_lock_owns kernel_src
            gpu_arch).2 = .error e) → post = []) := by
  rw [cached_compile_miss st env col cx kernel_name gpu_arch generate_src hip_version kernel_src
    hv hmiss hgen]
  cases hc : (compile_switch (get_rtc_process_type env) col cx.try_lock_owns kernel_src
      gpu_arch).2 with
  | error e => exact ⟨[], by simp, by simp, fun _ => rfl⟩
  | ok code =>
    cases hs : st.single with
    | none => exact ⟨[], by simp, by simp, fun _ => rfl⟩
    | some c =>
      refine ⟨[.store_code_object (request_key col kernel_name gpu_arch hip_version) code],
        by simp, ?_, ?_⟩
      · intro ev hev
        simp only [List.mem_singleton] at hev
        exact ⟨_, _, hev⟩
      · rintro ⟨e, he⟩
        cases he

/-- The result of `cached_compile` after a miss and a generated source: the exception of the
compile switch, or its bytes when the store returns normally. -/
theorem cached_compile_miss_result (st : ProcessState) (env : Env) (col : Collaborators)
    (cx : CallContext) (kernel_name gpu_arch : String)
    (generate_src : String → Except String String) (hip_version : Int) (kernel_src : String)
    (hv : resolve_hip_version st col = some hip_version)
    (hmiss : lookup_misses st env col cx kernel_name gpu_arch hip_version)
    (hgen : generate_src kernel_name = .ok kernel_src) :
    (∀ e, (compile_switch (get_rtc_process_type env) col cx.try_lock_owns kernel_src
          gpu_arch).2 = .error e →
        (cached_compile st env col cx kernel_name gpu_arch generate_src).result = .error e
        ∧ (cached_compile st env col cx kernel_name gpu_arch generate_src).state.single
            = st.single)
    ∧ (∀ code, (compile_switch (get_rtc_process_type env) col cx.try_lock_owns kernel_src
          gpu_arch).2 = .ok code →
        store_returns st env col cx kernel_name gpu_arch hip_version code →
        (cached_compile st env col cx kernel_name gpu_arch generate_src).result = .ok code) := by
  rw [cached_compile_miss st env col cx kernel_name gpu_arch generate_src hip_version kernel_src
    hv hmiss hgen]
  constructor
  · intro e he
    rw [he]
    exact ⟨rfl, rfl⟩
  · intro code hc hst
    rw [hc]
    cases hs : st.single with
    | none => rfl
    | some c =>
      simp only [hst c hs]

/-- An event of `cached_compile` that is neither the lookup nor the generator call can only
occur after a cache miss and a successful source generation. -/
theorem cached_compile_past_generate (st : ProcessState) (env : Env) (col : Collaborators)
    (cx : CallContext) (kernel_name gpu_arch : String)
    (generate_src : String → Except String String) (ev : Event)
    (hev : ev ∈ (cached_compile st env col cx kernel_name gpu_arch generate_src).trace)
    (h1 : ∀ k, ev ≠ Event.get_code_object k) (h2 : ∀ n, ev ≠ Event.generate_src n) :
    ∃ (hip_version : Int) (kernel_src : String),
      resolve_hip_version st col = some hip_version
      ∧ lookup_misses st env col cx kernel_name gpu_arch hip_version
      ∧ generate_src kernel_name = .ok kernel_src := by
  unfold cached_compile at hev
  cases hv : resolve_hip_version st col with
  | none => simp [hv] at hev
  | some hip_version =>
    simp only [hv] at hev
    cases hgen : generate_src kernel_name with
    | error e =>
      cases hs : st.single with
      | none =>
        simp only [hs, hgen, List.isEmpty, Bool.not_true, Bool.false_eq_true, if_false,
          List.nil_append, List.mem_singleton] at hev
        exact absurd hev (h2 _)
      | some c =>
        simp only [hs] at hev
        cases hg : c.get_code_object env cx.get_user cx.get_sys kernel_name gpu_arch
            hip_version col.generator_sum with
        | error e2 =>
          simp only [hg, List.mem_singleton] at hev
          exact absurd hev (h1 _)
        | ok cached =>
          cases cached with
          | nil =>
            simp only [hg, hgen, List.isEmpty, Bool.not_true, Bool.false_eq_true, if_false,
              List.mem_append, List.mem_singleton] at hev
            rcases hev with h | h
            · exact absurd h (h1 _)
            · exact absurd h (h2 _)
          | cons b bs =>
            simp only [hg, List.isEmpty, Bool.not_false, if_true, List.mem_singleton] at hev
            exact absurd hev (h1 _)
    | ok kernel_src =>
      refine ⟨hip_version, kernel_src, rfl, ?_, rfl⟩
      intro c hs
      simp only [hs] at hev
      cases hg : c.get_code_object env cx.get_user cx.get_sys kernel_name gpu_arch
          hip_version col.generator_sum with
      | error e2 =>
        simp only [hg, List.mem_singleton] at hev
        exact absurd hev (h1 _)
      | ok cached =>
        cases cached with
        | nil => rfl
        | cons b bs =>
          simp only [hg, List.isEmpty, Bool.not_false, if_true, List.mem_singleton] at hev
          exact absurd hev (h1 _)

/-- The compile switch never calls `store_code_object`. -/
theorem compile_switch_no_store (m : RTCProcessType) (col : Collaborators) (owns : Bool)
    (kernel_src gpu_arch : String) (k : CacheKey) (code : Bytes) :
    Event.store_code_object k code ∉ (compile_switch m col owns kernel_src gpu_arch).1 := by
  cases hsub : col.compile_subprocess kernel_src gpu_arch <;> cases m <;> cases owns <;>
    simp [compile_switch, compile_force_in_process, hsub]

/-- Where the compile switch calls the in-process compiler: on the source and architecture
it was given, as its last compile, with only the release of the mutex after it, and with
the outcome of that call as its own outcome. -/
theorem compile_switch_inprocess_event (m : RTCProcessType) (col : Collaborators) (owns : Bool)
    (kernel_src gpu_arch src arch : String)
    (h : Event.compile_inprocess src arch ∈ (compile_switch m col owns kernel_src gpu_arch).1) :
    src = kernel_src ∧ arch = gpu_arch
    ∧ (compile_switch m col owns kernel_src gpu_arch).2
        = col.compile_inprocess kernel_src gpu_arch
    ∧ ∃ pre, (compile_switch m col owns kernel_src gpu_arch).1
        = pre ++ [.compile_inprocess kernel_src gpu_arch, .unlock]
      ∧ ∀ s a, Event.compile_inprocess s a ∉ pre := by
  cases m with
  | FORCE_IN_PROCESS =>
    simp only [compile_switch, compile_force_in_process, List.mem_cons, List.mem_singleton,
      List.not_mem_nil, or_false] at h
    rcases h with h | h | h
    · cases h
    · cases h
      exact ⟨rfl, rfl, rfl, [.lock], rfl, by simp⟩
    · cases h
  | FORCE_OUT_PROCESS =>
    cases hsub : col.compile_subprocess kernel_src gpu_arch with
    | ok b =>
      simp [compile_switch, hsub] at h
    | error e =>
      rw [compile_switch_force_out_error col owns kernel_src gpu_arch e hsub] at h ⊢
      simp only [List.mem_cons, List.mem_singleton, List.not_mem_nil, or_false] at h
      rcases h with h | h | h | h
      · cases h
      · cases h
      · cases h
        exact ⟨rfl, rfl, rfl, [.compile_subprocess kernel_src gpu_arch, .lock], rfl, by simp⟩
      · cases h
  | DEFAULT =>
    cases owns with
    | true =>
      rw [compile_switch_default_owns] at h ⊢
      simp only [List.mem_cons, List.mem_singleton, List.not_mem_nil, or_false] at h
      rcases h with h | h | h
      · cases h
      · cases h
        exact ⟨rfl, rfl, rfl, [.try_lock true], rfl, by simp⟩
      · cases h
    | false =>
      cases hsub : col.compile_subprocess kernel_src gpu_arch with
      | ok b =>
        rw [compile_switch_default_sub_ok col kernel_src gpu_arch b hsub] at h
        simp at h
      | error e =>
        rw [compile_switch_default_sub_error col kernel_src gpu_arch e hsub] at h ⊢
        simp only [List.mem_cons, List.mem_singleton, List.not_mem_nil, or_false] at h
        rcases h with h | h | h | h | h
        · cases h
        · cases h
        · cases h
        · cases h
          exact ⟨rfl, rfl, rfl,
            [.try_lock false, .compile_subprocess kernel_src gpu_arch, .lock], rfl, by simp⟩
        · cases h

/-- Whether `store_code_object` returns or throws: with the user store open and the five
binds succeeding it returns normally, whatever the step does; with writes enabled and a
failing bind it throws. -/
theorem RTCCache.store_code_object_outcome (c : RTCCache) (env : Env) (s : StoreCall)
    (kernel_name gpu_arch : String) (hip_version : Int) (generator_sum : GeneratorSum)
    (code : Bytes) :
    (∀ conn, c.db_user = some conn → s.faults.store_binds_ok →
      (c.store_code_object env s kernel_name gpu_arch hip_version generator_sum code).2
        = .ok ())
    ∧ (writes_enabled env → ¬ s.faults.store_binds_ok →
      (c.store_code_object env s kernel_name gpu_arch hip_version generator_sum code).2
        = .error "store_code_object bind: ") := by
  unfold RTCCache.store_code_object writes_enabled
  constructor
  · intro conn hc hb
    obtain ⟨⟨h1, h2, h3, h4⟩, h5⟩ := hb
    have h5z : s.faults.bind_rc 5 = 0 := h5
    by_cases hw : rocfft_getenv env "ROCFFT_RTC_CACHE_WRITE_DISABLE" = ""
    · simp [hw, hc, h1, h2, h3, h4, h5z]
    · simp [hw]
  · intro hw hb
    have hor : s.faults.bind_rc 1 ≠ SQLITE_OK ∨ s.faults.bind_rc 2 ≠ SQLITE_OK
        ∨ s.faults.bind_rc 3 ≠ SQLITE_OK ∨ s.faults.bind_rc 4 ≠ SQLITE_OK
        ∨ s.faults.bind_rc 5 ≠ 0 := by
      by_contra hcon
      simp only [not_or, not_not] at hcon
      exact hb ⟨⟨hcon.1, hcon.2.1, hcon.2.2.1, hcon.2.2.2.1⟩, hcon.2.2.2.2⟩
    simp only [hw, ne_eq, not_true_eq_false, if_false]
    cases c.db_user with
    | none => rfl
    | some conn => simp only [if_pos hor]

/-- Whether the query of one tier returns or throws when reads are enabled: a failing bind
throws; otherwise a failing step gives the empty vector. -/
theorem get_code_object_impl_faults (env : Env) (f : StmtFaults) (k : CacheKey) (db : Table)
    (hr : reads_enabled env) :
    (¬ f.get_binds_ok →
      get_code_object_impl env f k.kernel_name k.arch k.hip_version k.generator_sum db
        = .error "get_code_object bind: ")
    ∧ (f.get_binds_ok → f.step_fails = true →
      get_code_object_impl env f k.kernel_name k.arch k.hip_version k.generator_sum db
        = .ok []) := by
  unfold reads_enabled at hr
  constructor
  · intro hb
    have hor : f.bind_rc 1 ≠ SQLITE_OK ∨ f.bind_rc 2 ≠ SQLITE_OK ∨ f.bind_rc 3 ≠ SQLITE_OK
        ∨ f.bind_rc 4 ≠ SQLITE_OK := by
      by_contra hcon
      simp only [not_or, not_not] at hcon
      exact hb ⟨hcon.1, hcon.2.1, hcon.2.2.1, hcon.2.2.2⟩
    simp only [get_code_object_impl, hr, ne_eq, not_true_eq_false, if_false, if_pos hor]
  · rintro ⟨h1, h2, h3, h4⟩ hs
    simp [get_code_object_impl, hr, h1, h2, h3, h4, step_get, hs, SQLITE_ERROR, SQLITE_ROW]

/-! ## Lemmas on the poll loop -/

/-- Growing the buffer by `READ_CHUNK_SIZE`, reading a chunk into the new space and shrinking
to the bytes read leaves the old content followed by the chunk, with no padding. -/
theorem read_buffer_exact (code chunk : Bytes) (h : chunk.length ≤ READ_CHUNK_SIZE) :
    vector_resize
        (store_at (vector_resize code (code.length + READ_CHUNK_SIZE)) code.length chunk)
        (code.length + chunk.length)
      = code ++ chunk := by
  generalize READ_CHUNK_SIZE = n at h
  unfold vector_resize store_at
  have e1 : code.take (code.length + n) = code := List.take_of_length_le (by omega)
  have e2 : code.length + n - code.length = n := by omega
  rw [e1, e2]
  have e3 : (code ++ List.replicate n (0 : Fin 256)).take code.length = code := by
    simp
  have e4 : (code ++ List.replicate n (0 : Fin 256)).drop (code.length + chunk.length)
      = List.replicate (n - chunk.length) 0 := by
    rw [List.drop_append]; simp
  rw [e3, e4]
  have e5 : (code ++ chunk ++ List.replicate (n - chunk.length) (0 : Fin 256)).take
      (code.length + chunk.length) = code ++ chunk := by
    rw [List.take_append_of_le_length (by simp)]
    exact List.take_of_length_le (by simp)
  rw [e5]
  have e6 : code.length + chunk.length
      - (code ++ chunk ++ List.replicate (n - chunk.length) (0 : Fin 256)).length = 0 := by
    simp
  rw [e6]; simp

/-- Growing the buffer and shrinking it back after a failed read restores it. -/
theorem read_buffer_failed (code : Bytes) :
    vector_resize (vector_resize code (code.length + READ_CHUNK_SIZE)) code.length = code := by
  generalize READ_CHUNK_SIZE = n
  unfold vector_resize
  have e1 : code.take (code.length + n) = code := List.take_of_length_le (by omega)
  rw [e1]
  simp

theorem read_results_append (a b : List IoEvent) :
    read_results (a ++ b) = read_results a ++ read_results b := by
  unfold read_results; simp

theorem read_results_poll (rc : Int) (t : List IoEvent) :
    read_results (.poll rc :: t) = read_results t := by
  unfold read_results; simp [List.filterMap_cons]

/-- The write block changes no byte of `code` and calls no `read`. -/
theorem write_step_spec (size : Nat) (r : PollRound) (s : LoopState) :
    (write_step size r s).1.code = s.code ∧ read_results (write_step size r s).2.1 = [] := by
  unfold write_step
  by_cases h1 : (r.stdin_pollout && s.stdin_write_open) = true
  · rw [if_pos h1]
    by_cases h2 : r.write_rc ≤ 0
    · simp [h2, read_results]
    · simp only [if_neg h2]
      by_cases h3 : s.total_bytes_written + r.write_rc.toNat ≥ size
      · rw [if_pos h3]
        exact ⟨rfl, rfl⟩
      · rw [if_neg h3]
        exact ⟨rfl, rfl⟩
  · rw [if_neg h1]
    exact ⟨rfl, rfl⟩

/-- The read block: it calls `read` at most once; when the chunk fits the request, `code`
grows by exactly the bytes read; an end of file as its read ends the loop by `break`; and
when the loop goes on, the read (if any) was not an end of file. -/
theorem read_step_spec (r : PollRound) (s : LoopState) :
    ((∀ rc ∈ read_results (read_step r s).2.1, rc.chunk.length ≤ READ_CHUNK_SIZE) →
      (read_step r s).1.code
        = s.code ++ ((read_results (read_step r s).2.1).map ReadResult.chunk).flatten)
    ∧ (∀ ex, (read_step r s).2.2 = some ex →
        (read_results (read_step r s).2.1).getLast? = some (.bytes []) → ex = .left)
    ∧ ((read_step r s).2.2 = Option.none →
        ReadResult.bytes [] ∉ read_results (read_step r s).2.1) := by
  unfold read_step
  cases hin : r.stdout_pollin with
  | false =>
    cases hhup : r.stdout_pollhup <;> simp [read_results]
  | true =>
    cases hrc : r.read_rc with
    | failed =>
      simp [read_results, read_buffer_failed, ReadResult.chunk]
    | bytes chunk =>
      cases chunk with
      | nil =>
        simp only [if_true, List.length_nil, read_results, List.filterMap_cons,
          List.filterMap_nil, List.mem_singleton, forall_eq, ReadResult.chunk, List.map_cons,
          List.map_nil, Option.some.injEq, List.getLast?_singleton,
          reduceCtorEq, false_implies, and_true]
        refine ⟨fun h => ?_, fun ex hex _ => hex.symm⟩
        have := read_buffer_exact s.code [] (by simp)
        simpa using this
      | cons b bs =>
        simp only [if_true, List.length_cons, Nat.add_one_ne_zero, if_false, read_results,
          List.filterMap_cons, List.filterMap_nil, List.mem_singleton, forall_eq,
          ReadResult.chunk, List.map_cons, List.map_nil,
          reduceCtorEq, false_implies, implies_true, true_and, and_true]
        refine ⟨fun h => ?_, ?_⟩
        · have := read_buffer_exact s.code (b :: bs) (by simpa using h)
          simpa using this
        · intro _ h
          cases h

/-- One unfolding of the poll loop. -/
theorem posix_io_loop_cons (size : Nat) (r : PollRound) (rs : List PollRound) (s : LoopState) :
    posix_io_loop size (r :: rs) s =
      if r.poll_rc < 0 then (s, [.poll r.poll_rc], .left)
      else if (r.stdin_pollerr || r.stdout_pollerr) = true then (s, [.poll r.poll_rc], .left)
      else if (write_step size r s).2.2 = true then
        ((write_step size r s).1, .poll r.poll_rc :: (write_step size r s).2.1, .left)
      else
        match (read_step r (write_step size r s).1).2.2 with
        | some ex =>
          ((read_step r (write_step size r s).1).1,
            .poll r.poll_rc :: ((write_step size r s).2.1
              ++ (read_step r (write_step size r s).1).2.1), ex)
        | Option.none =>
          ((posix_io_loop size rs (read_step r (write_step size r s).1).1).1,
            .poll r.poll_rc :: ((write_step size r s).2.1
              ++ (read_step r (write_step size r s).1).2.1
              ++ (posix_io_loop size rs (read_step r (write_step size r s).1).1).2.1),
            (posix_io_loop size rs (read_step r (write_step size r s).1).1).2.2) := rfl

/-- The poll loop reads exactly: when every chunk fits its request, `code` at the end is
`code` at the start followed by the chunks read, in order; and when the last `read` of the
loop is an end of file, the loop was left by `break`. -/
theorem posix_io_loop_reads (size : Nat) (rounds : List PollRound) :
    ∀ s : LoopState,
      ((∀ rc ∈ read_results (posix_io_loop size rounds s).2.1,
          rc.chunk.length ≤ READ_CHUNK_SIZE) →
        (posix_io_loop size rounds s).1.code
          = s.code ++ ((read_results (posix_io_loop size rounds s).2.1).map
              ReadResult.chunk).flatten)
      ∧ ((read_results (posix_io_loop size rounds s).2.1).getLast? = some (.bytes []) →
          (posix_io_loop size rounds s).2.2 = .left) := by
  induction rounds with
  | nil => intro s; simp [posix_io_loop, read_results]
  | cons r rs ih =>
    intro s
    obtain ⟨hwc, hwr⟩ := write_step_spec size r s
    obtain ⟨hrc, hrl, hrn⟩ := read_step_spec r (write_step size r s).1
    rw [posix_io_loop_cons]
    by_cases h1 : r.poll_rc < 0
    · rw [if_pos h1]
      simp [read_results]
    · rw [if_neg h1]
      by_cases h2 : (r.stdin_pollerr || r.stdout_pollerr) = true
      · rw [if_pos h2]
        simp [read_results]
      · rw [if_neg h2]
        by_cases h3 : (write_step size r s).2.2 = true
        · rw [if_pos h3]
          simp only [read_results_poll, hwr, hwc]
          simp
        · rw [if_neg h3]
          cases hex : (read_step r (write_step size r s).1).2.2 with
          | some ex =>
            simp only [read_results_poll, read_results_append, hwr, List.nil_append]
            refine ⟨fun h => ?_, fun h => hrl ex hex h⟩
            rw [hrc h, hwc]
          | none =>
            obtain ⟨ihc, ihl⟩ := ih (read_step r (write_step size r s).1).1
            simp only [read_results_poll, read_results_append, hwr, List.nil_append]
            refine ⟨fun h => ?_, fun h => ?_⟩
            · rw [ihc (fun rc hrc2 => h rc (List.mem_append_right _ hrc2)),
                hrc (fun rc hrc2 => h rc (List.mem_append_left _ hrc2)), hwc]
              simp [List.append_assoc]
            · apply ihl
              rw [List.getLast?_append] at h
              cases hl : (read_results (posix_io_loop size rs
                  (read_step r (write_step size r s).1).1).2.1).getLast? with
              | some x => rw [hl] at h; simpa using h
              | none =>
                rw [hl] at h
                simp only [Option.or] at h
                exact absurd (List.mem_of_getLast?_eq_some h) (hrn hex)

/-- The shape of `compile_subprocess` once the helper is found, both pipes are created and
the child is spawned. -/
theorem compile_subprocess_spawned (os : SubprocessOS) (kernel_src gpu_arch exe : String)
    (h1 : os.find_rtc_helper = .ok exe) (h2 : os.pipe2_stdin = 0) (h3 : os.pipe2_stdout = 0)
    (h4 : os.posix_spawn = 0) :
    compile_subprocess os kernel_src gpu_arch =
      match (posix_io_loop kernel_src.length os.rounds ⟨0, [], true⟩).2.2 with
      | .script_ended =>
        ⟨[.spawn exe gpu_arch, .close .child_stdin_read, .close .child_stdout_write]
          ++ (posix_io_loop kernel_src.length os.rounds ⟨0, [], true⟩).2.1,
          Option.none, Option.none⟩
      | .threw msg =>
        ⟨[.spawn exe gpu_arch, .close .child_stdin_read, .close .child_stdout_write]
          ++ (posix_io_loop kernel_src.length os.rounds ⟨0, [], true⟩).2.1
          ++ [.close .child_stdout_read]
          ++ (if (posix_io_loop kernel_src.length os.rounds ⟨0, [], true⟩).1.stdin_write_open
              then [.close .child_stdin_write] else []),
          Option.none, some (.error msg)⟩
      | .left =>
        ⟨[.spawn exe gpu_arch, .close .child_stdin_read, .close .child_stdout_write]
          ++ (posix_io_loop kernel_src.length os.rounds ⟨0, [], true⟩).2.1
          ++ [.close .child_stdout_read, .waitpid]
          ++ (if (posix_io_loop kernel_src.length os.rounds ⟨0, [], true⟩).1.stdin_write_open
              then [.close .child_stdin_write] else []),
          some (posix_io_loop kernel_src.length os.rounds ⟨0, [], true⟩).1.code,
          some (subprocess_finish os
            (posix_io_loop kernel_src.length os.rounds ⟨0, [], true⟩).1.code)⟩ := by
  unfold compile_subprocess
  simp only [h1, h2, h3, h4, ne_eq, not_true_eq_false, if_false]

/-- Either `compile_subprocess` captured no output and returns no bytes, or it captured
bytes and its outcome is that of the final checks on them. -/
theorem compile_subprocess_cases (os : SubprocessOS) (kernel_src gpu_arch : String) :
    ((compile_subprocess os kernel_src gpu_arch).captured = Option.none
      ∧ ∀ b, (compile_subprocess os kernel_src gpu_arch).result ≠ some (.ok b))
    ∨ ∃ D, (compile_subprocess os kernel_src gpu_arch).captured = some D
      ∧ (compile_subprocess os kernel_src gpu_arch).result = some (subprocess_finish os D) := by
  cases h1 : os.find_rtc_helper with
  | error e => left; simp [compile_subprocess, h1]
  | ok exe =>
    by_cases h2 : os.pipe2_stdin = 0
    · by_cases h3 : os.pipe2_stdout = 0
      · by_cases h4 : os.posix_spawn = 0
        · rw [compile_subprocess_spawned os kernel_src gpu_arch exe h1 h2 h3 h4]
          cases (posix_io_loop kernel_src.length os.rounds ⟨0, [], true⟩).2.2 with
          | left => right; exact ⟨_, rfl, rfl⟩
          | threw msg => left; simp
          | script_ended => left; simp
        · left; simp [compile_subprocess, h1, h2, h3, h4]
      · left; simp [compile_subprocess, h1, h2, h3]
    · left; simp [compile_subprocess, h1, h2]

/-- The final checks return bytes only when these are the captured bytes, not empty, and
the child was waited for and neither signalled nor exited with a non-zero status. -/
theorem subprocess_finish_ok (os : SubprocessOS) (D b : Bytes)
    (h : subprocess_finish os D = .ok b) :
    b = D ∧ D ≠ [] ∧ os.waitpid_ok = true ∧ os.wifsignaled = false ∧ os.wexitstatus = 0 := by
  unfold subprocess_finish at h
  cases hw : os.waitpid_ok with
  | false => simp [hw] at h
  | true =>
    cases D with
    | nil => simp [hw] at h
    | cons x xs =>
      cases hs : os.wifsignaled with
      | true => simp [hw, hs] at h
      | false =>
        by_cases he : os.wexitstatus = 0
        · simp [hw, hs, he] at h
          exact ⟨h.symm, by simp, rfl, rfl, he⟩
        · simp [hw, hs, he] at h

/-- The `read` calls of `compile_subprocess` are those of its poll loop; there are none
when the set-up fails. -/
theorem compile_subprocess_read_results (os : SubprocessOS) (kernel_src gpu_arch : String)
    (h : read_results (compile_subprocess os kernel_src gpu_arch).trace ≠ []) :
    ∃ exe, os.find_rtc_helper = .ok exe ∧ os.pipe2_stdin = 0 ∧ os.pipe2_stdout = 0
      ∧ os.posix_spawn = 0
      ∧ read_results (compile_subprocess os kernel_src gpu_arch).trace
          = read_results (posix_io_loop kernel_src.length os.rounds ⟨0, [], true⟩).2.1 := by
  cases h1 : os.find_rtc_helper with
  | error e => simp [compile_subprocess, h1, read_results] at h
  | ok exe =>
    by_cases h2 : os.pipe2_stdin = 0
    · by_cases h3 : os.pipe2_stdout = 0
      · by_cases h4 : os.posix_spawn = 0
        · refine ⟨exe, rfl, h2, h3, h4, ?_⟩
          rw [compile_subprocess_spawned os kernel_src gpu_arch exe h1 h2 h3 h4]
          cases (posix_io_loop kernel_src.length os.rounds ⟨0, [], true⟩).2.2 <;>
            cases (posix_io_loop kernel_src.length os.rounds
              ⟨0, [], true⟩).1.stdin_write_open <;>
            simp [read_results_append, read_results]
        · simp [compile_subprocess, h1, h2, h3, h4, read_results] at h
      · simp [compile_subprocess, h1, h2, h3, read_results] at h
    · simp [compile_subprocess, h1, h2, read_results] at h

/-! ## Lemmas on the construction -/

/-- The candidate list `rtccache_db_user_paths` returns: the override and the in-memory path
when the override is set; otherwise one standard cache directory (if any), the temp
directory and the in-memory path. -/
theorem rtccache_db_user_paths_spec (env : Env) (pf : Platform) (paths : List String)
    (h : rtccache_db_user_paths env pf = .ok paths) :
    (rocfft_getenv env "ROCFFT_RTC_CACHE_PATH" ≠ "" →
      paths = [rocfft_getenv env "ROCFFT_RTC_CACHE_PATH", ""])
    ∧ (rocfft_getenv env "ROCFFT_RTC_CACHE_PATH" = "" →
      ∃ tmp, pf.temp_directory_path = some tmp
        ∧ paths = standard_cache_candidates env pf
            ++ [pf.path.join tmp default_cache_filename, ""]) := by
  unfold rtccache_db_user_paths at h
  by_cases ho : rocfft_getenv env "ROCFFT_RTC_CACHE_PATH" = ""
  · refine ⟨fun hne => absurd ho hne, fun _ => ?_⟩
    simp only [ho, ne_eq, not_true_eq_false, if_false] at h
    unfold standard_cache_candidates
    cases htmp : pf.temp_directory_path with
    | none =>
      by_cases hx : rocfft_getenv env "XDG_CACHE_HOME" = ""
      · by_cases hh : rocfft_getenv env "HOME" = ""
        · simp [hx, hh, htmp, bind, Except.bind, pure, Except.pure, throw, throwThe,
            MonadExceptOf.throw] at h
        · cases hc : pf.create_directories
              (pf.path.join (pf.path.join (rocfft_getenv env "HOME") ".cache") "rocFFT") <;>
            simp [hx, hh, hc, htmp, bind, Except.bind, pure, Except.pure, throw, throwThe,
              MonadExceptOf.throw] at h
      · cases hc : pf.create_directories
            (pf.path.join (rocfft_getenv env "XDG_CACHE_HOME") "rocFFT") <;>
          simp [hx, hc, htmp, bind, Except.bind, pure, Except.pure, throw, throwThe,
            MonadExceptOf.throw] at h
    | some tmp =>
      refine ⟨tmp, rfl, ?_⟩
      by_cases hx : rocfft_getenv env "XDG_CACHE_HOME" = ""
      · by_cases hh : rocfft_getenv env "HOME" = ""
        · simp [hx, hh, htmp, bind, Except.bind, pure, Except.pure] at h
          simp [hx, hh, ← h]
        · cases hc : pf.create_directories
              (pf.path.join (pf.path.join (rocfft_getenv env "HOME") ".cache") "rocFFT")
          · simp [hx, hh, hc, htmp, bind, Except.bind, pure, Except.pure, throw, throwThe,
              MonadExceptOf.throw] at h
          · simp [hx, hh, hc, htmp, bind, Except.bind, pure, Except.pure] at h
            simp [hx, hh, ← h]
      · cases hc : pf.create_directories
            (pf.path.join (rocfft_getenv env "XDG_CACHE_HOME") "rocFFT")
        · simp [hx, hc, htmp, bind, Except.bind, pure, Except.pure, throw, throwThe,
            MonadExceptOf.throw] at h
        · simp [hx, hc, htmp, bind, Except.bind, pure, Except.pure] at h
          simp [hx, ← h]
  · refine ⟨fun _ => ?_, fun he => absurd he ho⟩
    simp only [ne_eq, ho, not_false_eq_true, if_true] at h
    cases h
    rfl

/-- A candidate list that `rtccache_db_user_paths` returns is not empty and ends with the
in-memory path. -/
theorem rtccache_db_user_paths_last (env : Env) (pf : Platform) (paths : List String)
    (h : rtccache_db_user_paths env pf = .ok paths) :
    paths ≠ [] ∧ paths.getLast? = some "" := by
  obtain ⟨h1, h2⟩ := rtccache_db_user_paths_spec env pf paths h
  by_cases ho : rocfft_getenv env "ROCFFT_RTC_CACHE_PATH" = ""
  · obtain ⟨tmp, _, hp⟩ := h2 ho
    rw [hp]
    refine ⟨by simp, ?_⟩
    rw [show standard_cache_candidates env pf ++ [pf.path.join tmp default_cache_filename, ""]
      = (standard_cache_candidates env pf ++ [pf.path.join tmp default_cache_filename])
        ++ [""] by simp]
    exact List.getLast?_concat _
  · rw [h1 ho]
    exact ⟨by simp, rfl⟩

/-- The loop over the candidates ends, when no exception leaves it, with the first candidate
that can be opened read-write. -/
theorem connect_first_spec (pf : Platform) (paths : List String)
    (r : Option (String × Table)) (h : connect_first pf paths = .ok r) :
    r.map Prod.fst = paths.find? (opens_read_write pf) := by
  induction paths with
  | nil =>
    simp only [connect_first, Except.ok.injEq] at h
    subst h
    rfl
  | cons p ps ih =>
    unfold connect_first at h
    cases hc : connect_db pf p false with
    | error e => rw [hc] at h; cases h
    | ok o =>
      cases o with
      | none =>
        rw [hc] at h
        simp only at h
        rw [ih h]
        simp [List.find?, opens_read_write, hc]
      | some t =>
        rw [hc] at h
        simp only [Except.ok.injEq] at h
        subst h
        simp [List.find?, opens_read_write, hc]

/-- When the constructor returns, the user store is the first candidate of
`rtccache_db_user_paths` that can be opened read-write, and `db_user` is non-null exactly
when there is one. -/
theorem RTCCache.construct_spec (env : Env) (pf : Platform) (r : Constructed)
    (h : RTCCache.construct env pf = .ok r) :
    ∃ paths, rtccache_db_user_paths env pf = .ok paths
      ∧ r.user_path = paths.find? (opens_read_write pf)
      ∧ r.cache.db_user.isSome = r.user_path.isSome := by
  unfold RTCCache.construct at h
  cases hs : connect_sys env pf with
  | error e => rw [hs] at h; cases h
  | ok db_sys0 =>
    rw [hs] at h
    simp only at h
    cases hp : rtccache_db_user_paths env pf with
    | error e => rw [hp] at h; cases h
    | ok paths =>
      rw [hp] at h
      simp only at h
      cases hu : connect_first pf paths with
      | error e => rw [hu] at h; cases h
      | ok user =>
        rw [hu] at h
        simp only at h
        have hf := connect_first_spec pf paths user hu
        refine ⟨paths, rfl, ?_⟩
        unfold prepare_statements at h
        cases user with
        | none =>
          simp only [Except.ok.injEq] at h
          subst h
          exact ⟨by rw [← hf]; rfl, rfl⟩
        | some pt =>
          obtain ⟨p, t⟩ := pt
          simp only at h
          split at h
          · cases h
          · split at h
            · cases h
            · simp only [Except.ok.injEq] at h
              subst h
              exact ⟨by rw [← hf]; rfl, rfl⟩

/-- When the constructor returns and the in-memory database can be opened, the user handle
is non-null. -/
theorem RTCCache.construct_user_store (env : Env) (pf : Platform) (r : Constructed)
    (h : RTCCache.construct env pf = .ok r) (hmem : opens_read_write pf "" = true) :
    r.cache.db_user.isSome = true := by
  obtain ⟨paths, hp, hu, hs⟩ := RTCCache.construct_spec env pf r h
  obtain ⟨_, hl⟩ := rtccache_db_user_paths_last env pf paths hp
  rw [hs, hu, List.find?_isSome]
  exact ⟨"", List.mem_of_mem_getLast? hl, hmem⟩

/-! ## Lemmas on call sequences and the compile mutex -/

/-- The method `store_code_object` leaves the system database as it is. -/
theorem RTCCache.store_code_object_db_sys (c : RTCCache) (env : Env) (s : StoreCall)
    (kernel_name gpu_arch : String) (hip_version : Int) (generator_sum : GeneratorSum)
    (code : Bytes) :
    (c.store_code_object env s kernel_name gpu_arch hip_version generator_sum code).1.db_sys
      = c.db_sys := by
  unfold RTCCache.store_code_object
  by_cases hw : rocfft_getenv env "ROCFFT_RTC_CACHE_WRITE_DISABLE" ≠ ""
  · rw [if_pos hw]
  · rw [if_neg hw]
    cases hu : c.db_user with
    | none => rfl
    | some conn =>
      simp only []
      split <;> rfl

/-- The method `deserialize` leaves the system database as it is. -/
theorem RTCCache.deserialize_db_sys (c : RTCCache) (f : DeserializeFaults) (buffer : Snapshot) :
    (c.deserialize f buffer).1.db_sys = c.db_sys := by
  unfold RTCCache.deserialize
  cases hu : c.db_user with
  | none => rfl
  | some conn =>
    simp only []
    rw [apply_ite Prod.fst, apply_ite RTCCache.db_sys]
    exact ite_self _

/-- After a miss, a generator that throws ends `cached_compile` right after its call. -/
theorem cached_compile_miss_generate_error (st : ProcessState) (env : Env) (col : Collaborators)
    (cx : CallContext) (kernel_name gpu_arch : String)
    (generate_src : String → Except String String) (hip_version : Int) (e : String)
    (hv : resolve_hip_version st col = some hip_version)
    (hmiss : lookup_misses st env col cx kernel_name gpu_arch hip_version)
    (hgen : generate_src kernel_name = .error e) :
    cached_compile st env col cx kernel_name gpu_arch generate_src
      = ⟨{ st with hip_version := hip_version },
          lookup_events st (request_key col kernel_name gpu_arch hip_version)
            ++ [.generate_src kernel_name],
          .error e⟩ := by
  unfold cached_compile
  simp only [hv]
  cases hs : st.single with
  | none =>
    simp only [hgen, lookup_events, hs, request_key]
    rfl
  | some c =>
    simp only [hmiss c hs, hgen, lookup_events, hs, request_key]
    rfl

/-- The trace of `cached_compile` is made of lookups and generator calls only, or the
request missed, the generator returned a source, and the trace is the lookup, the generator
call, the events of the compile switch and then at most stores. -/
theorem cached_compile_trace_cases (st : ProcessState) (env : Env) (col : Collaborators)
    (cx : CallContext) (kernel_name gpu_arch : String)
    (generate_src : String → Except String String) :
    (∀ ev ∈ (cached_compile st env col cx kernel_name gpu_arch generate_src).trace,
        (∃ k, ev = Event.get_code_object k) ∨ ∃ n, ev = Event.generate_src n)
    ∨ ∃ (hip_version : Int) (kernel_src : String) (post : List Event),
        resolve_hip_version st col = some hip_version
        ∧ lookup_misses st env col cx kernel_name gpu_arch hip_version
        ∧ generate_src kernel_name = .ok kernel_src
        ∧ (cached_compile st env col cx kernel_name gpu_arch generate_src).trace
            = lookup_events st (request_key col kernel_name gpu_arch hip_version)
              ++ [.generate_src kernel_name]
              ++ (compile_switch (get_rtc_process_type env) col cx.try_lock_owns kernel_src
                gpu_arch).1 ++ post
        ∧ (∀ ev ∈ post, ∃ k code, ev = Event.store_code_object k code) := by
  by_cases hc : ∀ ev ∈ (cached_compile st env col cx kernel_name gpu_arch generate_src).trace,
      (∃ k, ev = Event.get_code_object k) ∨ ∃ n, ev = Event.generate_src n
  · exact Or.inl hc
  · right
    push_neg at hc
    obtain ⟨ev, hev, h1, h2⟩ := hc
    obtain ⟨hip_version, kernel_src, hv, hmiss, hgen⟩ :=
      cached_compile_past_generate st env col cx kernel_name gpu_arch generate_src ev hev h1 h2
    obtain ⟨post, ht, hp, _⟩ :=
      cached_compile_miss_trace st env col cx kernel_name gpu_arch generate_src hip_version
        kernel_src hv hmiss hgen
    exact ⟨hip_version, kernel_src, post, hv, hmiss, hgen, ht, hp⟩

/-- Holding the mutex at the end of two traces in a row. -/
theorem held_at_end_append (held : Bool) (a b : List Event) :
    held_at_end held (a ++ b) = held_at_end (held_at_end held a) b := by
  simp [held_at_end, List.foldl_append]

/-- The mutex discipline of two traces in a row. -/
theorem mutex_discipline_append (held : Bool) (a b : List Event) :
    mutex_discipline held (a ++ b)
      = (mutex_discipline held a && mutex_discipline (held_at_end held a) b) := by
  induction a generalizing held with
  | nil => simp [mutex_discipline, held_at_end]
  | cons ev rest ih =>
    simp [mutex_discipline, held_at_end, ih, Bool.and_assoc]

/-- Lookups, generator calls and stores neither touch the mutex nor call a compiler. -/
theorem mutex_neutral (held : Bool) (l : List Event)
    (hl : ∀ ev ∈ l, (∃ k, ev = Event.get_code_object k) ∨ (∃ n, ev = Event.generate_src n)
      ∨ ∃ k code, ev = Event.store_code_object k code) :
    held_at_end held l = held ∧ mutex_discipline held l = true := by
  induction l with
  | nil => exact ⟨rfl, rfl⟩
  | cons ev rest ih =>
    have hr := ih (fun e he => hl e (List.mem_cons_of_mem _ he))
    simp only [held_at_end] at hr
    rcases hl ev (List.mem_cons_self _ _) with ⟨k, rfl⟩ | ⟨n, rfl⟩ | ⟨k, code, rfl⟩ <;>
      simpa [held_at_end, mutex_discipline, Event.held_after] using hr

/-- The compile switch keeps the mutex discipline and ends with the mutex released. -/
theorem compile_switch_mutex (m : RTCProcessType) (col : Collaborators) (owns : Bool)
    (kernel_src gpu_arch : String) :
    mutex_discipline false (compile_switch m col owns kernel_src gpu_arch).1 = true
    ∧ held_at_end false (compile_switch m col owns kernel_src gpu_arch).1 = false := by
  cases hsub : col.compile_subprocess kernel_src gpu_arch <;> cases m <;> cases owns <;>
    simp [compile_switch, compile_force_in_process, hsub, mutex_discipline, held_at_end,
      Event.held_after]

/-- The discipline of the compile mutex along every trace of `cached_compile`, and the
mutex is released at its end. -/
theorem cached_compile_mutex (st : ProcessState) (env : Env) (col : Collaborators)
    (cx : CallContext) (kernel_name gpu_arch : String)
    (generate_src : String → Except String String) :
    mutex_discipline false
        (cached_compile st env col cx kernel_name gpu_arch generate_src).trace = true
    ∧ held_at_end false
        (cached_compile st env col cx kernel_name gpu_arch generate_src).trace = false := by
  rcases cached_compile_trace_cases st env col cx kernel_name gpu_arch generate_src with
    h | ⟨hip_version, kernel_src, post, _, _, _, ht, hp⟩
  · have hn := mutex_neutral false _ (fun ev hev => by
      rcases h ev hev with hk | hn
      · exact Or.inl hk
      · exact Or.inr (Or.inl hn))
    exact ⟨hn.2, hn.1⟩
  · have h1 := mutex_neutral false
      (lookup_events st (request_key col kernel_name gpu_arch hip_version)
        ++ [.generate_src kernel_name]) (fun ev hev => by
      rcases List.mem_append.1 hev with h | h
      · exact Or.inl ⟨_, lookup_events_mem st _ ev h⟩
      · exact Or.inr (Or.inl ⟨kernel_name, by simpa using h⟩))
    have h2 := compile_switch_mutex (get_rtc_process_type env) col cx.try_lock_owns kernel_src
      gpu_arch
    have h3 := mutex_neutral false post (fun ev hev => Or.inr (Or.inr (hp ev hev)))
    rw [ht]
    simp only [mutex_discipline_append, held_at_end_append, h1.1, h1.2, h2.1, h2.2, h3.1, h3.2,
      Bool.and_self]
    exact ⟨trivial, trivial⟩

/-- The compile switch calls the compilers on the source and architecture it was given. -/
theorem compile_switch_compile_events (m : RTCProcessType) (col : Collaborators) (owns : Bool)
    (kernel_src gpu_arch s a : String)
    (h : Event.compile_inprocess s a ∈ (compile_switch m col owns kernel_src gpu_arch).1
      ∨ Event.compile_subprocess s a ∈ (compile_switch m col owns kernel_src gpu_arch).1) :
    s = kernel_src ∧ a = gpu_arch := by
  revert h
  cases hsub : col.compile_subprocess kernel_src gpu_arch <;> cases m <;> cases owns <;>
    simp [compile_switch, compile_force_in_process, hsub]

/-- The compile switch never calls the generator. -/
theorem compile_switch_no_generate (m : RTCProcessType) (col : Collaborators) (owns : Bool)
    (kernel_src gpu_arch n : String) :
    Event.generate_src n ∉ (compile_switch m col owns kernel_src gpu_arch).1 := by
  cases hsub : col.compile_subprocess kernel_src gpu_arch <;> cases m <;> cases owns <;>
    simp [compile_switch, compile_force_in_process, hsub]

/-- Bytes the compile switch returns are the bytes of a compiler call that it made and that
succeeded; when the subprocess compiler throws for the source, they are the bytes of the
in-process compiler. -/
theorem compile_switch_ok (m : RTCProcessType) (col : Collaborators) (owns : Bool)
    (kernel_src gpu_arch : String) (code : Bytes)
    (h : (compile_switch m col owns kernel_src gpu_arch).2 = .ok code) :
    ((col.compile_inprocess kernel_src gpu_arch = .ok code
        ∧ Event.compile_inprocess kernel_src gpu_arch
            ∈ (compile_switch m col owns kernel_src gpu_arch).1)
      ∨ (col.compile_subprocess kernel_src gpu_arch = .ok code
        ∧ Event.compile_subprocess kernel_src gpu_arch
            ∈ (compile_switch m col owns kernel_src gpu_arch).1))
    ∧ (∀ D, col.compile_subprocess kernel_src gpu_arch = .error D →
        col.compile_inprocess kernel_src gpu_arch = .ok code) := by
  revert h
  cases hsub : col.compile_subprocess kernel_src gpu_arch <;> cases m <;> cases owns <;>
    simp [compile_switch, compile_force_in_process, hsub]

/-- The process state after `cached_compile` has the system database it had before. -/
theorem cached_compile_db_sys (st : ProcessState) (env : Env) (col : Collaborators)
    (cx : CallContext) (kernel_name gpu_arch : String)
    (generate_src : String → Except String String) :
    (cached_compile st env col cx kernel_name gpu_arch generate_src).state.single.map
        (fun c => c.db_sys) = st.single.map (fun c => c.db_sys) := by
  unfold cached_compile
  cases hv : resolve_hip_version st col with
  | none => rfl
  | some hip_version =>
    simp only []
    cases hs : st.single with
    | none =>
      simp only [List.isEmpty, Bool.not_true, Bool.false_eq_true, if_false]
      cases hgen : generate_src kernel_name with
      | error e => rfl
      | ok kernel_src =>
        simp only []
        cases (compile_switch (get_rtc_process_type env) col cx.try_lock_owns kernel_src
          gpu_arch).2 <;> rfl
    | some c =>
      simp only []
      cases hg : c.get_code_object env cx.get_user cx.get_sys kernel_name gpu_arch
          hip_version col.generator_sum with
      | error e2 => rfl
      | ok cached =>
        cases cached with
        | cons b bs => rfl
        | nil =>
          simp only [List.isEmpty, Bool.not_true, Bool.false_eq_true, if_false]
          cases hgen : generate_src kernel_name with
          | error e => rfl
          | ok kernel_src =>
            simp only []
            cases (compile_switch (get_rtc_process_type env) col cx.try_lock_owns kernel_src
              gpu_arch).2 with
            | error e => rfl
            | ok code =>
              simp only [Option.map_some', RTCCache.store_code_object_db_sys]

/-- One call of the interface leaves the system database as it is. -/
theorem CacheCall.run_db_sys (st : ProcessState) (call : CacheCall) :
    (call.run st).single.map (fun c => c.db_sys) = st.single.map (fun c => c.db_sys) := by
  cases call with
  | get_code_object env fu fs key => rfl
  | store_code_object env s key code =>
    cases hs : st.single with
    | none => simp [CacheCall.run, hs]
    | some c =>
      simp [CacheCall.run, hs, RTCCache.store, RTCCache.store_code_object_db_sys]
  | serialize alloc_fails => rfl
  | deserialize f buffer =>
    cases hs : st.single with
    | none => simp [CacheCall.run, hs]
    | some c => simp [CacheCall.run, hs, RTCCache.deserialize_db_sys]
  | cached_compile env col cx kernel_name gpu_arch generate_src =>
    exact cached_compile_db_sys st env col cx kernel_name gpu_arch generate_src

/-- A sequence of calls of the interface leaves the system database as it is. -/
theorem CacheCall.run_all_db_sys (calls : List CacheCall) (st : ProcessState) :
    (calls.foldl CacheCall.run st).single.map (fun c => c.db_sys)
      = st.single.map (fun c => c.db_sys) := by
  induction calls generalizing st with
  | nil => rfl
  | cons call rest ih =>
    rw [List.foldl_cons, ih, CacheCall.run_db_sys]

/-! ## Claims -/

/-- C1 (counterexample). The user store holds the empty byte sequence under `key_a`, the
system store holds the byte 7 under the same key, reads are enabled and SQLite reports no
fault: `get_code_object` returns the system bytes, not the user bytes. -/
theorem C1_counterexample :
    cache_empty_over_sys.db_user.map (fun conn => conn.cache_v1.lookup key_a) = some (some [])
    ∧ cache_empty_over_sys.db_sys.map (fun sys => sys.lookup key_a) = some (some [7])
    ∧ reads_enabled Env.unset
    ∧ cache_empty_over_sys.get Env.unset StmtFaults.none StmtFaults.none key_a = .ok [7]
    ∧ cache_empty_over_sys.get Env.unset StmtFaults.none StmtFaults.none key_a ≠ .ok [] := by
  refine ⟨by decide, by decide, rfl, by decide, by decide⟩

/-- C1 (amended). Tier precedence for non-empty user bytes: when the user store holds `Bu`
under a key, the system store holds a different `Bs` under the same key, `Bu` is not empty,
reads are enabled and the user query meets no SQLite fault, `get_code_object` returns `Bu`,
whatever happens to a query of the system store. -/
theorem C1_tier_precedence (env : Env) (fu fs : StmtFaults) (k : CacheKey)
    (conn : Connection) (sys : Table) (Bu Bs : Bytes)
    (hr : reads_enabled env) (hfu : fu.get_binds_ok ∧ fu.step_fails = false)
    (hu : conn.cache_v1.lookup k = some Bu) (_hs : sys.lookup k = some Bs) (_hne : Bu ≠ Bs)
    (hBu : Bu ≠ []) :
    RTCCache.get_code_object ⟨some sys, some conn⟩ env fu fs
      k.kernel_name k.arch k.hip_version k.generator_sum = .ok Bu :=
  RTCCache.get_user_hit ⟨some sys, some conn⟩ env fu fs k conn Bu rfl hr hfu hu hBu

/-- C1 (witness): `cache_both` holds the bytes 1, 2 in the user store and 7 in the system
store under `key_a`; the lookup returns 1, 2. -/
theorem C1_tier_precedence_witness :
    RTCCache.get_code_object cache_both Env.unset StmtFaults.none StmtFaults.none
      key_a.kernel_name key_a.arch key_a.hip_version key_a.generator_sum = .ok [1, 2] :=
  C1_tier_precedence Env.unset StmtFaults.none StmtFaults.none key_a
    ⟨[Row.of key_a [1, 2] 0], Option.none⟩ [Row.of key_a [7] 0] [1, 2] [7]
    rfl ⟨⟨rfl, rfl, rfl, rfl⟩, rfl⟩ (by decide) (by decide) (by decide) (by decide)

/-- C2. Key discrimination: when two keys differ in one of the four fields and every row of
the user store and of the system store is stored under the first key, `get_code_object` on
the second key never returns bytes (for any SQLite fault and any environment), and reports a
miss, the empty byte sequence, whenever its binds succeed. -/
theorem C2_key_discrimination (c : RTCCache) (env : Env) (fu fs : StmtFaults)
    (k1 k2 : CacheKey)
    (hk : k1.kernel_name ≠ k2.kernel_name ∨ k1.arch ≠ k2.arch
      ∨ k1.hip_version ≠ k2.hip_version ∨ k1.generator_sum ≠ k2.generator_sum)
    (hu : ∀ conn, c.db_user = some conn → ∀ r ∈ conn.cache_v1, r.key = k1)
    (hs : ∀ sys, c.db_sys = some sys → ∀ r ∈ sys, r.key = k1) :
    (∀ b, c.get_code_object env fu fs k2.kernel_name k2.arch k2.hip_version k2.generator_sum
        = .ok b → b = [])
    ∧ (fu.get_binds_ok → fs.get_binds_ok →
        c.get_code_object env fu fs k2.kernel_name k2.arch k2.hip_version k2.generator_sum
          = .ok []) := by
  have hne : k1 ≠ k2 := by
    intro e; subst e; rcases hk with h | h | h | h <;> exact h rfl
  have miss : ∀ t : Table, (∀ r ∈ t, r.key = k1) → t.lookup k2 = Option.none := by
    intro t ht
    apply Table.lookup_eq_none_of_not_mem
    intro hmem
    obtain ⟨r, hr, hrk⟩ := List.mem_map.mp hmem
    exact hne ((ht r hr).symm.trans hrk)
  have impl : ∀ (f : StmtFaults) (t : Table), (∀ r ∈ t, r.key = k1) →
      (∀ b, get_code_object_impl env f k2.kernel_name k2.arch k2.hip_version k2.generator_sum t
          = .ok b → b = [])
      ∧ (f.get_binds_ok →
          get_code_object_impl env f k2.kernel_name k2.arch k2.hip_version k2.generator_sum t
            = .ok []) := by
    intro f t ht
    simp only [get_code_object_impl, step_get_eq, miss t ht]
    constructor
    · intro b
      split
      · intro h; cases h; rfl
      · split
        · intro h; cases h
        · cases f.step_fails <;> simp [SQLITE_DONE, SQLITE_ROW, SQLITE_ERROR]
    · rintro ⟨h1, h2, h3, h4⟩
      split
      · rfl
      · simp only [h1, h2, h3, h4, ne_eq, not_true_eq_false, or_self, if_false]
        cases f.step_fails <;> simp [SQLITE_DONE, SQLITE_ROW, SQLITE_ERROR]
  unfold RTCCache.get_code_object
  cases hdu : c.db_user with
  | none =>
    cases hds : c.db_sys with
    | none => simp [bind, Except.bind, pure, Except.pure]
    | some sys =>
      obtain ⟨b1, b2⟩ := impl fs sys (hs sys hds)
      simp only [bind, Except.bind, pure, Except.pure, List.isEmpty]
      exact ⟨b1, fun _ hb => b2 hb⟩
  | some conn =>
    obtain ⟨a1, a2⟩ := impl fu conn.cache_v1 (hu conn hdu)
    simp only [bind, Except.bind, pure, Except.pure]
    cases hg : get_code_object_impl env fu k2.kernel_name k2.arch k2.hip_version
        k2.generator_sum conn.cache_v1 with
    | error e =>
      refine ⟨fun b hb => (by cases hb), fun hb _ => ?_⟩
      rw [a2 hb] at hg; cases hg
    | ok code =>
      have hcode : code = [] := a1 code hg
      subst hcode
      cases hds : c.db_sys with
      | none => exact ⟨fun b hb => (by cases hb; rfl), fun _ _ => rfl⟩
      | some sys =>
        obtain ⟨b1, b2⟩ := impl fs sys (hs sys hds)
        simp only [List.isEmpty]
        exact ⟨b1, fun _ hb => b2 hb⟩

/-- C2 (witness): both tiers of `cache_both` hold bytes under `key_a` only; `key_b`, which
differs in the architecture, misses. -/
theorem C2_key_discrimination_witness :
    cache_both.get_code_object Env.unset StmtFaults.none StmtFaults.none
      key_b.kernel_name key_b.arch key_b.hip_version key_b.generator_sum = .ok [] :=
  (C2_key_discrimination cache_both Env.unset StmtFaults.none StmtFaults.none key_a key_b
    (Or.inr (Or.inl (by decide)))
    (by intro conn h r hr; cases h; simp at hr; subst hr; rfl)
    (by intro sys h r hr; cases h; simp at hr; subst hr; rfl)).2
    ⟨rfl, rfl, rfl, rfl⟩ ⟨rfl, rfl, rfl, rfl⟩

/-- C3 (counterexample). Fresh cache (empty user store, no system store), reads and writes
enabled, compile mutex free, but `ROCFFT_RTC_PROCESS` set to `1`: the first `cached_compile`
compiles through the subprocess compiler and never calls the in-process compiler. -/
theorem C3_counterexample :
    reads_enabled env_force_out ∧ writes_enabled env_force_out
    ∧ CallContext.clean.try_lock_owns = true
    ∧ (cached_compile state_fresh env_force_out sample_collaborators CallContext.clean
        "kernel_a" "gfx900" sample_generate_src).trace
        = [.get_code_object key_a, .generate_src "kernel_a",
            .compile_subprocess "src" "gfx900", .store_code_object key_a [3, 4]]
    ∧ (cached_compile state_fresh env_force_out sample_collaborators CallContext.clean
        "kernel_a" "gfx900" sample_generate_src).result = .ok [3, 4]
    ∧ Event.compile_inprocess "src" "gfx900"
        ∉ (cached_compile state_fresh env_force_out sample_collaborators CallContext.clean
            "kernel_a" "gfx900" sample_generate_src).trace := by
  refine ⟨by decide, by decide, rfl, by decide, by decide, by decide⟩

/-- C3 (amended). End-to-end, outside the forced out-of-process mode: for every key, with a
configured cache whose user store is empty and whose system store is absent, reads and
writes enabled, the compile mutex free, `ROCFFT_RTC_PROCESS` different from `1`, the runtime
version query, the generator, the in-process compiler and the SQLite calls succeeding, and
the compiled bytes `B1` not empty: the first `cached_compile` looks the key up, invokes the
generator, compiles in-process under the mutex, stores `B1` under the key in the user tier
and returns `B1`; a second `cached_compile` for the same key (with any generator and any
compilers) returns `B1` and its only event is the lookup. -/
theorem C3_end_to_end (env env2 : Env) (col : Collaborators) (cx cx2 : CallContext)
    (version_static hip_version : Int) (kernel_name gpu_arch kernel_src : String)
    (generate_src generate_src2 : String → Except String String)
    (compile_inprocess2 compile_subprocess2 : String → String → Except String Bytes)
    (B1 : Bytes)
    (hver : resolve_hip_version ⟨some cache_fresh, version_static⟩ col = some hip_version)
    (hr : reads_enabled env) (hw : writes_enabled env)
    (hmode : get_rtc_process_type env ≠ .FORCE_OUT_PROCESS)
    (hlock : cx.try_lock_owns = true)
    (hget : cx.get_user.get_binds_ok)
    (hgen : generate_src kernel_name = .ok kernel_src)
    (hcomp : col.compile_inprocess kernel_src gpu_arch = .ok B1) (hB1 : B1 ≠ [])
    (hstore : cx.store.faults.store_binds_ok ∧ cx.store.faults.step_fails = false)
    (hr2 : reads_enabled env2)
    (hget2 : cx2.get_user.get_binds_ok ∧ cx2.get_user.step_fails = false) :
    (cached_compile ⟨some cache_fresh, version_static⟩ env col cx kernel_name gpu_arch
        generate_src).result = .ok B1
    ∧ (cached_compile ⟨some cache_fresh, version_static⟩ env col cx kernel_name gpu_arch
        generate_src).trace
        = [.get_code_object ⟨kernel_name, gpu_arch, hip_version, col.generator_sum⟩,
            .generate_src kernel_name,
            if get_rtc_process_type env = .DEFAULT then .try_lock true else .lock,
            .compile_inprocess kernel_src gpu_arch, .unlock,
            .store_code_object ⟨kernel_name, gpu_arch, hip_version, col.generator_sum⟩ B1]
    ∧ ((cached_compile ⟨some cache_fresh, version_static⟩ env col cx kernel_name gpu_arch
          generate_src).state.single.bind (fun c => c.db_user)).map
          (fun conn => conn.cache_v1.lookup
            ⟨kernel_name, gpu_arch, hip_version, col.generator_sum⟩) = some (some B1)
    ∧ (cached_compile
        (cached_compile ⟨some cache_fresh, version_static⟩ env col cx kernel_name gpu_arch
          generate_src).state
        env2 ⟨col.hipRuntimeGetVersion, col.generator_sum, compile_inprocess2,
          compile_subprocess2⟩ cx2 kernel_name gpu_arch generate_src2).result = .ok B1
    ∧ (cached_compile
        (cached_compile ⟨some cache_fresh, version_static⟩ env col cx kernel_name gpu_arch
          generate_src).state
        env2 ⟨col.hipRuntimeGetVersion, col.generator_sum, compile_inprocess2,
          compile_subprocess2⟩ cx2 kernel_name gpu_arch generate_src2).trace
        = [.get_code_object ⟨kernel_name, gpu_arch, hip_version, col.generator_sum⟩] := by
  have hmiss : cache_fresh.get_code_object env cx.get_user cx.get_sys kernel_name gpu_arch
      hip_version col.generator_sum = .ok [] := by
    obtain ⟨h1, h2, h3, h4⟩ := hget
    unfold reads_enabled at hr
    simp only [RTCCache.get_code_object, cache_fresh, get_code_object_impl, hr, h1, h2, h3, h4,
      step_get, bind, Except.bind, pure, Except.pure]
    cases cx.get_user.step_fails <;> simp [SQLITE_ERROR, SQLITE_ROW, SQLITE_DONE]
  have hsw : compile_switch (get_rtc_process_type env) col cx.try_lock_owns kernel_src gpu_arch
      = ([if get_rtc_process_type env = .DEFAULT then .try_lock true else .lock,
          .compile_inprocess kernel_src gpu_arch, .unlock], .ok B1) := by
    cases hm : get_rtc_process_type env with
    | FORCE_OUT_PROCESS => exact absurd hm hmode
    | FORCE_IN_PROCESS => simp [compile_switch, compile_force_in_process, hcomp]
    | DEFAULT => simp [compile_switch, hlock, hcomp]
  have hfirst := cached_compile_miss_ok ⟨some cache_fresh, version_static⟩ env col cx
    kernel_name gpu_arch generate_src cache_fresh hip_version kernel_src B1 rfl hver hmiss hgen
    (by rw [hsw])
  have hins : cx.store.inserts env B1 := ⟨hw, hstore.1, hstore.2, fun h => hB1 h.1⟩
  obtain ⟨conn2, e2, _, l2⟩ := RTCCache.store_spec cache_fresh env cx.store
    ⟨kernel_name, gpu_arch, hip_version, col.generator_sum⟩ B1 ⟨[], Option.none⟩ rfl
  have e2b : (cache_fresh.store_code_object env cx.store kernel_name gpu_arch hip_version
      col.generator_sum B1).1 = ⟨cache_fresh.db_sys, some conn2⟩ := e2
  have hres : (cache_fresh.store_code_object env cx.store kernel_name gpu_arch hip_version
      col.generator_sum B1).2 = .ok () := by
    obtain ⟨⟨h1, h2, h3, h4⟩, h5⟩ := hstore.1
    have h5z : cx.store.faults.bind_rc 5 = 0 := h5
    unfold writes_enabled at hw
    simp [RTCCache.store_code_object, cache_fresh, hw, h1, h2, h3, h4, h5z]
  have hl : conn2.cache_v1.lookup ⟨kernel_name, gpu_arch, hip_version, col.generator_sum⟩
      = some B1 := by
    rw [l2, if_pos ⟨hins, rfl⟩]
  have hver2 : resolve_hip_version ⟨some ⟨cache_fresh.db_sys, some conn2⟩, hip_version⟩
      ⟨col.hipRuntimeGetVersion, col.generator_sum, compile_inprocess2, compile_subprocess2⟩
      = some hip_version := by
    unfold resolve_hip_version at hver ⊢
    by_cases hz : hip_version = 0
    · simp only [hz, if_true]
      by_cases h0 : version_static = 0
      · simpa [h0, hz] using hver
      · simp only [h0, if_false, Option.some.injEq] at hver
        exact absurd (hver.trans hz) h0
    · simp [hz]
  have hhit2 : RTCCache.get_code_object ⟨cache_fresh.db_sys, some conn2⟩ env2 cx2.get_user
      cx2.get_sys kernel_name gpu_arch hip_version col.generator_sum = .ok B1 :=
    RTCCache.get_user_hit ⟨cache_fresh.db_sys, some conn2⟩ env2 cx2.get_user cx2.get_sys
      ⟨kernel_name, gpu_arch, hip_version, col.generator_sum⟩ conn2 B1 rfl hr2 hget2 hl hB1
  rw [hfirst, hsw, e2b, hres]
  refine ⟨rfl, rfl, ?_, ?_⟩
  · simp [hl]
  · rw [cached_compile_hit _ env2 ⟨col.hipRuntimeGetVersion, col.generator_sum,
      compile_inprocess2, compile_subprocess2⟩ cx2 kernel_name gpu_arch generate_src2
      ⟨cache_fresh.db_sys, some conn2⟩ hip_version B1 rfl hver2 hhit2 hB1]
    exact ⟨rfl, rfl⟩

/-- C3 (witness): the scenario of the specification with key `key_a`, default mode, an
in-process compiler that returns the bytes 1, 2, and a second call whose generator and
compilers throw when called. -/
theorem C3_end_to_end_witness :
    (cached_compile state_fresh Env.unset sample_collaborators CallContext.clean "kernel_a"
        "gfx900" sample_generate_src).result = .ok [1, 2]
    ∧ (cached_compile
        (cached_compile state_fresh Env.unset sample_collaborators CallContext.clean "kernel_a"
          "gfx900" sample_generate_src).state
        Env.unset ⟨sample_collaborators.hipRuntimeGetVersion, sample_collaborators.generator_sum,
          fun _ _ => .error "called", fun _ _ => .error "called"⟩ CallContext.clean "kernel_a"
        "gfx900" (fun _ => .error "called")).result = .ok [1, 2] :=
  have h := C3_end_to_end Env.unset Env.unset sample_collaborators CallContext.clean
    CallContext.clean 0 50000000 "kernel_a" "gfx900" "src" sample_generate_src
    (fun _ => .error "called") (fun _ _ => .error "called") (fun _ _ => .error "called") [1, 2]
    rfl rfl rfl (by decide) rfl ⟨rfl, rfl, rfl, rfl⟩ rfl rfl (by decide)
    ⟨⟨⟨rfl, rfl, rfl, rfl⟩, rfl⟩, rfl⟩ rfl ⟨⟨rfl, rfl, rfl, rfl⟩, rfl⟩
  ⟨h.1, h.2.2.2.1⟩

/-- C4 (counterexample). Store `A` holds the empty byte sequence under `key_a`. Its snapshot
is merged with success into the empty user store of a cache whose system store holds the
byte 7 under `key_a`: `get_code_object` on that cache returns 7, not the bytes `A` holds. -/
theorem C4_counterexample :
    cache_empty_entry.db_user.map (fun conn => conn.cache_v1.lookup key_a) = some (some [])
    ∧ cache_empty_entry.serialize false
        = (.rocfft_status_success, some (some [Row.of key_a [] 0]))
    ∧ cache_sys_only.db_user.map (fun conn => conn.cache_v1) = some []
    ∧ (cache_sys_only.deserialize DeserializeFaults.none (some [Row.of key_a [] 0])).2
        = .rocfft_status_success
    ∧ (cache_sys_only.deserialize DeserializeFaults.none (some [Row.of key_a [] 0])).1.get
        Env.unset StmtFaults.none StmtFaults.none key_a = .ok [7]
    ∧ (cache_sys_only.deserialize DeserializeFaults.none (some [Row.of key_a [] 0])).1.get
        Env.unset StmtFaults.none StmtFaults.none key_a ≠ .ok [] := by
  refine ⟨by decide, by decide, by decide, by decide, by decide, by decide⟩

/-- C4 (amended). Snapshot round-trip: for every user store `A` (its table obeying the
primary key) and every cache `B` whose user store is empty, `A.serialize()` succeeds, and
deserializing its buffer into `B` succeeds (SQLite reporting no fault of its own); afterwards
the user store of `B` holds under every key exactly what `A` holds, and `get_code_object` on
`B` (reads enabled, user query fault-free) returns, for every key under which `A` holds
non-empty bytes, those bytes. -/
theorem C4_snapshot_round_trip (A B : RTCCache) (connA : Connection)
    (d : Option (Option Table)) (hA : A.db_user = some connA)
    (hpk : connA.cache_v1.primary_key_ok) (hB : B.db_user = some ⟨[], d⟩) :
    ∃ (buffer : Snapshot) (connB : Connection),
      A.serialize false = (.rocfft_status_success, some buffer)
      ∧ B.deserialize DeserializeFaults.none buffer
          = (⟨B.db_sys, some connB⟩, .rocfft_status_success)
      ∧ (∀ k, connB.cache_v1.lookup k = connA.cache_v1.lookup k)
      ∧ ∀ (k : CacheKey) (b : Bytes), connA.cache_v1.lookup k = some b → b ≠ [] →
          ∀ (env : Env) (fu fs : StmtFaults), reads_enabled env →
            fu.get_binds_ok ∧ fu.step_fails = false →
            RTCCache.get_code_object ⟨B.db_sys, some connB⟩ env fu fs
              k.kernel_name k.arch k.hip_version k.generator_sum = .ok b := by
  have hok := RTCCache.deserialize_clean B ⟨[], d⟩ connA.cache_v1 hB
  have hst := RTCCache.deserialize_success B DeserializeFaults.none ⟨[], d⟩ connA.cache_v1 hB hok
  have hl : ∀ k, (Table.insert_or_replace_all [] connA.cache_v1).lookup k
      = connA.cache_v1.lookup k := by
    intro k
    rw [Table.lookup_insert_or_replace_all connA.cache_v1 hpk]
    cases connA.cache_v1.lookup k <;> rfl
  refine ⟨some connA.cache_v1, ⟨Table.insert_or_replace_all [] connA.cache_v1, Option.none⟩,
    ?_, ?_, hl, ?_⟩
  · simp [RTCCache.serialize, hA]
  · exact Prod.ext hst hok
  · intro k b hb hne env fu fs hr hfu
    exact RTCCache.get_user_hit _ env fu fs k _ b rfl hr hfu ((hl k).trans hb) hne

/-- C4 (witness): the user store of `cache_both`, which holds the bytes 1, 2 under `key_a`, is
snapshotted and merged into the empty user store of `cache_sys_only`, whose system store
holds 7 under `key_a`: the lookup of `key_a` there returns 1, 2. -/
theorem C4_snapshot_round_trip_witness :
    cache_both.serialize false = (.rocfft_status_success, some (some [Row.of key_a [1, 2] 0]))
    ∧ (cache_sys_only.deserialize DeserializeFaults.none (some [Row.of key_a [1, 2] 0])).1.get
        Env.unset StmtFaults.none StmtFaults.none key_a = .ok [1, 2] := by
  obtain ⟨buffer, connB, hser, hdes, _, hget⟩ := C4_snapshot_round_trip cache_both
    cache_sys_only ⟨[Row.of key_a [1, 2] 0], Option.none⟩ Option.none rfl (by decide) rfl
  have hb : buffer = some [Row.of key_a [1, 2] 0] := by
    have h : cache_both.serialize false
        = (.rocfft_status_success, some (some [Row.of key_a [1, 2] 0])) := rfl
    rw [h] at hser
    injection hser with _ h2
    injection h2 with h3
    exact h3.symm
  subst hb
  refine ⟨rfl, ?_⟩
  rw [hdes]
  exact hget key_a [1, 2] (by decide) (by decide) Env.unset StmtFaults.none StmtFaults.none rfl
    ⟨⟨rfl, rfl, rfl, rfl⟩, rfl⟩

/-- C5. Merge is an upsert with a frame: for every cache with an open user store `S` and
every snapshot `P` that holds a `cache_v1` table with distinct primary keys, when
`deserialize(P)` reports success the user store maps every key of `P` to the bytes `P` holds
for it, maps every key that is not in `P` to what `S` held for it (so keys of `S` outside `P`
keep their bytes and no other key appears), and the system store is the same. -/
theorem C5_merge_upsert_frame (c : RTCCache) (f : DeserializeFaults) (conn : Connection)
    (rows : Table) (hc : c.db_user = some conn) (hpk : rows.primary_key_ok)
    (hok : (c.deserialize f (some rows)).2 = .rocfft_status_success) :
    ∃ conn2 : Connection,
      (c.deserialize f (some rows)).1 = ⟨c.db_sys, some conn2⟩
      ∧ (∀ k b, rows.lookup k = some b → conn2.cache_v1.lookup k = some b)
      ∧ (∀ k, rows.lookup k = Option.none →
          conn2.cache_v1.lookup k = conn.cache_v1.lookup k) := by
  refine ⟨⟨conn.cache_v1.insert_or_replace_all rows, Option.none⟩,
    RTCCache.deserialize_success c f conn rows hc hok, ?_, ?_⟩
  · intro k b hb
    rw [Table.lookup_insert_or_replace_all rows hpk, hb]
  · intro k hb
    rw [Table.lookup_insert_or_replace_all rows hpk, hb]

/-- C5 (witness): a snapshot that holds the byte 9 under `key_b` is merged into the user store
of `cache_both`, which holds the bytes 1, 2 under `key_a`: afterwards `key_b` maps to 9 and
`key_a` still maps to 1, 2. -/
theorem C5_merge_upsert_frame_witness :
    ((cache_both.deserialize DeserializeFaults.none (some [Row.of key_b [9] 5])).1.db_user.map
        (fun conn => conn.cache_v1.lookup key_b)) = some (some [9])
    ∧ ((cache_both.deserialize DeserializeFaults.none (some [Row.of key_b [9] 5])).1.db_user.map
        (fun conn => conn.cache_v1.lookup key_a)) = some (some [1, 2]) := by
  obtain ⟨conn2, e, h1, h2⟩ := C5_merge_upsert_frame cache_both DeserializeFaults.none
    ⟨[Row.of key_a [1, 2] 0], Option.none⟩ [Row.of key_b [9] 5] rfl (by decide) (by decide)
  rw [e]
  exact ⟨congrArg some (h1 key_b [9] (by decide)),
    congrArg some ((h2 key_a (by decide)).trans (by decide))⟩

/-- C6. Read-disabled switch: when `ROCFFT_RTC_CACHE_READ_DISABLE` is set to a non-empty
value, `get_code_object` returns the empty byte sequence for every key, every content of the
two tiers and every behaviour of SQLite. -/
theorem C6_read_disabled (c : RTCCache) (env : Env) (fu fs : StmtFaults)
    (kernel_name gpu_arch : String) (hip_version : Int) (generator_sum : GeneratorSum)
    (h : rocfft_getenv env "ROCFFT_RTC_CACHE_READ_DISABLE" ≠ "") :
    c.get_code_object env fu fs kernel_name gpu_arch hip_version generator_sum = .ok [] := by
  have impl : ∀ (f : StmtFaults) (t : Table),
      get_code_object_impl env f kernel_name gpu_arch hip_version generator_sum t = .ok [] := by
    intro f t; simp [get_code_object_impl, h]
  unfold RTCCache.get_code_object
  cases c.db_user <;> cases c.db_sys <;> simp [impl, bind, Except.bind, pure, Except.pure]

/-- C6 (witness): with reads disabled the lookup of `key_a` misses although both tiers of
`cache_both` hold an entry for it. -/
theorem C6_read_disabled_witness :
    cache_both.get_code_object env_read_disabled StmtFaults.none StmtFaults.none
      key_a.kernel_name key_a.arch key_a.hip_version key_a.generator_sum = .ok [] :=
  C6_read_disabled cache_both env_read_disabled StmtFaults.none StmtFaults.none
    key_a.kernel_name key_a.arch key_a.hip_version key_a.generator_sum (by decide)

/-- C7. Write-disabled switch: when `ROCFFT_RTC_CACHE_WRITE_DISABLE` is set to a non-empty
value, `store_code_object` returns normally and leaves the cache object, user store and
system store, exactly as it was; so every lookup gives afterwards what it gave before, and a
key that missed still misses. -/
theorem C7_write_disabled (c : RTCCache) (env : Env) (s : StoreCall)
    (kernel_name gpu_arch : String) (hip_version : Int) (generator_sum : GeneratorSum)
    (code : Bytes) (h : rocfft_getenv env "ROCFFT_RTC_CACHE_WRITE_DISABLE" ≠ "") :
    c.store_code_object env s kernel_name gpu_arch hip_version generator_sum code = (c, .ok ())
    ∧ ∀ (env2 : Env) (fu fs : StmtFaults) (k : CacheKey),
        c.get env2 fu fs k = .ok [] →
        (c.store_code_object env s kernel_name gpu_arch hip_version generator_sum code).1.get
          env2 fu fs k = .ok [] := by
  have e : c.store_code_object env s kernel_name gpu_arch hip_version generator_sum code
      = (c, .ok ()) := by
    simp [RTCCache.store_code_object, h]
  refine ⟨e, ?_⟩
  intro env2 fu fs k hk
  rw [e]; exact hk

/-- C7 (witness): with writes disabled, storing the bytes 1, 2 under `key_a` into the fresh
cache returns normally and changes nothing. -/
theorem C7_write_disabled_witness :
    cache_fresh.store_code_object env_write_disabled (StoreCall.clean 0)
        key_a.kernel_name key_a.arch key_a.hip_version key_a.generator_sum [1, 2]
      = (cache_fresh, .ok ()) :=
  (C7_write_disabled cache_fresh env_write_disabled (StoreCall.clean 0)
    key_a.kernel_name key_a.arch key_a.hip_version key_a.generator_sum [1, 2] (by decide)).1

/-- C8. Idempotence of store: for every cache state, key and byte sequence, and however the
store call meets SQLite, a second `store_code_object` of the same key and bytes (made under
the same conditions, at a later time `now2`) leaves the cache in the same observable state as
the first one alone: every `get_code_object` gives the same result after two stores as after
one. -/
theorem C8_store_idempotent (c : RTCCache) (env : Env) (s : StoreCall) (now2 : Int)
    (k : CacheKey) (code : Bytes) (env2 : Env) (fu fs : StmtFaults) (k2 : CacheKey) :
    ((c.store env s k code).1.store env { s with now := now2 } k code).1.get env2 fu fs k2
      = (c.store env s k code).1.get env2 fu fs k2 := by
  cases hc : c.db_user with
  | none =>
    have h1 := RTCCache.store_closed c env s k code hc
    rw [h1, RTCCache.store_closed c env { s with now := now2 } k code hc]
  | some conn =>
    obtain ⟨conn1, e1, _, l1⟩ := RTCCache.store_spec c env s k code conn hc
    rw [e1]
    obtain ⟨conn2, e2, _, l2⟩ := RTCCache.store_spec ⟨c.db_sys, some conn1⟩ env
      { s with now := now2 } k code conn1 rfl
    rw [e2]
    apply RTCCache.get_congr
    · rfl
    · have hi : StoreCall.inserts { s with now := now2 } env code ↔ s.inserts env code :=
        Iff.rfl
      simp only [Option.map_some', Option.some.injEq]
      rw [l2 k2, l1 k2]
      by_cases h : s.inserts env code ∧ k2 = k
      · have h2 : StoreCall.inserts { s with now := now2 } env code ∧ k2 = k := ⟨hi.2 h.1, h.2⟩
        rw [if_pos h, if_pos h2]
      · have h2 : ¬ (StoreCall.inserts { s with now := now2 } env code ∧ k2 = k) :=
          fun x => h ⟨hi.1 x.1, x.2⟩
        rw [if_neg h, if_neg h2]

/-- C9 (counterexample). The system store holds the byte 7 under `key_a`. Storing the byte 1
and then the empty byte sequence (an empty vector whose `data()` is not null, so that a
zero-length blob is bound) under `key_a`, both writes succeeding, leaves the empty sequence
in the user store, and `get_code_object` returns the system bytes instead of it. -/
theorem C9_counterexample :
    reads_enabled Env.unset
    ∧ (StoreCall.clean 0).inserts Env.unset [1] ∧ (StoreCall.clean 1).inserts Env.unset []
    ∧ (((cache_sys_only.store Env.unset (StoreCall.clean 0) key_a [1]).1.store Env.unset
          (StoreCall.clean 1) key_a []).1.db_user.map (fun conn => conn.cache_v1.lookup key_a)
        = some (some []))
    ∧ ((cache_sys_only.store Env.unset (StoreCall.clean 0) key_a [1]).1.store Env.unset
          (StoreCall.clean 1) key_a []).1.get Env.unset StmtFaults.none StmtFaults.none key_a
        = .ok [7]
    ∧ ((cache_sys_only.store Env.unset (StoreCall.clean 0) key_a [1]).1.store Env.unset
          (StoreCall.clean 1) key_a []).1.get Env.unset StmtFaults.none StmtFaults.none key_a
        ≠ .ok [] := by
  refine ⟨rfl, by decide, by decide, by decide, by decide, by decide⟩

/-- C9 (amended). Insert-or-replace: for every cache with an open user store, key `K` and
byte sequences `B1`, `B2` with `B2` not empty, after `store_code_object(K, B1)` followed by a
`store_code_object(K, B2)` that writes its row (writes enabled, binds and step succeeding),
a fault-free `get_code_object(K)` with reads enabled returns `B2`; and for every other key,
every environment and every behaviour of SQLite, `get_code_object` returns what it returned
before the two stores. -/
theorem C9_insert_or_replace (c : RTCCache) (env : Env) (s1 s2 : StoreCall) (k : CacheKey)
    (B1 B2 : Bytes) (conn : Connection) (fu fs : StmtFaults)
    (hc : c.db_user = some conn) (hw : s2.inserts env B2) (hr : reads_enabled env)
    (hfu : fu.get_binds_ok ∧ fu.step_fails = false) (hB2 : B2 ≠ []) :
    ((c.store env s1 k B1).1.store env s2 k B2).1.get env fu fs k = .ok B2
    ∧ ∀ (env2 : Env) (fu2 fs2 : StmtFaults) (k2 : CacheKey), k2 ≠ k →
      ((c.store env s1 k B1).1.store env s2 k B2).1.get env2 fu2 fs2 k2
        = c.get env2 fu2 fs2 k2 := by
  obtain ⟨conn1, e1, _, l1⟩ := RTCCache.store_spec c env s1 k B1 conn hc
  rw [e1]
  obtain ⟨conn2, e2, _, l2⟩ := RTCCache.store_spec ⟨c.db_sys, some conn1⟩ env s2 k B2 conn1 rfl
  rw [e2]
  constructor
  · apply RTCCache.get_user_hit _ env fu fs k conn2 B2 rfl hr hfu _ hB2
    rw [l2 k, if_pos ⟨hw, rfl⟩]
  · intro env2 fu2 fs2 k2 hk
    apply RTCCache.get_congr
    · rfl
    · simp only [Option.map_some', hc, Option.some.injEq]
      rw [l2 k2, l1 k2, if_neg (fun h => hk h.2), if_neg (fun h => hk h.2)]

/-- C9 (witness): the byte 1 and then the bytes 3, 4 are stored under `key_a` in a cache
whose system store holds 7 under that key; the lookup returns 3, 4. -/
theorem C9_insert_or_replace_witness :
    ((cache_sys_only.store Env.unset (StoreCall.clean 0) key_a [1]).1.store Env.unset
        (StoreCall.clean 1) key_a [3, 4]).1.get Env.unset StmtFaults.none StmtFaults.none key_a
      = .ok [3, 4] :=
  (C9_insert_or_replace cache_sys_only Env.unset (StoreCall.clean 0) (StoreCall.clean 1) key_a
    [1] [3, 4] ⟨[], Option.none⟩ StmtFaults.none StmtFaults.none rfl (by decide) rfl
    ⟨⟨rfl, rfl, rfl, rfl⟩, rfl⟩ (by decide)).1

/-- C10. Cache hit is terminal: when a cache is configured and `get_code_object` returns
non-empty bytes `B` for the key of the request (kernel name, architecture, the runtime
version the call uses, generator checksum), `cached_compile` returns exactly `B`; its only
event is the lookup, so it calls neither the generator nor a compiler nor
`store_code_object`, and the cache is left as it was. -/
theorem C10_cache_hit_terminal (st : ProcessState) (env : Env) (col : Collaborators)
    (cx : CallContext) (kernel_name gpu_arch : String)
    (generate_src : String → Except String String) (c : RTCCache) (hip_version : Int)
    (B : Bytes) (hs : st.single = some c) (hv : resolve_hip_version st col = some hip_version)
    (hhit : c.get_code_object env cx.get_user cx.get_sys kernel_name gpu_arch hip_version
      col.generator_sum = .ok B)
    (hB : B ≠ []) :
    (cached_compile st env col cx kernel_name gpu_arch generate_src).result = .ok B
    ∧ (cached_compile st env col cx kernel_name gpu_arch generate_src).trace
        = [.get_code_object ⟨kernel_name, gpu_arch, hip_version, col.generator_sum⟩]
    ∧ (∀ src arch, Event.compile_inprocess src arch
        ∉ (cached_compile st env col cx kernel_name gpu_arch generate_src).trace)
    ∧ (∀ src arch, Event.compile_subprocess src arch
        ∉ (cached_compile st env col cx kernel_name gpu_arch generate_src).trace)
    ∧ (∀ k code, Event.store_code_object k code
        ∉ (cached_compile st env col cx kernel_name gpu_arch generate_src).trace)
    ∧ (cached_compile st env col cx kernel_name gpu_arch generate_src).state.single
        = st.single := by
  rw [cached_compile_hit st env col cx kernel_name gpu_arch generate_src c hip_version B hs hv
    hhit hB]
  simp

/-- C10 (witness): the user store of `cache_both` holds the bytes 1, 2 under `key_a`; the
request returns them without compiling, in out-of-process mode as well. -/
theorem C10_cache_hit_terminal_witness :
    (cached_compile ⟨some cache_both, 0⟩ env_force_out sample_collaborators CallContext.clean
        "kernel_a" "gfx900" sample_generate_src).result = .ok [1, 2] :=
  (C10_cache_hit_terminal ⟨some cache_both, 0⟩ env_force_out sample_collaborators
    CallContext.clean "kernel_a" "gfx900" sample_generate_src cache_both 50000000 [1, 2]
    rfl rfl (by decide) (by decide)).1

/-- C11. `DEFAULT`-mode arbitration: on a cache miss in `DEFAULT` mode (the source having
been generated), `cached_compile` calls the in-process compiler and starts no subprocess
exactly when the non-blocking acquisition of the compile mutex succeeds. When the mutex is
held it calls `compile_subprocess` on the generated source, and if that succeeds it never
calls the in-process compiler and, the store returning normally, returns the subprocess
bytes. -/
theorem C11_default_arbitration (st : ProcessState) (env : Env) (col : Collaborators)
    (cx : CallContext) (kernel_name gpu_arch : String)
    (generate_src : String → Except String String) (hip_version : Int) (kernel_src : String)
    (hv : resolve_hip_version st col = some hip_version)
    (hmiss : lookup_misses st env col cx kernel_name gpu_arch hip_version)
    (hgen : generate_src kernel_name = .ok kernel_src)
    (hmode : get_rtc_process_type env = .DEFAULT) :
    ((Event.compile_inprocess kernel_src gpu_arch
          ∈ (cached_compile st env col cx kernel_name gpu_arch generate_src).trace
        ∧ ∀ src arch, Event.compile_subprocess src arch
          ∉ (cached_compile st env col cx kernel_name gpu_arch generate_src).trace)
      ↔ cx.try_lock_owns = true)
    ∧ (cx.try_lock_owns = false →
        Event.compile_subprocess kernel_src gpu_arch
          ∈ (cached_compile st env col cx kernel_name gpu_arch generate_src).trace
        ∧ ∀ b, col.compile_subprocess kernel_src gpu_arch = .ok b →
            (∀ src arch, Event.compile_inprocess src arch
              ∉ (cached_compile st env col cx kernel_name gpu_arch generate_src).trace)
            ∧ (store_returns st env col cx kernel_name gpu_arch hip_version b →
                (cached_compile st env col cx kernel_name gpu_arch generate_src).result
                  = .ok b)) := by
  obtain ⟨post, htr, hpost, _⟩ := cached_compile_miss_trace st env col cx kernel_name gpu_arch
    generate_src hip_version kernel_src hv hmiss hgen
  have hres := cached_compile_miss_result st env col cx kernel_name gpu_arch generate_src
    hip_version kernel_src hv hmiss hgen
  have hlook : ∀ ev ∈ lookup_events st (request_key col kernel_name gpu_arch hip_version),
      ev = Event.get_code_object (request_key col kernel_name gpu_arch hip_version) :=
    fun ev hev => lookup_events_mem st _ ev hev
  have hpost_in : ∀ src arch, Event.compile_inprocess src arch ∉ post := by
    intro src arch h
    obtain ⟨k, code, hk⟩ := hpost _ h
    cases hk
  have hpost_sub : ∀ src arch, Event.compile_subprocess src arch ∉ post := by
    intro src arch h
    obtain ⟨k, code, hk⟩ := hpost _ h
    cases hk
  have hlook_in : ∀ src arch, Event.compile_inprocess src arch
      ∉ lookup_events st (request_key col kernel_name gpu_arch hip_version) := by
    intro src arch h
    cases hlook _ h
  have hlook_sub : ∀ src arch, Event.compile_subprocess src arch
      ∉ lookup_events st (request_key col kernel_name gpu_arch hip_version) := by
    intro src arch h
    cases hlook _ h
  rw [htr, hmode]
  rw [hmode] at hres
  cases howns : cx.try_lock_owns with
  | true =>
    rw [compile_switch_default_owns]
    refine ⟨⟨fun _ => rfl, fun _ => ⟨by simp, ?_⟩⟩, fun h => by cases h⟩
    intro src arch h
    simp only [List.mem_append, List.mem_cons, List.mem_singleton, List.not_mem_nil,
      or_false] at h
    rcases h with ((h | h) | h) | h
    · exact hlook_sub _ _ h
    · cases h
    · rcases h with h | h | h <;> cases h
    · exact hpost_sub _ _ h
  | false =>
    rw [howns] at hres
    cases hsub : col.compile_subprocess kernel_src gpu_arch with
    | ok b =>
      rw [compile_switch_default_sub_ok col kernel_src gpu_arch b hsub] at hres ⊢
      refine ⟨⟨fun h => ?_, fun h => by cases h⟩, fun _ => ⟨by simp, ?_⟩⟩
      · exact absurd (by simp) (h.2 kernel_src gpu_arch)
      · intro b2 hb2
        cases hb2
        refine ⟨?_, fun hst => hres.2 b rfl hst⟩
        intro src arch h
        simp only [List.mem_append, List.mem_cons, List.mem_singleton, List.not_mem_nil,
          or_false] at h
        rcases h with ((h | h) | h) | h
        · exact hlook_in _ _ h
        · cases h
        · rcases h with h | h <;> cases h
        · exact hpost_in _ _ h
    | error e =>
      rw [compile_switch_default_sub_error col kernel_src gpu_arch e hsub]
      refine ⟨⟨fun h => ?_, fun h => by cases h⟩, fun _ => ⟨by simp, ?_⟩⟩
      · exact absurd (by simp) (h.2 kernel_src gpu_arch)
      · intro b2 hb2
        cases hb2

/-- C11 (witness): a request in `DEFAULT` mode while another thread holds the mutex goes to
the subprocess compiler, which returns the bytes 3, 4. -/
theorem C11_default_arbitration_witness :
    Event.compile_subprocess "src" "gfx900"
      ∈ (cached_compile state_fresh Env.unset sample_collaborators CallContext.lock_held
          "kernel_a" "gfx900" sample_generate_src).trace
    ∧ (cached_compile state_fresh Env.unset sample_collaborators CallContext.lock_held
          "kernel_a" "gfx900" sample_generate_src).result = .ok [3, 4] :=
  have h := (C11_default_arbitration state_fresh Env.unset sample_collaborators
    CallContext.lock_held "kernel_a" "gfx900" sample_generate_src 50000000 "src" rfl
    (by intro c hc; cases hc; decide) rfl (by decide)).2 rfl
  ⟨h.1, (h.2 [3, 4] rfl).2 (by intro c hc; cases hc; decide)⟩

/-- C12. Subprocess failure falls back to in-process: after a cache miss (the source having
been generated), in `FORCE_OUT_PROCESS` mode and in `DEFAULT` mode with the mutex found held,
when `compile_subprocess` throws, `cached_compile` next acquires the compile mutex by a
blocking lock, calls the in-process compiler on the same source text and architecture and
releases the mutex; an exception of the in-process compiler is the outcome of the request,
and so are its bytes when the store returns normally. The subprocess exception plays no
part in the outcome. -/
theorem C12_subprocess_failure_fallback (st : ProcessState) (env : Env) (col : Collaborators)
    (cx : CallContext) (kernel_name gpu_arch : String)
    (generate_src : String → Except String String) (hip_version : Int) (kernel_src : String)
    (e : String)
    (hv : resolve_hip_version st col = some hip_version)
    (hmiss : lookup_misses st env col cx kernel_name gpu_arch hip_version)
    (hgen : generate_src kernel_name = .ok kernel_src)
    (hpath : get_rtc_process_type env = .FORCE_OUT_PROCESS
      ∨ (get_rtc_process_type env = .DEFAULT ∧ cx.try_lock_owns = false))
    (hsub : col.compile_subprocess kernel_src gpu_arch = .error e) :
    (∃ pre post,
        (cached_compile st env col cx kernel_name gpu_arch generate_src).trace
          = pre ++ [.compile_subprocess kernel_src gpu_arch, .lock,
              .compile_inprocess kernel_src gpu_arch, .unlock] ++ post
        ∧ ∀ ev ∈ post, ∃ k code, ev = Event.store_code_object k code)
    ∧ (∀ e2, col.compile_inprocess kernel_src gpu_arch = .error e2 →
        (cached_compile st env col cx kernel_name gpu_arch generate_src).result = .error e2)
    ∧ (∀ b, col.compile_inprocess kernel_src gpu_arch = .ok b →
        store_returns st env col cx kernel_name gpu_arch hip_version b →
        (cached_compile st env col cx kernel_name gpu_arch generate_src).result = .ok b) := by
  obtain ⟨post, htr, hpost, _⟩ := cached_compile_miss_trace st env col cx kernel_name gpu_arch
    generate_src hip_version kernel_src hv hmiss hgen
  have hres := cached_compile_miss_result st env col cx kernel_name gpu_arch generate_src
    hip_version kernel_src hv hmiss hgen
  rcases hpath with hm | ⟨hm, howns⟩
  · rw [hm] at htr hres
    rw [compile_switch_force_out_error col cx.try_lock_owns kernel_src gpu_arch e hsub]
      at htr hres
    refine ⟨⟨_, post, htr, hpost⟩, fun e2 he2 => (hres.1 e2 he2).1, fun b hb hst =>
      hres.2 b hb hst⟩
  · rw [hm, howns] at htr hres
    rw [compile_switch_default_sub_error col kernel_src gpu_arch e hsub] at htr hres
    refine ⟨⟨lookup_events st (request_key col kernel_name gpu_arch hip_version)
        ++ [.generate_src kernel_name] ++ [.try_lock false], post, ?_, hpost⟩,
      fun e2 he2 => (hres.1 e2 he2).1, fun b hb hst => hres.2 b hb hst⟩
    rw [htr]
    simp

/-- C12 (witness): in forced out-of-process mode the subprocess compiler throws and the
request returns the bytes 1, 2 of the in-process compiler. -/
theorem C12_subprocess_failure_fallback_witness :
    (cached_compile state_fresh env_force_out collaborators_sub_throws CallContext.clean
        "kernel_a" "gfx900" sample_generate_src).result = .ok [1, 2] :=
  (C12_subprocess_failure_fallback state_fresh env_force_out collaborators_sub_throws
    CallContext.clean "kernel_a" "gfx900" sample_generate_src 50000000 "src" "spawn failed"
    rfl (by intro c hc; cases hc; decide) rfl (Or.inl (by decide)) rfl).2.2 [1, 2] rfl
    (by intro c hc; cases hc; decide)

/-- C13. Compile-mode switch: `get_rtc_process_type` returns `FORCE_IN_PROCESS` exactly when
`ROCFFT_RTC_PROCESS` is the string `0`, `FORCE_OUT_PROCESS` exactly when it is the string
`1`, and `DEFAULT` for every other value. -/
theorem C13_compile_mode_switch (env : Env) :
    (get_rtc_process_type env = .FORCE_IN_PROCESS ↔ rocfft_getenv env "ROCFFT_RTC_PROCESS" = "0")
    ∧ (get_rtc_process_type env = .FORCE_OUT_PROCESS
        ↔ rocfft_getenv env "ROCFFT_RTC_PROCESS" = "1")
    ∧ (get_rtc_process_type env = .DEFAULT
        ↔ (rocfft_getenv env "ROCFFT_RTC_PROCESS" ≠ "0"
          ∧ rocfft_getenv env "ROCFFT_RTC_PROCESS" ≠ "1")) := by
  unfold get_rtc_process_type
  by_cases h0 : rocfft_getenv env "ROCFFT_RTC_PROCESS" = "0"
  · simp [h0]
  · by_cases h1 : rocfft_getenv env "ROCFFT_RTC_PROCESS" = "1"
    · simp [h1]
    · by_cases h2 : rocfft_getenv env "ROCFFT_RTC_PROCESS" = "2" <;> simp [h0, h1, h2]

/-- C13 (witness): the values named by the claim. Unset or empty, `2`, `00`, `01` and ` 1`
give `DEFAULT`; `0` and `1` give the two forced modes. -/
theorem C13_compile_mode_switch_witness :
    get_rtc_process_type (fun _ => "") = .DEFAULT
    ∧ get_rtc_process_type (fun _ => "2") = .DEFAULT
    ∧ get_rtc_process_type (fun _ => "00") = .DEFAULT
    ∧ get_rtc_process_type (fun _ => "01") = .DEFAULT
    ∧ get_rtc_process_type (fun _ => " 1") = .DEFAULT
    ∧ get_rtc_process_type (fun _ => "0") = .FORCE_IN_PROCESS
    ∧ get_rtc_process_type (fun _ => "1") = .FORCE_OUT_PROCESS :=
  ⟨(C13_compile_mode_switch (fun _ => "")).2.2.2 (by decide),
    (C13_compile_mode_switch (fun _ => "2")).2.2.2 (by decide),
    (C13_compile_mode_switch (fun _ => "00")).2.2.2 (by decide),
    (C13_compile_mode_switch (fun _ => "01")).2.2.2 (by decide),
    (C13_compile_mode_switch (fun _ => " 1")).2.2.2 (by decide),
    (C13_compile_mode_switch (fun _ => "0")).1.2 rfl,
    (C13_compile_mode_switch (fun _ => "1")).2.1.2 rfl⟩

/-- C14. In-process failure is terminal: in every compile mode and on every path, when
`cached_compile` calls the in-process compiler and that call throws, the exception is the
outcome of the request, the call is the last compile attempt (only the release of the
mutex follows it), `store_code_object` is not called and the cache is left as it was. -/
theorem C14_in_process_failure_terminal (st : ProcessState) (env : Env) (col : Collaborators)
    (cx : CallContext) (kernel_name gpu_arch : String)
    (generate_src : String → Except String String) (src arch e : String)
    (hcall : Event.compile_inprocess src arch
      ∈ (cached_compile st env col cx kernel_name gpu_arch generate_src).trace)
    (hthrow : col.compile_inprocess src arch = .error e) :
    (cached_compile st env col cx kernel_name gpu_arch generate_src).result = .error e
    ∧ (∃ pre, (cached_compile st env col cx kernel_name gpu_arch generate_src).trace
          = pre ++ [.compile_inprocess src arch, .unlock]
        ∧ ∀ s a, Event.compile_inprocess s a ∉ pre)
    ∧ (∀ k code, Event.store_code_object k code
        ∉ (cached_compile st env col cx kernel_name gpu_arch generate_src).trace)
    ∧ (cached_compile st env col cx kernel_name gpu_arch generate_src).state.single
        = st.single := by
  obtain ⟨hip_version, kernel_src, hv, hmiss, hgen⟩ := cached_compile_past_generate st env col
    cx kernel_name gpu_arch generate_src _ hcall (fun k h => by cases h) (fun n h => by cases h)
  obtain ⟨post, htr, hpost, hpost_nil⟩ := cached_compile_miss_trace st env col cx kernel_name
    gpu_arch generate_src hip_version kernel_src hv hmiss hgen
  have hres := cached_compile_miss_result st env col cx kernel_name gpu_arch generate_src
    hip_version kernel_src hv hmiss hgen
  have hsw : Event.compile_inprocess src arch
      ∈ (compile_switch (get_rtc_process_type env) col cx.try_lock_owns kernel_src
        gpu_arch).1 := by
    rw [htr] at hcall
    simp only [List.mem_append, List.mem_singleton] at hcall
    rcases hcall with ((h | h) | h) | h
    · cases lookup_events_mem st _ _ h
    · cases h
    · exact h
    · obtain ⟨k, code, hk⟩ := hpost _ h
      cases hk
  obtain ⟨hsrc, harch, hout, pre, hpre, hpre_in⟩ := compile_switch_inprocess_event _ col _
    kernel_src gpu_arch src arch hsw
  subst hsrc
  subst harch
  have herr : (compile_switch (get_rtc_process_type env) col cx.try_lock_owns src arch).2
      = .error e := hout.trans hthrow
  have hnil : post = [] := hpost_nil ⟨e, herr⟩
  subst hnil
  rw [htr, hpre]
  refine ⟨(hres.1 e herr).1, ⟨lookup_events st (request_key col kernel_name arch hip_version)
      ++ [.generate_src kernel_name] ++ pre, by simp, ?_⟩, ?_, (hres.1 e herr).2⟩
  · intro s a h
    simp only [List.mem_append, List.mem_singleton] at h
    rcases h with (h | h) | h
    · cases lookup_events_mem st _ _ h
    · cases h
    · exact hpre_in s a h
  · intro k code h
    simp only [List.mem_append, List.mem_singleton, List.mem_cons, List.not_mem_nil,
      or_false, or_assoc] at h
    rcases h with h | h | h | h | h
    · cases lookup_events_mem st _ _ h
    · cases h
    · have hmem : Event.store_code_object k code
          ∈ (compile_switch (get_rtc_process_type env) col cx.try_lock_owns src arch).1 := by
        rw [hpre]; simp [h]
      exact compile_switch_no_store _ col _ src arch k code hmem
    · cases h
    · cases h

/-- C14 (witness): in `DEFAULT` mode with the mutex free the in-process compiler throws; the
request fails with that exception and the cache stays as it was. -/
theorem C14_in_process_failure_terminal_witness :
    (cached_compile state_fresh Env.unset collaborators_in_throws CallContext.clean
        "kernel_a" "gfx900" sample_generate_src).result = .error "compile error"
    ∧ (cached_compile state_fresh Env.unset collaborators_in_throws CallContext.clean
        "kernel_a" "gfx900" sample_generate_src).state.single = state_fresh.single :=
  have h := C14_in_process_failure_terminal state_fresh Env.unset collaborators_in_throws
    CallContext.clean "kernel_a" "gfx900" sample_generate_src "src" "gfx900" "compile error"
    (by decide) rfl
  ⟨h.1, h.2.2.2⟩

/-- C15 (counterexample). The in-process compiler returns the bytes 1, 2, and the first bind
of the store statement fails: `store_code_object` throws, and `cached_compile` ends with
that exception instead of returning the compiled bytes. -/
theorem C15_counterexample :
    (cache_fresh.store_code_object Env.unset CallContext.store_bind_fails.store "kernel_a"
        "gfx900" 50000000 sum_zero [1, 2]).2 = .error "store_code_object bind: "
    ∧ Event.compile_inprocess "src" "gfx900"
        ∈ (cached_compile state_fresh Env.unset sample_collaborators
            CallContext.store_bind_fails "kernel_a" "gfx900" sample_generate_src).trace
    ∧ sample_collaborators.compile_inprocess "src" "gfx900" = .ok [1, 2]
    ∧ (cached_compile state_fresh Env.unset sample_collaborators CallContext.store_bind_fails
        "kernel_a" "gfx900" sample_generate_src).result = .error "store_code_object bind: "
    ∧ (cached_compile state_fresh Env.unset sample_collaborators CallContext.store_bind_fails
        "kernel_a" "gfx900" sample_generate_src).result ≠ .ok [1, 2] := by
  refine ⟨by decide, by decide, rfl, by decide, by decide⟩

/-- C15 (amended). Store failures at the statement step never propagate, failed binds do:
for a request that missed the cache and compiled bytes `code`, with a configured cache whose
user store is open, when the five binds of the store statement succeed then, whatever the
step does (success, failure, constraint violation), `store_code_object` returns normally and
`cached_compile` returns `code`; when a bind fails (writes enabled), `store_code_object`
throws its bind error and `cached_compile` ends with that exception. -/
theorem C15_store_failures (st : ProcessState) (env : Env) (col : Collaborators)
    (cx : CallContext) (kernel_name gpu_arch : String)
    (generate_src : String → Except String String) (hip_version : Int) (kernel_src : String)
    (code : Bytes) (c : RTCCache) (conn : Connection)
    (hs : st.single = some c) (hc : c.db_user = some conn)
    (hv : resolve_hip_version st col = some hip_version)
    (hmiss : lookup_misses st env col cx kernel_name gpu_arch hip_version)
    (hgen : generate_src kernel_name = .ok kernel_src)
    (hcomp : (compile_switch (get_rtc_process_type env) col cx.try_lock_owns kernel_src
      gpu_arch).2 = .ok code) :
    (cx.store.faults.store_binds_ok →
      (c.store_code_object env cx.store kernel_name gpu_arch hip_version col.generator_sum
          code).2 = .ok ()
      ∧ (cached_compile st env col cx kernel_name gpu_arch generate_src).result = .ok code)
    ∧ (¬ cx.store.faults.store_binds_ok → writes_enabled env →
      (c.store_code_object env cx.store kernel_name gpu_arch hip_version col.generator_sum
          code).2 = .error "store_code_object bind: "
      ∧ (cached_compile st env col cx kernel_name gpu_arch generate_src).result
          = .error "store_code_object bind: ") := by
  have hform := cached_compile_miss st env col cx kernel_name gpu_arch generate_src hip_version
    kernel_src hv hmiss hgen
  rw [hcomp, hs] at hform
  obtain ⟨hok, hthrow⟩ := RTCCache.store_code_object_outcome c env cx.store kernel_name
    gpu_arch hip_version col.generator_sum code
  constructor
  · intro hb
    have h1 := hok conn hc hb
    refine ⟨h1, ?_⟩
    rw [hform]
    simp only [h1]
  · intro hb hw
    have h1 := hthrow hw hb
    refine ⟨h1, ?_⟩
    rw [hform]
    simp only [h1]

/-- C15 (witness): the step of the store statement fails; the request still returns the
compiled bytes 1, 2. -/
theorem C15_store_failures_witness :
    (cached_compile state_fresh Env.unset sample_collaborators CallContext.store_step_fails
        "kernel_a" "gfx900" sample_generate_src).result = .ok [1, 2] :=
  ((C15_store_failures state_fresh Env.unset sample_collaborators CallContext.store_step_fails
    "kernel_a" "gfx900" sample_generate_src 50000000 "src" [1, 2] cache_fresh
    ⟨[], Option.none⟩ rfl rfl rfl (by intro c hc; cases hc; decide) rfl rfl).1
    ⟨⟨rfl, rfl, rfl, rfl⟩, rfl⟩).2

/-- C16 (counterexample). Both tiers of `cache_both` hold `key_a`, the system tier with the
byte 7, and the first bind of the user query fails: `get_code_object` throws instead of
returning the system bytes. -/
theorem C16_counterexample :
    reads_enabled Env.unset
    ∧ cache_both.db_sys.map (fun sys => sys.lookup key_a) = some (some [7])
    ∧ ¬ faults_bind_fails.get_binds_ok
    ∧ cache_both.get_code_object Env.unset faults_bind_fails StmtFaults.none
        key_a.kernel_name key_a.arch key_a.hip_version key_a.generator_sum
        = .error "get_code_object bind: "
    ∧ cache_both.get_code_object Env.unset faults_bind_fails StmtFaults.none
        key_a.kernel_name key_a.arch key_a.hip_version key_a.generator_sum ≠ .ok [7] := by
  refine ⟨by decide, by decide, ?_, by decide, by decide⟩
  intro h
  exact absurd h.1 (by decide)

/-- C16 (amended). A failed step of the user query is a miss for that tier only, a failed
bind throws: with reads enabled and the user store open, when the binds of the user query
succeed and its step fails, `get_code_object` does not throw on account of the user tier,
gives exactly what the query of the system tier gives (nothing when there is no system
tier), and so returns the system bytes when the system tier holds the key and its query is
fault-free; when a bind of the user query fails, `get_code_object` throws. -/
theorem C16_lookup_failures (c : RTCCache) (env : Env) (fu fs : StmtFaults) (k : CacheKey)
    (conn : Connection) (hc : c.db_user = some conn) (hr : reads_enabled env) :
    (fu.get_binds_ok → fu.step_fails = true →
      c.get_code_object env fu fs k.kernel_name k.arch k.hip_version k.generator_sum
        = (match c.db_sys with
          | some sys =>
            get_code_object_impl env fs k.kernel_name k.arch k.hip_version k.generator_sum sys
          | Option.none => .ok [])
      ∧ ∀ sys Bs, c.db_sys = some sys → sys.lookup k = some Bs →
          fs.get_binds_ok ∧ fs.step_fails = false →
          c.get_code_object env fu fs k.kernel_name k.arch k.hip_version k.generator_sum
            = .ok Bs)
    ∧ (¬ fu.get_binds_ok →
      c.get_code_object env fu fs k.kernel_name k.arch k.hip_version k.generator_sum
        = .error "get_code_object bind: ") := by
  obtain ⟨hbind, hstep⟩ := get_code_object_impl_faults env fu k conn.cache_v1 hr
  constructor
  · intro hb hsf
    have h1 : c.get_code_object env fu fs k.kernel_name k.arch k.hip_version k.generator_sum
        = (match c.db_sys with
          | some sys =>
            get_code_object_impl env fs k.kernel_name k.arch k.hip_version k.generator_sum sys
          | Option.none => .ok []) := by
      unfold RTCCache.get_code_object
      simp only [hc, hstep hb hsf, bind, Except.bind, pure, Except.pure, List.isEmpty]
      cases c.db_sys <;> rfl
    refine ⟨h1, ?_⟩
    intro sys Bs hsys hl hfs
    rw [h1, hsys]
    simp only [get_code_object_impl_ok env fs k sys hr hfs.1 hfs.2, hl, Option.getD]
  · intro hb
    unfold RTCCache.get_code_object
    simp only [hc, hbind hb, bind, Except.bind]

/-- C16 (witness): the step of the user query fails; the lookup of `key_a` in `cache_both`
returns the byte 7 of the system tier. -/
theorem C16_lookup_failures_witness :
    cache_both.get_code_object Env.unset faults_step_fails StmtFaults.none
      key_a.kernel_name key_a.arch key_a.hip_version key_a.generator_sum = .ok [7] :=
  ((C16_lookup_failures cache_both Env.unset faults_step_fails StmtFaults.none key_a
    ⟨[Row.of key_a [1, 2] 0], Option.none⟩ rfl rfl).1 ⟨rfl, rfl, rfl, rfl⟩ rfl).2
    [Row.of key_a [7] 0] [7] rfl (by decide) ⟨⟨rfl, rfl, rfl, rfl⟩, rfl⟩

set_option maxRecDepth 100000 in
/-- C17 (counterexample). The child writes nothing and exits with status 1: the captured
output `D` is empty, and `compile_subprocess` fails with the fixed message about missing
code, which is not the (empty) message `D`. -/
theorem C17_counterexample :
    (compile_subprocess (SubprocessOS.running [PollRound.reading (.bytes [])] 1) "src"
        "gfx900").captured = some []
    ∧ (compile_subprocess (SubprocessOS.running [PollRound.reading (.bytes [])] 1) "src"
        "gfx900").result = some (.error "child process failed to produce code")
    ∧ (compile_subprocess (SubprocessOS.running [PollRound.reading (.bytes [])] 1) "src"
        "gfx900").result ≠ some (.error (string_of_bytes [])) := by
  refine ⟨by decide, by decide, by decide⟩

/-- C17 (amended). Subprocess failure surfaces diagnostics: for every byte sequence `D`
captured from the output of the child, when the child was waited for and was killed by a
signal or exited with a non-zero status, `compile_subprocess` returns no bytes; it fails
with the message `D` when `D` is not empty, and with the message
`child process failed to produce code` when `D` is empty. -/
theorem C17_subprocess_failure_diagnostics (os : SubprocessOS) (kernel_src gpu_arch : String)
    (D : Bytes)
    (hcap : (compile_subprocess os kernel_src gpu_arch).captured = some D)
    (hwait : os.waitpid_ok = true)
    (hfail : os.wifsignaled = true ∨ os.wexitstatus ≠ 0) :
    (D ≠ [] →
      (compile_subprocess os kernel_src gpu_arch).result = some (.error (string_of_bytes D)))
    ∧ (D = [] →
      (compile_subprocess os kernel_src gpu_arch).result
        = some (.error "child process failed to produce code"))
    ∧ ∀ b, (compile_subprocess os kernel_src gpu_arch).result ≠ some (.ok b) := by
  rcases compile_subprocess_cases os kernel_src gpu_arch with ⟨hnone, _⟩ | ⟨D2, hD2, hres⟩
  · rw [hnone] at hcap; cases hcap
  · rw [hD2] at hcap
    cases hcap
    rw [hres]
    have hfailed : (os.wifsignaled || decide (os.wexitstatus ≠ 0)) = true := by
      rcases hfail with h | h
      · simp [h]
      · simp [h]
    refine ⟨fun hne => ?_, fun he => ?_, fun b hb => ?_⟩
    · cases D with
      | nil => exact absurd rfl hne
      | cons x xs =>
        simp only [subprocess_finish, hwait, hfailed, Bool.not_true, Bool.false_eq_true,
          if_false, List.isEmpty, if_true]
    · subst he
      simp [subprocess_finish, hwait]
    · simp only [Option.some.injEq] at hb
      obtain ⟨_, _, _, hs, he⟩ := subprocess_finish_ok os D b hb
      rcases hfail with h | h
      · rw [hs] at h; cases h
      · exact h he

set_option maxRecDepth 100000 in
/-- C17 (witness): the child writes `syntax error` and exits with status 1; the request
fails with the message `syntax error`. -/
theorem C17_subprocess_failure_diagnostics_witness :
    (compile_subprocess
        (SubprocessOS.running
          [PollRound.reading (.bytes syntax_error_bytes), PollRound.reading (.bytes [])] 1)
        "src" "gfx900").result = some (.error "syntax error") :=
  (C17_subprocess_failure_diagnostics
    (SubprocessOS.running
      [PollRound.reading (.bytes syntax_error_bytes), PollRound.reading (.bytes [])] 1)
    "src" "gfx900" syntax_error_bytes (by decide) rfl (Or.inr (by decide))).1 (by decide)

/-- C18. Empty output is an error: when the captured output is empty and the child, waited
for, exited with status zero, `compile_subprocess` fails with the message
`child process failed to produce code`; and whatever the operating system does, every byte
sequence `compile_subprocess` returns is non-empty. -/
theorem C18_empty_output_is_error (os : SubprocessOS) (kernel_src gpu_arch : String) :
    ((compile_subprocess os kernel_src gpu_arch).captured = some [] →
      os.waitpid_ok = true → os.wifsignaled = false → os.wexitstatus = 0 →
      (compile_subprocess os kernel_src gpu_arch).result
        = some (.error "child process failed to produce code"))
    ∧ ∀ b, (compile_subprocess os kernel_src gpu_arch).result = some (.ok b) → b ≠ [] := by
  rcases compile_subprocess_cases os kernel_src gpu_arch with ⟨hnone, hno⟩ | ⟨D, hD, hres⟩
  · refine ⟨fun hcap => ?_, fun b hb => absurd hb (hno b)⟩
    rw [hnone] at hcap; cases hcap
  · refine ⟨fun hcap hwait _ _ => ?_, fun b hb => ?_⟩
    · rw [hD] at hcap
      cases hcap
      rw [hres]
      simp [subprocess_finish, hwait]
    · rw [hres] at hb
      simp only [Option.some.injEq] at hb
      obtain ⟨hbD, hne, _⟩ := subprocess_finish_ok os D b hb
      rw [hbD]; exact hne

set_option maxRecDepth 100000 in
/-- C18 (witness): the child writes nothing and exits with status zero. -/
theorem C18_empty_output_is_error_witness :
    (compile_subprocess (SubprocessOS.running [PollRound.reading (.bytes [])] 0) "src"
        "gfx900").result = some (.error "child process failed to produce code") :=
  (C18_empty_output_is_error (SubprocessOS.running [PollRound.reading (.bytes [])] 0) "src"
    "gfx900").1 (by decide) rfl rfl rfl

set_option maxRecDepth 100000 in
/-- C19 (counterexample). The empty sequence of chunks: the first `read` reports end of
stream and the child exits with status zero. `compile_subprocess` throws instead of
returning the (empty) concatenation. -/
theorem C19_counterexample :
    read_results (compile_subprocess (SubprocessOS.running [PollRound.reading (.bytes [])] 0)
        "src" "gfx900").trace = ([] : List Bytes).map ReadResult.bytes ++ [.bytes []]
    ∧ (compile_subprocess (SubprocessOS.running [PollRound.reading (.bytes [])] 0) "src"
        "gfx900").result = some (.error "child process failed to produce code")
    ∧ (compile_subprocess (SubprocessOS.running [PollRound.reading (.bytes [])] 0) "src"
        "gfx900").result ≠ some (.ok ([] : List Bytes).flatten) := by
  refine ⟨by decide, by decide, by decide⟩

/-- C19 (amended). Output is read completely and exactly: for every non-empty sequence of
chunks, each of 1 to 1024 bytes, when the `read` calls of `compile_subprocess` deliver these
chunks in order and then the end of stream, and the child, waited for, exited with status
zero, `compile_subprocess` returns exactly the concatenation of the chunks, whatever else
the operating system does in between (idle polls, writes, growth of the buffer). -/
theorem C19_output_read_exactly (os : SubprocessOS) (kernel_src gpu_arch : String)
    (chunks : List Bytes)
    (hreads : read_results (compile_subprocess os kernel_src gpu_arch).trace
      = chunks.map ReadResult.bytes ++ [.bytes []])
    (hsize : ∀ c ∈ chunks, 1 ≤ c.length ∧ c.length ≤ 1024)
    (hne : chunks ≠ [])
    (hwait : os.waitpid_ok = true) (hsig : os.wifsignaled = false)
    (hexit : os.wexitstatus = 0) :
    (compile_subprocess os kernel_src gpu_arch).result = some (.ok chunks.flatten) := by
  obtain ⟨exe, h1, h2, h3, h4, hrr⟩ := compile_subprocess_read_results os kernel_src gpu_arch
    (by rw [hreads]; simp)
  rw [hreads] at hrr
  obtain ⟨hcode, hleft⟩ := posix_io_loop_reads kernel_src.length os.rounds ⟨0, [], true⟩
  have hl := hleft (by rw [← hrr]; exact List.getLast?_concat _)
  have hc := hcode (by
    intro rc hrc
    rw [← hrr] at hrc
    simp only [List.mem_append, List.mem_map, List.mem_singleton] at hrc
    rcases hrc with ⟨c, hcm, rfl⟩ | rfl
    · exact (hsize c hcm).2
    · simp [ReadResult.chunk])
  rw [← hrr] at hc
  have hflat : ((chunks.map ReadResult.bytes ++ [ReadResult.bytes []]).map
      ReadResult.chunk).flatten = chunks.flatten := by
    simp [ReadResult.chunk, Function.comp_def]
  rw [hflat] at hc
  simp only [List.nil_append] at hc
  have hnonempty : chunks.flatten ≠ [] := by
    cases chunks with
    | nil => exact absurd rfl hne
    | cons c cs =>
      have hpos := (hsize c (List.mem_cons_self _ _)).1
      intro h
      simp only [List.flatten_cons, List.append_eq_nil] at h
      rw [h.1] at hpos
      simp at hpos
  rw [compile_subprocess_spawned os kernel_src gpu_arch exe h1 h2 h3 h4, hl]
  simp only [hc]
  cases hcf : chunks.flatten with
  | nil => exact absurd hcf hnonempty
  | cons x xs => simp [subprocess_finish, hwait, hsig, hexit]

set_option maxRecDepth 100000 in
/-- C19 (witness): the child delivers the chunks 1, 2 and 3, with an idle poll in between,
then the end of stream, and exits with status zero. -/
theorem C19_output_read_exactly_witness :
    (compile_subprocess
        (SubprocessOS.running
          [PollRound.reading (.bytes [1, 2]), PollRound.idle, PollRound.reading (.bytes [3]),
            PollRound.reading (.bytes [])] 0)
        "src" "gfx900").result = some (.ok [1, 2, 3]) :=
  C19_output_read_exactly
    (SubprocessOS.running
      [PollRound.reading (.bytes [1, 2]), PollRound.idle, PollRound.reading (.bytes [3]),
        PollRound.reading (.bytes [])] 0)
    "src" "gfx900" [[1, 2], [3]] (by decide) (by decide) (by decide) rfl rfl rfl

set_option maxRecDepth 100000 in
/-- C20 (the code at the failing input). A source text of 5000 bytes and a pipe that accepts
every write in full: the second `write` asks for 4096 bytes from offset 4096, that is for
the bytes 4096 to 8191 of a text of 5000 bytes, and 8192 bytes are accepted in all. A source
text of 3 bytes and a pipe that accepts 2 bytes of the first write: the second `write` asks
for 3 bytes from offset 2. -/
theorem C20_write_request_overruns :
    long_source.length = 5000
    ∧ (compile_subprocess
        (SubprocessOS.running [PollRound.writing 4096, PollRound.writing 4096] 0)
        long_source "gfx900").trace
        = [.spawn "rocfft_rtc_helper" "gfx900", .close .child_stdin_read,
            .close .child_stdout_write, .poll 1, .write 0 4096 4096, .poll 1,
            .write 4096 4096 4096, .close .child_stdin_write]
    ∧ 4096 + 4096 > long_source.length
    ∧ (compile_subprocess
        (SubprocessOS.running [PollRound.writing 2, PollRound.writing 1] 0)
        "abc" "gfx900").trace
        = [.spawn "rocfft_rtc_helper" "gfx900", .close .child_stdin_read,
            .close .child_stdout_write, .poll 1, .write 0 3 2, .poll 1,
            .write 2 3 1, .close .child_stdin_write]
    ∧ 2 + 3 > "abc".length := by
  have hlen : long_source.length = 5000 :=
    List.length_replicate 5000 (Char.ofNat 97)
  refine ⟨hlen, ?_, by rw [hlen]; decide, by decide, by decide⟩
  unfold compile_subprocess
  rw [hlen]
  decide

/-- C21 (counterexample). The override `ROCFFT_RTC_CACHE_PATH` names a file that cannot be
opened, while `XDG_CACHE_HOME` is set and the cache file under it can be opened read-write:
the constructor opens the in-memory store, not the platform cache directory. -/
theorem C21_counterexample :
    rocfft_getenv env_override_and_xdg "ROCFFT_RTC_CACHE_PATH" = "/ro/cache.db"
    ∧ opens_read_write platform_override_unopenable "/ro/cache.db" = false
    ∧ rocfft_getenv env_override_and_xdg "XDG_CACHE_HOME" = "/xdg"
    ∧ opens_read_write platform_override_unopenable "/xdg/rocFFT/rocfft_kernel_cache.db" = true
    ∧ (RTCCache.construct env_override_and_xdg platform_override_unopenable).map
        (fun r => r.user_path) = .ok (some "") := by
  refine ⟨by decide, by decide, by decide, by decide, by decide⟩

/-- C21 (amended). User-tier resolution order: whenever the constructor returns, the user
store it opened is the first candidate of `rtccache_db_user_paths` that can be opened
read-write. With `ROCFFT_RTC_CACHE_PATH` set the candidates are that path and then the
in-memory store, and no other location is tried. Without it they are the cache directory
under `XDG_CACHE_HOME` when that is set, else the one under `HOME` when that is set, then
the temp directory, then the in-memory store. -/
theorem C21_user_tier_resolution (env : Env) (pf : Platform) (r : Constructed)
    (h : RTCCache.construct env pf = .ok r) :
    ∃ paths, rtccache_db_user_paths env pf = .ok paths
      ∧ r.user_path = paths.find? (opens_read_write pf)
      ∧ (rocfft_getenv env "ROCFFT_RTC_CACHE_PATH" ≠ "" →
          paths = [rocfft_getenv env "ROCFFT_RTC_CACHE_PATH", ""])
      ∧ (rocfft_getenv env "ROCFFT_RTC_CACHE_PATH" = "" →
          ∃ tmp, pf.temp_directory_path = some tmp
            ∧ paths = standard_cache_candidates env pf
                ++ [pf.path.join tmp default_cache_filename, ""]) := by
  obtain ⟨paths, hp, hu, _⟩ := RTCCache.construct_spec env pf r h
  obtain ⟨h1, h2⟩ := rtccache_db_user_paths_spec env pf paths hp
  exact ⟨paths, hp, hu, h1, h2⟩

/-- C21 (witness): only `XDG_CACHE_HOME` is set and every database opens; the user store is
the cache file under `/xdg/rocFFT`, the first of three candidates. -/
theorem C21_user_tier_resolution_witness :
    (some "/xdg/rocFFT/rocfft_kernel_cache.db" : Option String)
      = List.find? (opens_read_write (platform_with_files []))
          ["/xdg/rocFFT/rocfft_kernel_cache.db", "/tmp/rocfft_kernel_cache.db", ""] := by
  obtain ⟨paths, hp, hu, _, _⟩ := C21_user_tier_resolution env_xdg_only
    (platform_with_files [])
    ⟨⟨some [], some ⟨[], Option.none⟩⟩, some "/xdg/rocFFT/rocfft_kernel_cache.db"⟩ rfl
  have e : rtccache_db_user_paths env_xdg_only (platform_with_files [])
      = .ok ["/xdg/rocFFT/rocfft_kernel_cache.db", "/tmp/rocfft_kernel_cache.db", ""] := by
    decide
  rw [e] at hp
  cases hp
  exact hu

/-- C22 (the code at the failing inputs). With only `HOME` set and a home directory under
which no directory can be created, `create_directories` throws: `rtccache_db_user_paths`
returns no list and the constructor ends with that exception. With a cache file under the
home directory that is not a database, the prepare of the `CREATE TABLE` statement throws
inside `connect_db`: the constructor ends with that exception although the in-memory store
would open. -/
theorem C22_constructor_throws :
    rtccache_db_user_paths env_home_only platform_no_directories
      = .error "filesystem error: cannot create directories"
    ∧ (RTCCache.construct env_home_only platform_no_directories).map
        (fun r => r.cache.db_user.isSome)
        = .error "filesystem error: cannot create directories"
    ∧ connect_db platform_corrupt_home_cache "" false = .ok (some [])
    ∧ rtccache_db_user_paths env_home_only platform_corrupt_home_cache
        = .ok ["/nonexistent/.cache/rocFFT/rocfft_kernel_cache.db",
            "/tmp/rocfft_kernel_cache.db", ""]
    ∧ (RTCCache.construct env_home_only platform_corrupt_home_cache).map
        (fun r => r.cache.db_user.isSome) = .error "sqlite_prepare_v2 failed: " := by
  refine ⟨by decide, by decide, by decide, by decide, by decide⟩

/-- C23. The system tier is never written: after every sequence of `get_code_object`,
`store_code_object`, `serialize`, `deserialize` and `cached_compile` calls the system
database of the cache is what it was before; `store_code_object` and `deserialize` return a
cache with the system database they were given. -/
theorem C23_system_tier_never_written (st : ProcessState) (calls : List CacheCall) :
    (calls.foldl CacheCall.run st).single.map (fun c => c.db_sys)
      = st.single.map (fun c => c.db_sys)
    ∧ (∀ (c : RTCCache) (env : Env) (s : StoreCall) (kernel_name gpu_arch : String)
        (hip_version : Int) (generator_sum : GeneratorSum) (code : Bytes),
        (c.store_code_object env s kernel_name gpu_arch hip_version generator_sum
          code).1.db_sys = c.db_sys)
    ∧ (∀ (c : RTCCache) (f : DeserializeFaults) (buffer : Snapshot),
        (c.deserialize f buffer).1.db_sys = c.db_sys) :=
  ⟨CacheCall.run_all_db_sys calls st,
    fun c env s kernel_name gpu_arch hip_version generator_sum code =>
      RTCCache.store_code_object_db_sys c env s kernel_name gpu_arch hip_version generator_sum
        code,
    fun c f buffer => RTCCache.deserialize_db_sys c f buffer⟩

/-- C24. Helper location: `find_rtc_helper` returns the value of
`ROCFFT_RTC_PROCESS_HELPER` when it is set; otherwise, with a known library path, the helper
path in the directory of the library when that file exists, else the helper path in the
`bin` directory one level above when that file exists; and it fails with
`unable to find rtc helper` when the override is unset and the library path is unknown or
neither file exists. -/
theorem C24_helper_location (env : Env) (pf : Platform) :
    (rocfft_getenv env "ROCFFT_RTC_PROCESS_HELPER" ≠ "" →
      find_rtc_helper env pf = .ok (rocfft_getenv env "ROCFFT_RTC_PROCESS_HELPER"))
    ∧ (rocfft_getenv env "ROCFFT_RTC_PROCESS_HELPER" = "" → pf.get_library_path ≠ "" →
        pf.file_exists
          (pf.path.join (pf.path.parent_path pf.get_library_path) HELPER_EXE) = true →
        find_rtc_helper env pf
          = .ok (pf.path.join (pf.path.parent_path pf.get_library_path) HELPER_EXE))
    ∧ (rocfft_getenv env "ROCFFT_RTC_PROCESS_HELPER" = "" → pf.get_library_path ≠ "" →
        pf.file_exists
          (pf.path.join (pf.path.parent_path pf.get_library_path) HELPER_EXE) = false →
        pf.file_exists
          (pf.path.join
            (pf.path.join (pf.path.parent_path (pf.path.parent_path pf.get_library_path))
              "bin") HELPER_EXE) = true →
        find_rtc_helper env pf
          = .ok (pf.path.join
              (pf.path.join (pf.path.parent_path (pf.path.parent_path pf.get_library_path))
                "bin") HELPER_EXE))
    ∧ (rocfft_getenv env "ROCFFT_RTC_PROCESS_HELPER" = "" →
        (pf.get_library_path = ""
          ∨ (pf.file_exists
              (pf.path.join (pf.path.parent_path pf.get_library_path) HELPER_EXE) = false
            ∧ pf.file_exists
              (pf.path.join
                (pf.path.join (pf.path.parent_path (pf.path.parent_path pf.get_library_path))
                  "bin") HELPER_EXE) = false)) →
        find_rtc_helper env pf = .error "unable to find rtc helper") := by
  unfold find_rtc_helper
  refine ⟨fun hv => ?_, fun hv hl he => ?_, fun hv hl he hb => ?_, fun hv hn => ?_⟩
  · simp [hv]
  · simp [hv, hl, List.find?, he]
  · simp [hv, hl, List.find?, he, hb]
  · rcases hn with hl | ⟨he, hb⟩
    · simp [hv, hl]
    · by_cases hl : pf.get_library_path = ""
      · simp [hv, hl]
      · simp [hv, hl, List.find?, he, hb]

/-- C24 (witness): the override is returned as it is; without it, a helper that exists only
in the `bin` directory is found there; with no helper file, the search fails. -/
theorem C24_helper_location_witness :
    find_rtc_helper env_helper_override (platform_with_files [])
      = .ok "/usr/local/bin/my_helper"
    ∧ find_rtc_helper Env.unset (platform_with_files ["/opt/rocm/lib/bin/rocfft_rtc_helper"])
      = .ok "/opt/rocm/lib/bin/rocfft_rtc_helper"
    ∧ find_rtc_helper Env.unset (platform_with_files [])
      = .error "unable to find rtc helper" :=
  ⟨(C24_helper_location env_helper_override (platform_with_files [])).1 (by decide),
    (C24_helper_location Env.unset
      (platform_with_files ["/opt/rocm/lib/bin/rocfft_rtc_helper"])).2.2.1 rfl (by decide)
      (by decide) (by decide),
    (C24_helper_location Env.unset (platform_with_files [])).2.2.2 rfl
      (Or.inr ⟨by decide, by decide⟩)⟩

/-- C25. Mutual exclusion of in-process compilation: along the trace of every
`cached_compile`, in every compile mode, each call of the in-process compiler comes at a
point where the request holds `compile_lock`, and each call of the subprocess compiler at a
point where it does not. -/
theorem C25_inprocess_under_mutex (st : ProcessState) (env : Env) (col : Collaborators)
    (cx : CallContext) (kernel_name gpu_arch : String)
    (generate_src : String → Except String String) (pre post : List Event) (s a : String) :
    mutex_discipline false
        (cached_compile st env col cx kernel_name gpu_arch generate_src).trace = true
    ∧ ((cached_compile st env col cx kernel_name gpu_arch generate_src).trace
          = pre ++ Event.compile_inprocess s a :: post →
        held_at_end false pre = true)
    ∧ ((cached_compile st env col cx kernel_name gpu_arch generate_src).trace
          = pre ++ Event.compile_subprocess s a :: post →
        held_at_end false pre = false) := by
  have hm := (cached_compile_mutex st env col cx kernel_name gpu_arch generate_src).1
  refine ⟨hm, fun h => ?_, fun h => ?_⟩
  · rw [h, mutex_discipline_append] at hm
    simp only [mutex_discipline, Bool.and_eq_true] at hm
    exact hm.2.1
  · rw [h, mutex_discipline_append] at hm
    simp only [mutex_discipline, Bool.and_eq_true, Bool.not_eq_true'] at hm
    exact hm.2.1

/-- C25 (witness): `DEFAULT` mode, the mutex held by another thread and a subprocess compile
that throws: the subprocess compiler runs without the mutex, the in-process compiler after
the blocking lock. -/
theorem C25_inprocess_under_mutex_witness :
    held_at_end false
        [.get_code_object key_a, .generate_src "kernel_a", .try_lock false,
          .compile_subprocess "src" "gfx900", .lock] = true
    ∧ held_at_end false
        [.get_code_object key_a, .generate_src "kernel_a", .try_lock false] = false :=
  ⟨(C25_inprocess_under_mutex state_fresh Env.unset collaborators_sub_throws
      CallContext.lock_held "kernel_a" "gfx900" sample_generate_src
      [.get_code_object key_a, .generate_src "kernel_a", .try_lock false,
        .compile_subprocess "src" "gfx900", .lock]
      [.unlock, .store_code_object key_a [1, 2]] "src" "gfx900").2.1 (by decide),
    (C25_inprocess_under_mutex state_fresh Env.unset collaborators_sub_throws
      CallContext.lock_held "kernel_a" "gfx900" sample_generate_src
      [.get_code_object key_a, .generate_src "kernel_a", .try_lock false]
      [.lock, .compile_inprocess "src" "gfx900", .unlock, .store_code_object key_a [1, 2]]
      "src" "gfx900").2.2 (by decide)⟩

set_option maxRecDepth 100000 in
/-- C26 (the code at the failing input). The empty source text, a writable input stream of
the child and no I/O error: `write` of zero bytes returns zero, the loop is left by `break`,
and the parent waits for the child while `child_stdin_write` is still open; only the
destructor closes it, after `waitpid`. With the text `abc` accepted in one write, the close
comes right after the write and before `waitpid`. -/
theorem C26_empty_source_not_closed :
    (compile_subprocess (SubprocessOS.running [PollRound.writing 0] 0) "" "gfx900").trace
      = [.spawn "rocfft_rtc_helper" "gfx900", .close .child_stdin_read,
          .close .child_stdout_write, .poll 1, .write 0 0 0, .close .child_stdout_read,
          .waitpid, .close .child_stdin_write]
    ∧ (compile_subprocess
        (SubprocessOS.running
          [PollRound.writing 3, PollRound.reading (.bytes [1]), PollRound.reading (.bytes [])]
          0)
        "abc" "gfx900").trace
      = [.spawn "rocfft_rtc_helper" "gfx900", .close .child_stdin_read,
          .close .child_stdout_write, .poll 1, .write 0 3 3, .close .child_stdin_write,
          .poll 1, .read 1024 (.bytes [1]), .poll 1, .read 1024 (.bytes []),
          .close .child_stdout_read, .waitpid] := by
  refine ⟨by decide, by decide⟩

/-- C27. Source generation on a miss: for every request whose lookup misses or that has no
cache configured (the runtime version being known), the trace of `cached_compile` is the
lookup, then the call of the generator with `kernel_name`, then the rest. The generator is
called nowhere else, no compiler is called before it, the request does not hold the mutex at
that point, and this holds whatever the compilers do afterwards; every compiler call of the
request is made on the text the generator returned. -/
theorem C27_generate_once_on_miss (st : ProcessState) (env : Env) (col : Collaborators)
    (cx : CallContext) (kernel_name gpu_arch : String)
    (generate_src : String → Except String String) (hip_version : Int)
    (hv : resolve_hip_version st col = some hip_version)
    (hmiss : lookup_misses st env col cx kernel_name gpu_arch hip_version) :
    ∃ post : List Event,
      (cached_compile st env col cx kernel_name gpu_arch generate_src).trace
        = lookup_events st (request_key col kernel_name gpu_arch hip_version)
          ++ [.generate_src kernel_name] ++ post
      ∧ (∀ n, Event.generate_src n
          ∉ lookup_events st (request_key col kernel_name gpu_arch hip_version))
      ∧ (∀ n, Event.generate_src n ∉ post)
      ∧ (∀ s a, Event.compile_inprocess s a
            ∉ lookup_events st (request_key col kernel_name gpu_arch hip_version)
          ∧ Event.compile_subprocess s a
            ∉ lookup_events st (request_key col kernel_name gpu_arch hip_version))
      ∧ held_at_end false
          (lookup_events st (request_key col kernel_name gpu_arch hip_version)) = false
      ∧ (∀ e, generate_src kernel_name = .error e → post = [])
      ∧ (∀ kernel_src, generate_src kernel_name = .ok kernel_src →
          ∀ s a, Event.compile_inprocess s a ∈ post ∨ Event.compile_subprocess s a ∈ post →
            s = kernel_src ∧ a = gpu_arch) := by
  have hl1 : ∀ n, Event.generate_src n
      ∉ lookup_events st (request_key col kernel_name gpu_arch hip_version) := by
    intro n hn
    cases lookup_events_mem st _ _ hn
  have hl2 : ∀ s a, Event.compile_inprocess s a
        ∉ lookup_events st (request_key col kernel_name gpu_arch hip_version)
      ∧ Event.compile_subprocess s a
        ∉ lookup_events st (request_key col kernel_name gpu_arch hip_version) := by
    intro s a
    constructor <;> intro hn <;> cases lookup_events_mem st _ _ hn
  have hl3 : held_at_end false
      (lookup_events st (request_key col kernel_name gpu_arch hip_version)) = false :=
    (mutex_neutral false _ (fun ev hev => Or.inl ⟨_, lookup_events_mem st _ ev hev⟩)).1
  cases hgen : generate_src kernel_name with
  | error e =>
    refine ⟨[], ?_, hl1, by simp, hl2, hl3, fun _ _ => rfl, ?_⟩
    · rw [cached_compile_miss_generate_error st env col cx kernel_name gpu_arch generate_src
        hip_version e hv hmiss hgen]
      simp
    · intro kernel_src h
      cases h
  | ok kernel_src =>
    obtain ⟨post, ht, hp, _⟩ :=
      cached_compile_miss_trace st env col cx kernel_name gpu_arch generate_src hip_version
        kernel_src hv hmiss hgen
    refine ⟨(compile_switch (get_rtc_process_type env) col cx.try_lock_owns kernel_src
      gpu_arch).1 ++ post, ?_, hl1, ?_, hl2, hl3, ?_, ?_⟩
    · rw [ht]
      simp only [List.append_assoc]
    · intro n hn
      rcases List.mem_append.1 hn with h | h
      · exact compile_switch_no_generate _ col _ kernel_src gpu_arch n h
      · obtain ⟨k, code, hk⟩ := hp _ h
        cases hk
    · intro e h
      cases h
    · intro src h s a hsa
      cases h
      apply compile_switch_compile_events (get_rtc_process_type env) col cx.try_lock_owns
        kernel_src gpu_arch s a
      rcases hsa with h | h
      · rcases List.mem_append.1 h with h | h
        · exact Or.inl h
        · obtain ⟨k, code, hk⟩ := hp _ h
          cases hk
      · rcases List.mem_append.1 h with h | h
        · exact Or.inr h
        · obtain ⟨k, code, hk⟩ := hp _ h
          cases hk

/-- C27 (witness): a fresh cache, the mutex held by another thread and two compilers that
both throw: the generator is called once, after the lookup, and both compilers get its
text. -/
theorem C27_generate_once_on_miss_witness :
    ∃ post : List Event,
      (cached_compile state_fresh Env.unset collaborators_both_throw CallContext.lock_held
          "kernel_a" "gfx900" sample_generate_src).trace
        = lookup_events state_fresh (request_key collaborators_both_throw "kernel_a" "gfx900"
            50000000)
          ++ [.generate_src "kernel_a"] ++ post
      ∧ (∀ n, Event.generate_src n ∉ post)
      ∧ (∀ s a, Event.compile_inprocess s a ∈ post ∨ Event.compile_subprocess s a ∈ post →
          s = "src" ∧ a = "gfx900") := by
  obtain ⟨post, h1, _, h3, _, _, _, h7⟩ :=
    C27_generate_once_on_miss state_fresh Env.unset collaborators_both_throw
      CallContext.lock_held "kernel_a" "gfx900" sample_generate_src 50000000 rfl
      (by intro c hc; cases hc; decide)
  exact ⟨post, h1, h3, h7 "src" rfl⟩

/-- C28. Diagnostics are never cached: whenever `cached_compile` calls `store_code_object`
with bytes `code`, the key is the key of the request and `code` is what a compiler call of
this request on the generated source returned without throwing, in-process or subprocess;
when `compile_subprocess` throws a diagnostic for that source, `code` is the result of the
in-process compiler; and bytes returned to the caller are equal to `code`. -/
theorem C28_diagnostics_never_cached (st : ProcessState) (env : Env) (col : Collaborators)
    (cx : CallContext) (kernel_name gpu_arch : String)
    (generate_src : String → Except String String) (k : CacheKey) (code : Bytes)
    (h : Event.store_code_object k code
      ∈ (cached_compile st env col cx kernel_name gpu_arch generate_src).trace) :
    ∃ (hip_version : Int) (kernel_src : String),
      resolve_hip_version st col = some hip_version
      ∧ generate_src kernel_name = .ok kernel_src
      ∧ k = request_key col kernel_name gpu_arch hip_version
      ∧ ((col.compile_inprocess kernel_src gpu_arch = .ok code
          ∧ Event.compile_inprocess kernel_src gpu_arch
              ∈ (cached_compile st env col cx kernel_name gpu_arch generate_src).trace)
        ∨ (col.compile_subprocess kernel_src gpu_arch = .ok code
          ∧ Event.compile_subprocess kernel_src gpu_arch
              ∈ (cached_compile st env col cx kernel_name gpu_arch generate_src).trace))
      ∧ (∀ D, col.compile_subprocess kernel_src gpu_arch = .error D →
          col.compile_inprocess kernel_src gpu_arch = .ok code)
      ∧ (∀ b, (cached_compile st env col cx kernel_name gpu_arch generate_src).result = .ok b →
          b = code) := by
  obtain ⟨hip_version, kernel_src, hv, hmiss, hgen⟩ :=
    cached_compile_past_generate st env col cx kernel_name gpu_arch generate_src _ h
      (fun _ hk => by cases hk) (fun _ hn => by cases hn)
  have hm := cached_compile_miss st env col cx kernel_name gpu_arch generate_src hip_version
    kernel_src hv hmiss hgen
  have hnot : Event.store_code_object k code
      ∉ lookup_events st (request_key col kernel_name gpu_arch hip_version)
          ++ [.generate_src kernel_name]
          ++ (compile_switch (get_rtc_process_type env) col cx.try_lock_owns kernel_src
            gpu_arch).1 := by
    intro hin
    rcases List.mem_append.1 hin with hin | hin
    · rcases List.mem_append.1 hin with hin | hin
      · cases lookup_events_mem st _ _ hin
      · simp at hin
    · exact compile_switch_no_store _ col _ kernel_src gpu_arch k code hin
  cases hc : (compile_switch (get_rtc_process_type env) col cx.try_lock_owns kernel_src
      gpu_arch).2 with
  | error e =>
    rw [hc] at hm
    rw [hm] at h
    exact absurd h hnot
  | ok code2 =>
    rw [hc] at hm
    cases hs : st.single with
    | none =>
      rw [hs] at hm
      rw [hm] at h
      exact absurd h hnot
    | some c =>
      rw [hs] at hm
      rw [hm] at h
      rcases List.mem_append.1 h with hin | hin
      · exact absurd hin hnot
      · simp only [List.mem_singleton, Event.store_code_object.injEq] at hin
        obtain ⟨hk, hcode⟩ := hin
        subst hcode
        obtain ⟨hor, hD⟩ := compile_switch_ok (get_rtc_process_type env) col cx.try_lock_owns
          kernel_src gpu_arch code hc
        refine ⟨hip_version, kernel_src, hv, hgen, hk, ?_, hD, ?_⟩
        · rw [hm]
          rcases hor with ⟨h1, h2⟩ | ⟨h1, h2⟩
          · exact Or.inl ⟨h1, by simp [h2]⟩
          · exact Or.inr ⟨h1, by simp [h2]⟩
        · intro b hb
          rw [hm] at hb
          simp only at hb
          cases hst : (c.store_code_object env cx.store kernel_name gpu_arch hip_version
              col.generator_sum code).2 with
          | error e => rw [hst] at hb; cases hb
          | ok u => rw [hst] at hb; cases hb; rfl

set_option maxRecDepth 100000 in
/-- C28 (witness): the mutex is held by another thread and the child writes `syntax error`
and exits with status 1; what is stored and returned is the result 1, 2 of the in-process
compiler, which the request then ran. -/
theorem C28_diagnostics_never_cached_witness :
    collaborators_helper_syntax_error.compile_subprocess "src" "gfx900" = .error "syntax error"
    ∧ collaborators_helper_syntax_error.compile_inprocess "src" "gfx900" = .ok [1, 2]
    ∧ (∀ b, (cached_compile state_fresh Env.unset collaborators_helper_syntax_error
        CallContext.lock_held "kernel_a" "gfx900" sample_generate_src).result = .ok b →
        b = [1, 2]) := by
  obtain ⟨hip_version, kernel_src, _, hgen, _, _, hD, hb⟩ :=
    C28_diagnostics_never_cached state_fresh Env.unset collaborators_helper_syntax_error
      CallContext.lock_held "kernel_a" "gfx900" sample_generate_src key_a [1, 2] (by decide)
  cases hgen
  have hsub : collaborators_helper_syntax_error.compile_subprocess "src" "gfx900"
      = .error "syntax error" := by decide
  exact ⟨hsub, hD _ hsub, hb⟩

/-- C29. The compile mutex is always released: a request that does not hold `compile_lock`
on entry does not hold it at the end of the trace of `cached_compile`, in every compile mode
and for every outcome, returned bytes or exception. -/
theorem C29_mutex_released (st : ProcessState) (env : Env) (col : Collaborators)
    (cx : CallContext) (kernel_name gpu_arch : String)
    (generate_src : String → Except String String) :
    held_at_end false
      (cached_compile st env col cx kernel_name gpu_arch generate_src).trace = false :=
  (cached_compile_mutex st env col cx kernel_name gpu_arch generate_src).2

/-- C30 (the code at the failing input). `ATTACH` succeeds and `sqlite3_deserialize` returns
`SQLITE_NOMEM`: `deserialize` returns failure at once, and the database attached under the
name `deserialized` is still attached to the user connection; nothing was attached before
the call. -/
theorem C30_early_return_keeps_attached :
    cache_fresh.db_user.map (fun conn => conn.deserialized) = some Option.none
    ∧ (cache_fresh.deserialize DeserializeFaults.deserialize_nomem (some [])).2
        = .rocfft_status_failure
    ∧ (cache_fresh.deserialize DeserializeFaults.deserialize_nomem (some [])).1.db_user.map
        (fun conn => conn.deserialized) = some (some Option.none) := by
  refine ⟨by decide, by decide, by decide⟩

end RocFFT
